import Mathlib

/-!
Verification of the chord-detection engine of `jules-virtual-piano`
(`src/unnamed/part_003`, a TypeScript port of the pizmidi midiChordAnalyzer).

The definitions below are a shallow embedding of that file, function by
function.  JavaScript numbers are modelled as `Int` (all arithmetic in the
engine is exact integer arithmetic), JS `null` results as `Option`, and the
module-level mutable array `CHORD_FORMULAS` as the list produced by the
module's top-level initialization sequence.  Modelling choices, each noted
again at its definition:
* JS `%` is truncating remainder, i.e. `Int.tmod`;
* the two `while` loops are translated as fuel-based structural recursions
  whose fuel provably never runs out (their defining equations are proved
  as lemmas `wrapUp_neg`/`wrapUp_nonneg`), so that the kernel can evaluate
  them;
* `Array.prototype.sort` is required to be stable (ES2019) and a stable
  sort's output is uniquely determined by the comparator, so it is modelled
  by `List.insertionSort`, which is stable;
* `String.prototype.localeCompare` on strings made of digits and commas
  orders them exactly as code-point comparison does, modelled by explicit
  lexicographic comparison of the character lists.
-/

namespace ChordDetector

/-- `SHARP_NOTES` table from the source. -/
def SHARP_NOTES : List String :=
  ["C", "C#", "D", "D#", "E", ("F"), "F#", "G", "G#", "A", "A#", "B"]

/-- `FLAT_NOTES` table from the source. -/
def FLAT_NOTES : List String :=
  ["C", "Db", "D", "Eb", "E", "F", "Gb", "G", "Ab", "A", "Bb", "B"]

/-- JS `Array.prototype.indexOf`: first index of `t`, or `-1` when absent. -/
def jsIndexOfStr : List String → String → Int
  | [], _ => -1
  | s :: rest, t =>
    if s = t then 0
    else
      let r := jsIndexOfStr rest t
      if r = -1 then -1 else r + 1

/-- JS `Array.prototype.indexOf` on number arrays. -/
def jsIndexOfInt : List Int → Int → Int
  | [], _ => -1
  | s :: rest, t =>
    if s = t then 0
    else
      let r := jsIndexOfInt rest t
      if r = -1 then -1 else r + 1

/-- JS array indexing as it appears inside a template string: an in-range
index yields the element, anything else interpolates as `"undefined"`. -/
def jsElemStr (l : List String) (i : Int) : String :=
  if 0 ≤ i ∧ i.toNat < l.length then l.getD i.toNat "undefined" else "undefined"

/-- `noteToMidi` from the source: the regex `^([A-G]#?)([0-9])$` admits a
letter, an optional sharp, and one digit; on a match the result is
`12 * (octave + 1) + SHARP_NOTES.indexOf(name)`, otherwise `-1`. -/
def noteToMidi (note : String) : Int :=
  match note.data with
  | [c, d] =>
    if 'A' ≤ c ∧ c ≤ 'G' ∧ '0' ≤ d ∧ d ≤ '9' then
      12 * (((d.toNat : Int) - 48) + 1) + jsIndexOfStr SHARP_NOTES (String.mk [c])
    else -1
  | [c, h, d] =>
    if h = '#' ∧ 'A' ≤ c ∧ c ≤ 'G' ∧ '0' ≤ d ∧ d ≤ '9' then
      12 * (((d.toNat : Int) - 48) + 1) + jsIndexOfStr SHARP_NOTES (String.mk [c, '#'])
    else -1
  | _ => -1

/-- `midiToNoteName` from the source: `((midi % 12) + 12) % 12` indexed into
the chosen spelling table (JS `%` is truncating remainder). -/
def midiToNoteName (midi : Int) (useSharps : Bool) : String :=
  jsElemStr (if useSharps then SHARP_NOTES else FLAT_NOTES)
    (Int.tmod (Int.tmod midi 12 + 12) 12)

/-- The `while (diff > 21) diff -= 12` loop of `getIntervalName`, with an
explicit iteration budget (each pass subtracts 12, so `d.toNat` passes
always suffice). -/
def reduce21Aux : Nat → Int → Int
  | 0, d => d
  | k + 1, d => if 21 < d then reduce21Aux k (d - 12) else d

/-- The folded absolute distance used by `getIntervalName`. -/
def reduce21 (d : Int) : Int :=
  reduce21Aux d.toNat d

/-- `getIntervalName` from the source: `Math.abs`, the fold-down loop, then
the switch; `none` models the `null` default branch. -/
def getIntervalName (semitones : Int) : Option String :=
  let diff := reduce21 (if semitones < 0 then -semitones else semitones)
  if diff = 0 then some "Unison"
  else if diff = 1 then some "Minor 2nd"
  else if diff = 2 then some "Major 2nd"
  else if diff = 3 then some "Minor 3rd"
  else if diff = 4 then some "Major 3rd"
  else if diff = 5 then some "Perfect 4th"
  else if diff = 6 then some "Tritone"
  else if diff = 7 then some "Perfect 5th"
  else if diff = 8 then some "Minor 6th (or #5)"
  else if diff = 9 then some "Major 6th"
  else if diff = 10 then some "Minor 7th"
  else if diff = 11 then some "Major 7th"
  else if diff = 12 then some "Octave"
  else if diff = 13 then some "Flat 9th"
  else if diff = 14 then some "9th"
  else if diff = 15 then some "Minor 10th (or #9)"
  else if diff = 16 then some "Major 10th"
  else if diff = 17 then some "11th"
  else if diff = 18 then some "Augmented 11th"
  else if diff = 19 then some "Perfect 12th"
  else if diff = 20 then some "Flat 13th"
  else if diff = 21 then some "13th"
  else none

/-- The destructuring swap `[array[n-1], array[j]] = [array[j], array[n-1]]`
on a list: both reads happen before either write.  (The generator in the
source is generic, so the swap is modelled polymorphically.) -/
def lswap {α : Type} [Inhabited α] (a : List α) (i j : Nat) : List α :=
  (a.set i (a.getD j default)).set j (a.getD i default)

/-- The `for (let i = 0; i < n; i++)` loop body of the generator
`permutations`: `k` remaining iterations, `i` the current loop index, `f`
the recursive call for size `n - 1`.  Returns the yielded snapshots in
order together with the final array state. -/
def heapIter {α : Type} [Inhabited α] (f : List α → List (List α) × List α)
    (n : Nat) : Nat → Nat → List α → List (List α) × List α
  | 0, _, a => ([], a)
  | k + 1, i, a =>
    let r1 := f a
    let j := if n % 2 = 1 then 0 else i
    let a2 := lswap r1.2 (n - 1) j
    let r2 := heapIter f n k (i + 1) a2
    (r1.1 ++ r2.1, r2.2)

/-- The generator `permutations` (Heap's algorithm).  `heapGo n a` is the
call `permutations(array, n)` on state `a`: for `n ≤ 1` it yields one
snapshot (`array.slice()` — yields are fresh copies, not aliases), else it
runs the loop.  Result: (yielded lists, final array state). -/
def heapGo {α : Type} [Inhabited α] : Nat → List α → List (List α) × List α
  | 0, a => ([a], a)
  | 1, a => ([a], a)
  | n + 2, a => heapIter (heapGo (n + 1)) (n + 2) (n + 2) 0 a

/-- All snapshots yielded by `permutations([...array])`. -/
def permutationsJS {α : Type} [Inhabited α] (a : List α) : List (List α) :=
  (heapGo a.length a).1

/-- The `while (interval < 0) interval += 12` loop of `getIntervalPattern`,
with an explicit iteration budget (each pass adds 12, so `d.natAbs` passes
always suffice; lemmas `wrapUp_nonneg` and `wrapUp_neg` below recover the
loop's defining equations). -/
def wrapUpAux : Nat → Int → Int
  | 0, d => d
  | k + 1, d => if d < 0 then wrapUpAux k (d + 12) else d

/-- The normalized interval of `getIntervalPattern`. -/
def wrapUp (d : Int) : Int :=
  wrapUpAux d.natAbs d

/-- The loop `for (i = 0; i < chord.length - 1; i++)
pattern.push(wrap(chord[i+1] - chord[i]))` of `getIntervalPattern`: one
wrapped forward difference per adjacent pair, in order. -/
def adjacentIntervals : List Int → List Int
  | a :: b :: rest => wrapUp (b - a) :: adjacentIntervals (b :: rest)
  | _ => []

/-- `getIntervalPattern` from the source: `[0]` for lists shorter than two,
else the adjacent forward differences wrapped up to be non-negative. -/
def getIntervalPattern (chord : List Int) : List Int :=
  if chord.length < 2 then [0]
  else adjacentIntervals chord

/-- `pattern.join(',')`; JS number-to-string agrees with `toString` on
integers. -/
def joinComma : List Int → String
  | [] => ""
  | [x] => toString x
  | x :: y :: rest => toString x ++ "," ++ joinComma (y :: rest)

/-- `names.join(', ')` as used by the fallback output. -/
def joinCommaSpace : List String → String
  | [] => ""
  | [x] => x
  | x :: y :: rest => x ++ ", " ++ joinCommaSpace (y :: rest)

/-- `pattern.reduce((sum, val) => sum + val, 0)`. -/
def chordEnergy (pat : List Int) : Int :=
  pat.foldl (· + ·) 0

/-- Code-point lexicographic comparison of character lists: exactly the
order `<`/`localeCompare` induces on strings of digits and commas. -/
def charListLe : List Char → List Char → Bool
  | [], _ => true
  | _ :: _, [] => false
  | a :: as, b :: bs => if a < b then true else if b < a then false else charListLe as bs

/-- The comparator `(a, b) => a.patternStr.localeCompare(b.patternStr)` of
`getAsStackedChord`, as the ordering it induces on the collected entries
(it reads only the pattern string, so it is polymorphic in the chord). -/
def patLe {α : Type} (a b : α × String) : Prop :=
  charListLe a.2.data b.2.data = true

instance {α : Type} : DecidableRel (α := α × String) patLe := fun a b => by
  unfold patLe; infer_instance

/-- The `for (const p of permutations(...))` loop of `getAsStackedChord`:
running minimum energy (`-1` = nothing seen yet) and the collected
minimum-energy chords with their joined pattern strings. -/
def stackLoop : List (List Int) → Int → List (List Int × String) →
    Int × List (List Int × String)
  | [], minE, acc => (minE, acc)
  | p :: ps, minE, acc =>
    let pattern := getIntervalPattern p
    let energy := chordEnergy pattern
    if energy < minE ∨ minE = -1 then
      stackLoop ps energy [(p, joinComma pattern)]
    else if energy = minE then
      stackLoop ps minE (acc ++ [(p, joinComma pattern)])
    else
      stackLoop ps minE acc

/-- `getAsStackedChord` from the source: inputs of length ≤ 1 are returned
as-is; otherwise the minimum-energy permutations are collected, stably
sorted by their comma-joined pattern string, and the first chord is
returned.  `Array.prototype.sort` is stable, and a stable sort's output is
determined by the comparator alone, so the stable `insertionSort` models
it. -/
def getAsStackedChord (noteClasses : List Int) : List Int :=
  if noteClasses.length ≤ 1 then noteClasses
  else
    let r := stackLoop (permutationsJS noteClasses) (-1) []
    ((r.2.insertionSort patLe).headD ([], "")).1

/-!
Fast mirror of the stacking search over `Nat`.

`getAsStackedChord` is the definition translated from the source; kernel
evaluation of its `Int` arithmetic is slow, so concrete instances are
computed through the following structurally identical `Nat`-valued mirror,
which theorem `getAsStackedChord_eq_fast` below proves equal to it on every
list of pitch classes in `[0, 11]`.  Nothing is proved about the program
from the mirror except through that equality.
-/

/-- Mirror of `wrapUp (b - a)` for `a, b < 12`. -/
def stepN (a b : Nat) : Nat :=
  if a ≤ b then b - a else b + 12 - a

/-- Mirror of `adjacentIntervals`. -/
def adjacentIntervalsN : List Nat → List Nat
  | a :: b :: rest => stepN a b :: adjacentIntervalsN (b :: rest)
  | _ => []

/-- Mirror of `getIntervalPattern`. -/
def getIntervalPatternN (chord : List Nat) : List Nat :=
  if chord.length < 2 then [0]
  else adjacentIntervalsN chord

/-- Mirror of `joinComma`. -/
def joinCommaN : List Nat → String
  | [] => ""
  | [x] => toString x
  | x :: y :: rest => toString x ++ "," ++ joinCommaN (y :: rest)

/-- Mirror of `chordEnergy`. -/
def chordEnergyN (pat : List Nat) : Nat :=
  pat.foldl (· + ·) 0

/-- Mirror of `stackLoop`; the running minimum is `none` while the `-1`
sentinel is in force. -/
def stackLoopN : List (List Nat) → Option Nat → List (List Nat × String) →
    Option Nat × List (List Nat × String)
  | [], minE, acc => (minE, acc)
  | p :: ps, minE, acc =>
    let pattern := getIntervalPatternN p
    let energy := chordEnergyN pattern
    match minE with
    | none => stackLoopN ps (some energy) [(p, joinCommaN pattern)]
    | some m =>
      if energy < m then stackLoopN ps (some energy) [(p, joinCommaN pattern)]
      else if energy = m then stackLoopN ps (some m) (acc ++ [(p, joinCommaN pattern)])
      else stackLoopN ps (some m) acc

/-- Mirror of `getAsStackedChord`. -/
def getAsStackedChordN (noteClasses : List Nat) : List Nat :=
  if noteClasses.length ≤ 1 then noteClasses
  else
    let r := stackLoopN (permutationsJS noteClasses) none []
    ((r.2.insertionSort patLe).headD ([], "")).1

/-- A chord template: display name, canonical interval-pattern string, and
the canonical ordering's index of the definition's nominated root. -/
structure ChordFormula where
  name : String
  pattern : String
  rootIndex : Int
deriving DecidableEq, Repr

/-- JS `String.prototype.replace(pat, rep)` replaces the first occurrence of
`pat`.  Every token fed through the chain below has at most two characters,
the length of every pattern, so an occurrence forces the whole string to
equal the pattern. -/
def rpl (pat rep s : String) : String :=
  if s = pat then rep else s

/-- `String.prototype.toUpperCase` on the ASCII note tokens. -/
def strUpper (s : String) : String :=
  String.mk (s.data.map Char.toUpper)

/-- The `toUpperCase().replace(...)` normalization chain of `defineChord`,
applied left-to-right as in the source. -/
def normToken (s : String) : String :=
  rpl "BB" "A#" (rpl "AB" "G#" (rpl "GB" "F#" (rpl "EB" "D#" (rpl "DB" "C#"
    (rpl "CB" "B" (rpl "FB" "E" (rpl "E#" "F" (rpl "B#" "C" (strUpper s)))))))))

/-- `String.prototype.split(',')`, character by character. -/
def splitCommaAux : List Char → List Char → List String
  | [], acc => [String.mk acc]
  | c :: cs, acc =>
    if c = ',' then String.mk acc :: splitCommaAux cs []
    else splitCommaAux cs (acc ++ [c])

/-- `noteStr.split(',')`. -/
def splitComma (s : String) : List String :=
  splitCommaAux s.data []

/-- `defineChord` from the source, returning the template it appends. -/
def defineChord (name noteStr : String) : ChordFormula :=
  let notes := (splitComma noteStr).map
    (fun n => jsIndexOfStr SHARP_NOTES (normToken n))
  let stacked := getAsStackedChord notes
  let rootNote := notes.headD 0
  let rootIndex := jsIndexOfInt stacked rootNote
  let pattern := joinComma (getIntervalPattern stacked)
  { name := name, pattern := pattern, rootIndex := rootIndex }

/-- The 60 top-level `defineChord` calls, in source order. -/
def CHORD_DEFS : List (String × String) :=
  [("", "c,e,g"),
   ("5", "c,g"),
   ("6(no3)", "c,g,a"),
   ("Maj7", "c,e,g,b"),
   ("Maj7(#11)", "c,e,f#,b"),
   ("add9", "c,e,g,d"),
   ("Maj7(9)", "c,d,e,b"),
   ("6(9)", "c,d,e,a"),
   ("+", "c,e,g#"),
   ("m", "c,eb,g"),
   ("madd9", "c,eb,g,d"),
   ("m7", "c,eb,g,bb"),
   ("m7(9)", "c,d,eb,bb"),
   ("mMaj7", "c,eb,g,b"),
   ("mMaj7(9)", "c,d,eb,b"),
   ("dim", "c,eb,f#"),
   ("dim7", "c,eb,f#,a"),
   ("7", "c,e,g,bb"),
   ("7(no5)", "c,e,bb"),
   ("7sus4", "c,f,g,bb"),
   ("7(b5)", "c,e,f#,bb"),
   ("7(9)", "c,d,e,bb"),
   ("7(13)", "c,e,a,bb"),
   ("7(b9)", "c,c#,e,bb"),
   ("+7", "c,e,g#,bb"),
   ("7(#9)", "c,eb,e,bb"),
   ("sus4", "c,f,g"),
   ("6add9", "c,e,g,a,d"),
   ("Maj9", "c,e,g,b,d"),
   ("9", "c,e,g,bb,d"),
   ("13", "c,e,g,bb,d,a"),
   ("13", "c,e,g,bb,d,f,a"),
   ("13", "c,e,bb,d,a"),
   ("m6", "c,eb,g,a"),
   ("m6add9", "c,eb,g,a,d"),
   ("m6/9", "c,eb,a,d"),
   ("m7add13", "c,eb,g,a,bb"),
   ("m9", "c,eb,g,bb,d"),
   ("m11", "c,eb,g,bb,d,f"),
   ("m11", "c,eb,bb,d,f"),
   ("m13", "c,eb,g,bb,d,f,a"),
   ("m9/Maj7", "c,eb,g,b,d"),
   ("m9(b5)", "c,eb,gb,bb,d"),
   ("m11(b5)", "c,eb,gb,bb,d,f"),
   ("Maj7(#5)", "c,e,g#,b"),
   ("Maj7(#11)", "c,e,g,b,f#"),
   ("Maj9(#11)", "c,e,g,b,d,f#"),
   ("7(b9)", "c,e,g,bb,db"),
   ("7(#9)", "c,e,g,bb,d#"),
   ("7(#5)(#9)", "c,e,g#,bb,d#"),
   ("7(#11)", "c,e,g,bb,f#"),
   ("9(#11)", "c,e,g,bb,d,f#"),
   ("7(b9)(#11)", "c,e,g,bb,db,f#"),
   ("13b5", "c,e,gb,bb,d,a"),
   ("13b5", "c,e,gb,bb,d,f,a"),
   ("13b9", "c,e,g,bb,db,a"),
   ("13b9", "c,e,g,bb,db,f,a"),
   ("13#11", "c,e,g,bb,d,f#,a"),
   ("7(no3)", "c,g,bb"),
   ("Maj7(no5)", "c,e,b")]

/-- The three `defineChord` calls inside the
`if (CHORD_FORMULAS.length === 0)` block at the end of the module. -/
def SUPPLEMENTARY_DEFS : List (String × String) :=
  [("m(maj9)", "c,d#,g,b,d"),
   ("m7(b9)", "c,d#,g,a#,c#"),
   ("Maj7(#5)", "c,e,g#,b")]

/-- The database after the 60 top-level `defineChord` calls have run. -/
def CHORD_FORMULAS_base : List ChordFormula :=
  CHORD_DEFS.map (fun p => defineChord p.1 p.2)

/-- The final value of `CHORD_FORMULAS` after module initialization: the
trailing block appends the supplementary templates only when the array is
still empty at that point. -/
def CHORD_FORMULAS : List ChordFormula :=
  if CHORD_FORMULAS_base.length = 0 then
    CHORD_FORMULAS_base ++ SUPPLEMENTARY_DEFS.map (fun p => defineChord p.1 p.2)
  else CHORD_FORMULAS_base

/-- JS `new Set(xs)` iterated back into an array: insert each element in
order, keeping only first occurrences. -/
def setDedup (l : List Int) : List Int :=
  l.foldl (fun acc x => if x ∈ acc then acc else acc ++ [x]) []

/-- `detectChord` with the database as an explicit argument (the source
reads the module-level `CHORD_FORMULAS`; every other part of the function
is translated line by line).  The numeric-ascending `sort((a, b) => a - b)`
is modelled by the stable `insertionSort` as above. -/
def detectChordWith (db : List ChordFormula) (notes : List String)
    (useFlats : Bool) : Option String :=
  if notes.length = 0 then none
  else
    let midiNotes := (notes.map noteToMidi).insertionSort (fun a b => a ≤ b)
    let bassNote := midiNotes.headD 0
    let useSharps := !useFlats
    if midiNotes.length = 1 then
      some (midiToNoteName bassNote useSharps)
    else if midiNotes.length = 2 then
      let name := (getIntervalName (midiNotes.getD 1 0 - midiNotes.getD 0 0)).getD "Interval"
      some (name ++ " (" ++ midiToNoteName (midiNotes.getD 0 0) useSharps ++ ", " ++
        midiToNoteName (midiNotes.getD 1 0) useSharps ++ ")")
    else
      let noteClasses := setDedup (midiNotes.map (fun n => Int.tmod n 12))
      if 9 ≤ noteClasses.length then
        some (midiToNoteName bassNote useSharps ++ " Note Soup")
      else
        let stackedChord := getAsStackedChord noteClasses
        let pattern := joinComma (getIntervalPattern stackedChord)
        match db.find? (fun f => f.pattern = pattern) with
        | some formula =>
          let bassNoteClass := Int.tmod bassNote 12
          let rootNote0 := stackedChord.getD formula.rootIndex.toNat 0
          let rootNote :=
            if formula.name = "dim7" ∨ formula.name = "+" then bassNoteClass
            else rootNote0
          let chordName := midiToNoteName rootNote useSharps ++ formula.name
          some (if rootNote ≠ bassNoteClass then
              chordName ++ "/" ++ midiToNoteName bassNoteClass useSharps
            else chordName)
        | none =>
          some ("(" ++ joinCommaSpace
            (noteClasses.map (fun n =>
              jsElemStr (if useSharps then SHARP_NOTES else FLAT_NOTES) n)) ++ ")")

/-- The exported `detectChord`; `useFlats` defaults to `false` at call
sites that omit the options object. -/
def detectChord (notes : List String) (useFlats : Bool) : Option String :=
  detectChordWith CHORD_FORMULAS notes useFlats

/-!
### The round-trip driver of the spec (not part of the source module)

The spec's round-trip sanity property feeds each template's defining note
set back through `detect` "at the template's nominal octave".  The driver
below is modelled on those words (the source repository contains no such
driver): each token is normalized exactly as `defineChord` normalizes it,
spelled with the sharp table, and given octave 4 — the nominal octave of
every example in the spec. -/
def templateQueryNotes (noteStr : String) : List String :=
  (splitComma noteStr).map (fun n =>
    jsElemStr SHARP_NOTES (jsIndexOfStr SHARP_NOTES (normToken n)) ++ "4")

/-- "Resolves to a name whose suffix equals the template's `displayName`":
the detector produced a string and the display name is a suffix of it. -/
def suffixOK (dispName : String) : Option String → Bool
  | none => false
  | some s => List.isSuffixOf dispName.data s.data

/-- The round-trip property for one (displayName, noteStr) template pair. -/
def roundTripOK (p : String × String) : Bool :=
  suffixOK p.1 (detectChord (templateQueryNotes p.2) false)

/-- The value of `CHORD_FORMULAS` as an explicit literal; theorem
`CHORD_FORMULAS_eq` below proves it equal to the built database. -/
def CHORD_FORMULAS_value : List ChordFormula :=
  [⟨"", "4,3", 0⟩,
   ⟨"5", "5", 1⟩,
   ⟨"6(no3)", "2,3", 2⟩,
   ⟨"Maj7", "1,4,3", 1⟩,
   ⟨"Maj7(#11)", "1,4,2", 1⟩,
   ⟨"add9", "2,2,3", 0⟩,
   ⟨"Maj7(9)", "1,2,2", 1⟩,
   ⟨"6(9)", "3,2,2", 1⟩,
   ⟨"+", "4,4", 0⟩,
   ⟨"m", "3,4", 0⟩,
   ⟨"madd9", "2,1,4", 0⟩,
   ⟨"m7", "3,2,3", 2⟩,
   ⟨"m7(9)", "2,2,1", 1⟩,
   ⟨"mMaj7", "1,3,4", 1⟩,
   ⟨"mMaj7(9)", "1,2,1", 1⟩,
   ⟨"dim", "3,3", 0⟩,
   ⟨"dim7", "3,3,3", 0⟩,
   ⟨"7", "3,3,2", 3⟩,
   ⟨"7(no5)", "2,4", 1⟩,
   ⟨"7sus4", "2,3,2", 3⟩,
   ⟨"7(b5)", "2,4,2", 3⟩,
   ⟨"7(9)", "2,2,2", 1⟩,
   ⟨"7(13)", "1,2,4", 2⟩,
   ⟨"7(b9)", "2,1,3", 1⟩,
   ⟨"+7", "2,2,4", 2⟩,
   ⟨"7(#9)", "2,3,1", 1⟩,
   ⟨"sus4", "2,5", 2⟩,
   ⟨"6add9", "2,2,3,2", 0⟩,
   ⟨"Maj9", "1,2,2,3", 1⟩,
   ⟨"9", "2,2,2,3", 1⟩,
   ⟨"13", "2,1,2,2,2", 3⟩,
   ⟨"13", "1,2,2,1,2,2", 5⟩,
   ⟨"13", "1,2,2,2", 2⟩,
   ⟨"m6", "2,3,3", 2⟩,
   ⟨"m6add9", "2,3,2,1", 2⟩,
   ⟨"m6/9", "3,2,1", 1⟩,
   ⟨"m7add13", "2,1,2,3", 3⟩,
   ⟨"m9", "3,2,2,1", 2⟩,
   ⟨"m11", "2,2,1,2,2", 1⟩,
   ⟨"m11", "2,2,1,2", 1⟩,
   ⟨"m13", "1,2,2,1,2,2", 2⟩,
   ⟨"m9/Maj7", "1,2,1,4", 1⟩,
   ⟨"m9(b5)", "2,2,1,3", 1⟩,
   ⟨"m11(b5)", "2,2,1,2,1", 1⟩,
   ⟨"Maj7(#5)", "3,1,4", 2⟩,
   ⟨"Maj7(#11)", "1,4,2,1", 1⟩,
   ⟨"Maj9(#11)", "1,2,2,2,1", 1⟩,
   ⟨"7(b9)", "2,1,3,3", 1⟩,
   ⟨"7(#9)", "1,3,3,2", 4⟩,
   ⟨"7(#5)(#9)", "2,2,3,1", 2⟩,
   ⟨"7(#11)", "2,1,3,2", 4⟩,
   ⟨"9(#11)", "2,2,2,2,1", 1⟩,
   ⟨"7(b9)(#11)", "2,1,3,2,1", 1⟩,
   ⟨"13b5", "1,2,2,2,2", 2⟩,
   ⟨"13b5", "1,2,2,2,1,1", 2⟩,
   ⟨"13b9", "2,1,2,1,3", 3⟩,
   ⟨"13b9", "1,2,2,1,2,1", 5⟩,
   ⟨"13#11", "1,2,1,2,2,2", 4⟩,
   ⟨"7(no3)", "3,2", 2⟩,
   ⟨"Maj7(no5)", "1,4", 1⟩]

/-!
### Auxiliary definitions for the theorem statements
-/

/-- Energy of an ordering, exactly as the search loop computes it. -/
def energyOf (p : List Int) : Int :=
  chordEnergy (getIntervalPattern p)

/-- Comma-joined interval-pattern string of an ordering, exactly as the
search loop computes it. -/
def patStrOf (p : List Int) : String :=
  joinComma (getIntervalPattern p)

/-- Right rotation of the first `n` entries of a list (the net effect of
one level of Heap's algorithm when `n` is even). -/
def rotPre {α : Type} (n : Nat) (a : List α) : List α :=
  (a.take n).rotate (n - 1) ++ a.drop n

/-- The net effect of `permutations(array, n)` on the array: a right
rotation of the first `n` entries when `n` is even (and at least 2),
nothing otherwise. -/
def heapState {α : Type} (n : Nat) (a : List α) : List α :=
  if n % 2 = 0 ∧ 2 ≤ n then rotPre n a else a

/-- The array states visited by the generator's loop: `loopStates E n m i a`
is the state after `m` iterations starting at loop index `i`, where each
iteration first runs the size-`n - 1` sub-generator (net effect `E`) and
then performs the parity-dependent swap. -/
def loopStates {α : Type} [Inhabited α] (E : List α → List α) (n : Nat) :
    Nat → Nat → List α → List α
  | 0, _, a => a
  | m + 1, i, a =>
    loopStates E n m (i + 1) (lswap (E a) (n - 1) (if n % 2 = 1 then 0 else i))

/-- The standard pitch class of a plain letter A–G (what the spec means by
"pitchClass" when describing the parsed absolute pitch). -/
def letterPC (c : Char) : Int :=
  if c = 'C' then 0 else if c = 'D' then 2 else if c = 'E' then 4
  else if c = 'F' then 5 else if c = 'G' then 7 else if c = 'A' then 9
  else 11

/-- The shape `[A-G](#)?[0-9]` of a note identifier (the regex of
`noteToMidi`), as a Boolean predicate on the raw string. -/
def isNoteIdForm (s : String) : Bool :=
  match s.data with
  | [c, d] => decide ('A' ≤ c ∧ c ≤ 'G' ∧ '0' ≤ d ∧ d ≤ '9')
  | [c, h, d] => decide (h = '#' ∧ 'A' ≤ c ∧ c ≤ 'G' ∧ '0' ≤ d ∧ d ≤ '9')
  | _ => false

/-!
### The wrap-up loop: its defining equations and range
-/

theorem wrapUpAux_of_nonneg (k : Nat) (d : Int) (h : 0 ≤ d) : wrapUpAux k d = d := by
  cases k with
  | zero => rfl
  | succ k => simp [wrapUpAux, Int.not_lt.mpr h]

theorem wrapUpAux_congr : ∀ (k₁ k₂ : Nat) (d : Int), -d ≤ 12 * k₁ → -d ≤ 12 * k₂ →
    wrapUpAux k₁ d = wrapUpAux k₂ d := by
  intro k₁
  induction k₁ with
  | zero =>
    intro k₂ d h1 _
    exact (wrapUpAux_of_nonneg k₂ d (by omega)).symm
  | succ k ih =>
    intro k₂ d h1 h2
    by_cases hd : d < 0
    · cases k₂ with
      | zero => exact absurd hd (by omega)
      | succ k₂ =>
        simp only [wrapUpAux, if_pos hd]
        exact ih k₂ (d + 12) (by omega) (by omega)
    · simp only [wrapUpAux, if_neg hd]
      exact (wrapUpAux_of_nonneg k₂ d (by omega)).symm

/-- First defining equation of the `while (interval < 0)` loop: nothing
happens on a non-negative interval. -/
theorem wrapUp_of_nonneg (d : Int) (h : 0 ≤ d) : wrapUp d = d :=
  wrapUpAux_of_nonneg _ _ h

/-- Second defining equation of the `while (interval < 0)` loop: a negative
interval gains 12 and the loop continues. -/
theorem wrapUp_neg (d : Int) (h : d < 0) : wrapUp d = wrapUp (d + 12) := by
  unfold wrapUp
  rcases e : d.natAbs with _ | m
  · exact absurd h (by omega)
  · rw [wrapUpAux, if_pos h]
    exact wrapUpAux_congr m (d + 12).natAbs (d + 12) (by omega) (by omega)

theorem wrapUp_nonneg : ∀ d : Int, 0 ≤ wrapUp d := by
  suffices aux : ∀ (n : Nat) (d : Int), (-d).toNat ≤ n → 0 ≤ wrapUp d by
    intro d; exact aux (-d).toNat d le_rfl
  intro n
  induction n with
  | zero =>
    intro d h
    rw [wrapUp_of_nonneg d (by omega)]; omega
  | succ n ih =>
    intro d h
    by_cases hd : d < 0
    · rw [wrapUp_neg d hd]
      exact ih (d + 12) (by omega)
    · rw [wrapUp_of_nonneg d (by omega)]; omega

/-- On the interval `(-12, 12)` the wrapped value is the Euclidean
remainder mod 12. -/
theorem wrapUp_eq_emod (d : Int) (h1 : -12 < d) (h2 : d < 12) : wrapUp d = d % 12 := by
  by_cases hd : 0 ≤ d
  · rw [wrapUp_of_nonneg d hd]; omega
  · rw [wrapUp_neg d (by omega), wrapUp_of_nonneg (d + 12) (by omega)]; omega

theorem wrapUp_bounds (d : Int) (h1 : -12 < d) (h2 : d < 12) (h3 : d ≠ 0) :
    1 ≤ wrapUp d ∧ wrapUp d ≤ 11 := by
  rw [wrapUp_eq_emod d h1 h2]; omega

/-!
### The interval pattern (claim C5)
-/

theorem adjacentIntervals_length : ∀ l : List Int,
    (adjacentIntervals l).length = l.length - 1 := by
  intro l
  induction l with
  | nil => rfl
  | cons a t ih =>
    cases t with
    | nil => rfl
    | cons b r =>
      simp only [adjacentIntervals, List.length_cons] at ih ⊢
      omega

theorem adjacentIntervals_getElem? : ∀ (l : List Int) (i : Nat), i + 1 < l.length →
    (adjacentIntervals l)[i]? = some (wrapUp (l.getD (i + 1) 0 - l.getD i 0)) := by
  intro l
  induction l with
  | nil => intro i h; simp at h
  | cons a t ih =>
    cases t with
    | nil => intro i h; simp at h
    | cons b r =>
      intro i h
      cases i with
      | zero => simp [adjacentIntervals]
      | succ i =>
        have h' : i + 1 < (b :: r).length := by
          simpa using h
        simpa [adjacentIntervals] using ih i h'

theorem adjacentIntervals_mem : ∀ l : List Int, l.Nodup →
    (∀ x ∈ l, 0 ≤ x ∧ x < 12) → ∀ v ∈ adjacentIntervals l, 1 ≤ v ∧ v ≤ 11 := by
  intro l
  induction l with
  | nil => intro _ _ v hv; simp [adjacentIntervals] at hv
  | cons a t ih =>
    cases t with
    | nil => intro _ _ v hv; simp [adjacentIntervals] at hv
    | cons b r =>
      intro hnd hb v hv
      rcases (List.mem_cons).mp hv with hv | hv
      · subst hv
        have hab : a ≠ b := by
          intro e
          exact hnd.not_mem (by rw [e]; exact List.mem_cons_self _ _)
        have ha := hb a (by simp)
        have hbb := hb b (by simp)
        exact wrapUp_bounds _ (by omega) (by omega) (by omega)
      · exact ih hnd.of_cons (fun x hx => hb x (List.mem_cons_of_mem a hx)) v hv

/-- C5: for an ordering of `n ≥ 2` distinct pitch classes in `[0, 11]` the
interval pattern has length `n − 1` and each entry is the forward
wrap-around distance `(next − cur) mod 12`, which lies in `[1, 11]` and is
never 0; a single-pitch-class input yields the degenerate pattern `[0]`. -/
theorem C5_interval_pattern (l : List Int) (hnd : l.Nodup)
    (hb : ∀ x ∈ l, 0 ≤ x ∧ x < 12) :
    (2 ≤ l.length →
      (getIntervalPattern l).length = l.length - 1 ∧
      (∀ i : Nat, i + 1 < l.length →
        (getIntervalPattern l)[i]? =
          some ((l.getD (i + 1) 0 - l.getD i 0) % 12)) ∧
      (∀ v ∈ getIntervalPattern l, 1 ≤ v ∧ v ≤ 11)) ∧
    (∀ x : Int, getIntervalPattern [x] = [0]) := by
  constructor
  · intro h2
    have hne : ¬ (l.length < 2) := by omega
    refine ⟨?_, ?_, ?_⟩
    · rw [getIntervalPattern, if_neg hne]
      exact adjacentIntervals_length l
    · intro i hi
      rw [getIntervalPattern, if_neg hne, adjacentIntervals_getElem? l i hi]
      have hm1 : l.getD (i + 1) 0 ∈ l := by
        rw [List.getD_eq_getElem?_getD, List.getElem?_eq_getElem hi]
        exact List.getElem_mem _
      have hm0 : l.getD i 0 ∈ l := by
        rw [List.getD_eq_getElem?_getD, List.getElem?_eq_getElem (by omega : i < l.length)]
        exact List.getElem_mem _
      have b1 := hb _ hm1
      have b0 := hb _ hm0
      rw [wrapUp_eq_emod _ (by omega) (by omega)]
    · intro v hv
      rw [getIntervalPattern, if_neg hne] at hv
      exact adjacentIntervals_mem l hnd hb v hv
  · intro x; rfl

/-- Witness for C5 at the concrete ordering `[0, 4, 7]`. -/
theorem C5_witness :
    (2 ≤ ([0, 4, 7] : List Int).length →
      (getIntervalPattern [0, 4, 7]).length = ([0, 4, 7] : List Int).length - 1 ∧
      (∀ i : Nat, i + 1 < ([0, 4, 7] : List Int).length →
        (getIntervalPattern [0, 4, 7])[i]? =
          some ((([0, 4, 7] : List Int).getD (i + 1) 0 -
            ([0, 4, 7] : List Int).getD i 0) % 12)) ∧
      (∀ v ∈ getIntervalPattern [0, 4, 7], 1 ≤ v ∧ v ≤ 11)) ∧
    (∀ x : Int, getIntervalPattern [x] = [0]) :=
  C5_interval_pattern [0, 4, 7] (by decide) (by decide)

/-!
### Parsing note identifiers (claim C8)
-/

/-- C8 counterexample: `"B#4"` is a letter + sharp + digit string, but its
name part is missing from the sharp table, so `indexOf` contributes `-1`
and the result is 59 rather than the absolute pitch 60 of B#4 (pitch class
0, octave 4) — and 59 is not the `-1` sentinel either. -/
theorem C8_counterexample : noteToMidi "B#4" = 59 ∧ noteToMidi "B#4" ≠ 60 := by decide

/-- C8 amended: `noteToMidi` maps a plain letter + digit to
`12 * (octave + 1) + pitchClass`; a letter + `#` + digit whose sharp name
is one of the 12 table names to `12 * (octave + 1) + (pitchClass + 1)`;
the two table-missing names `B#`, `E#` to `12 * (octave + 1) - 1`; and
every string not of the regex shape (including any with a signed octave)
to the sentinel `-1`. -/
theorem C8_noteToMidi_characterization :
    (∀ c ∈ (['A', 'B', 'C', 'D', 'E', 'F', 'G'] : List Char), ∀ d : Char,
      '0' ≤ d → d ≤ '9' →
      noteToMidi (String.mk [c, d]) = 12 * (((d.toNat : Int) - 48) + 1) + letterPC c) ∧
    (∀ c ∈ (['A', 'C', 'D', 'F', 'G'] : List Char), ∀ d : Char,
      '0' ≤ d → d ≤ '9' →
      noteToMidi (String.mk [c, '#', d]) =
        12 * (((d.toNat : Int) - 48) + 1) + (letterPC c + 1)) ∧
    (∀ c ∈ (['B', 'E'] : List Char), ∀ d : Char,
      '0' ≤ d → d ≤ '9' →
      noteToMidi (String.mk [c, '#', d]) = 12 * (((d.toNat : Int) - 48) + 1) - 1) ∧
    (∀ s : String, isNoteIdForm s = false → noteToMidi s = -1) := by
  refine ⟨?_, ?_, ?_, ?_⟩
  · intro c hc d h0 h9
    fin_cases hc <;>
      simp [noteToMidi, letterPC, jsIndexOfStr, SHARP_NOTES, h0, h9]
  · intro c hc d h0 h9
    fin_cases hc <;>
      simp [noteToMidi, letterPC, jsIndexOfStr, SHARP_NOTES, h0, h9]
  · intro c hc d h0 h9
    fin_cases hc <;>
      · simp [noteToMidi, jsIndexOfStr, SHARP_NOTES, h0, h9]
        omega
  · intro s hs
    obtain ⟨l⟩ := s
    match l with
    | [] => rfl
    | [c] => rfl
    | [c, d] =>
      simp only [isNoteIdForm, decide_eq_false_iff_not] at hs
      simp [noteToMidi, hs]
    | [c, h, d] =>
      simp only [isNoteIdForm, decide_eq_false_iff_not] at hs
      simp [noteToMidi, hs]
    | c₁ :: c₂ :: c₃ :: c₄ :: rest => rfl

/-- Witness for C8 at concrete inputs: `"C4"` parses to pitch 60 and
`"F#3"` to pitch 54. -/
theorem C8_witness :
    noteToMidi (String.mk ['C', '4']) = 12 * ((('4'.toNat : Int) - 48) + 1) + letterPC 'C' ∧
    noteToMidi (String.mk ['F', '#', '3']) =
      12 * ((('3'.toNat : Int) - 48) + 1) + (letterPC 'F' + 1) ∧
    noteToMidi "Hello" = -1 :=
  ⟨C8_noteToMidi_characterization.1 'C' (by decide) '4' (by decide) (by decide),
   C8_noteToMidi_characterization.2.1 'F' (by decide) '3' (by decide) (by decide),
   C8_noteToMidi_characterization.2.2.2 "Hello" (by decide)⟩

/-!
### Heap's algorithm, part 1: the swap and the prefix rotation
-/

section HeapTheory

set_option linter.unusedSectionVars false

variable {α : Type} [Inhabited α]

theorem getD_of_lt (a : List α) (i : Nat) (h : i < a.length) :
    a.getD i default = a[i] := by
  rw [List.getD_eq_getElem?_getD, List.getElem?_eq_getElem h]; rfl

theorem lswap_length (a : List α) (i j : Nat) : (lswap a i j).length = a.length := by
  simp [lswap]

theorem swapAux_perm : ∀ (t : List α) (k : Nat) (x : α), k < t.length →
    (t.getD k default :: t.set k x).Perm (x :: t) := by
  intro t
  induction t with
  | nil => intro k x h; simp at h
  | cons b s ih =>
    intro k x h
    cases k with
    | zero =>
      simp only [List.getD_cons_zero, List.set_cons_zero]
      exact List.Perm.swap x b s
    | succ m =>
      simp only [List.getD_cons_succ, List.set_cons_succ]
      have h1 : (s.getD m default :: b :: s.set m x).Perm
          (b :: s.getD m default :: s.set m x) :=
        List.Perm.swap b (s.getD m default) (s.set m x)
      have h3 : (b :: s.getD m default :: s.set m x).Perm (b :: x :: s) :=
        (ih m x (by simpa using h)).cons b
      exact (h1.trans h3).trans (List.Perm.swap x b s)

theorem lswap_perm : ∀ (a : List α) (i j : Nat), i < a.length → j < a.length →
    (lswap a i j).Perm a := by
  intro a
  induction a with
  | nil => intro i j hi _; simp at hi
  | cons x t ih =>
    intro i j hi hj
    cases i with
    | zero =>
      cases j with
      | zero => simp [lswap]
      | succ m =>
        simp only [lswap, List.getD_cons_succ, List.getD_cons_zero,
          List.set_cons_zero, List.set_cons_succ]
        exact swapAux_perm t m x (by simpa using hj)
    | succ k =>
      cases j with
      | zero =>
        simp only [lswap, List.getD_cons_succ, List.getD_cons_zero,
          List.set_cons_zero, List.set_cons_succ]
        exact swapAux_perm t k x (by simpa using hi)
      | succ m =>
        simp only [lswap, List.getD_cons_succ, List.set_cons_succ]
        have h := ih k m (by simpa using hi) (by simpa using hj)
        simp only [lswap] at h
        exact h.cons x

theorem lswap_getElem? (a : List α) (i j : Nat) (hi : i < a.length)
    (hj : j < a.length) (t : Nat) :
    (lswap a i j)[t]? = if t = i then a[j]? else if t = j then a[i]? else a[t]? := by
  simp only [lswap, List.getElem?_set, List.length_set]
  rw [getD_of_lt a j hj, getD_of_lt a i hi]
  by_cases h1 : t = i
  · by_cases h2 : t = j
    · subst h1; subst h2
      simp [hi, List.getElem?_eq_getElem hi]
    · subst h1
      rw [if_neg (fun e => h2 e.symm), if_pos rfl, if_pos hi, if_pos rfl,
        List.getElem?_eq_getElem hj]
  · by_cases h2 : t = j
    · subst h2
      rw [if_pos rfl, if_pos hj, if_neg h1, if_pos rfl,
        List.getElem?_eq_getElem hi]
    · rw [if_neg (fun e => h2 e.symm), if_neg (fun e => h1 e.symm),
        if_neg h1, if_neg h2]

theorem lswap_self (a : List α) (i : Nat) (h : i < a.length) : lswap a i i = a := by
  apply List.ext_getElem?
  intro t
  rw [lswap_getElem? a i i h h t]
  by_cases ht : t = i
  · subst ht; simp
  · rw [if_neg ht, if_neg ht]

theorem drop_set_of_lt (v : α) : ∀ (l : List α) (i n : Nat), i < n →
    (l.set i v).drop n = l.drop n := by
  intro l
  induction l with
  | nil => intros; rfl
  | cons x t ih =>
    intro i n h
    cases i with
    | zero =>
      cases n with
      | zero => omega
      | succ n => simp [List.set_cons_zero]
    | succ k =>
      cases n with
      | zero => omega
      | succ n =>
        simp only [List.set_cons_succ, List.drop_succ_cons]
        exact ih k n (by omega)

theorem lswap_drop (a : List α) (i j n : Nat) (hi : i < n) (hj : j < n) :
    (lswap a i j).drop n = a.drop n := by
  simp only [lswap]
  rw [drop_set_of_lt _ _ _ _ hj, drop_set_of_lt _ _ _ _ hi]

theorem rotPre_length (n : Nat) (a : List α) : (rotPre n a).length = a.length := by
  simp only [rotPre, List.length_append, List.length_rotate, List.length_take,
    List.length_drop]
  omega

theorem rotPre_perm (n : Nat) (a : List α) : (rotPre n a).Perm a := by
  have h1 : ((a.take n).rotate (n - 1)).Perm (a.take n) :=
    (a.take n).rotate_perm (n - 1)
  have h2 := h1.append_right (a.drop n)
  have h4 : (a.take n ++ a.drop n).Perm a := by
    rw [List.take_append_drop]
  rw [rotPre]
  exact h2.trans h4

theorem rotPre_drop_ge (n t : Nat) (a : List α) (hn : n ≤ a.length) (ht : n ≤ t) :
    (rotPre n a).drop t = a.drop t := by
  have hx : ((a.take n).rotate (n - 1)).length = n := by
    simp [List.length_rotate, List.length_take]; omega
  rw [rotPre]
  rw [show t = ((a.take n).rotate (n - 1)).length + (t - n) by omega]
  rw [List.drop_append, List.drop_drop]
  congr 1
  omega

theorem rotPre_getElem? (n : Nat) (a : List α) (h : n ≤ a.length) (t : Nat) :
    (rotPre n a)[t]? = if t < n then a[(t + (n - 1)) % n]? else a[t]? := by
  have hmin : (a.take n).length = n := by
    rw [List.length_take]; omega
  have hx : ((a.take n).rotate (n - 1)).length = n := by
    rw [List.length_rotate, hmin]
  rw [rotPre, List.getElem?_append]
  rw [hx]
  by_cases ht : t < n
  · rw [if_pos ht, if_pos ht]
    have hlt : t < (a.take n).length := by rw [hmin]; omega
    rw [List.getElem?_rotate hlt, hmin, List.getElem?_take]
    have : (t + (n - 1)) % n < n := Nat.mod_lt _ (by omega)
    rw [if_pos this]
  · rw [if_neg ht, if_neg ht, List.getElem?_drop]
    congr 1
    omega

theorem loopStates_zero (E : List α → List α) (n i : Nat) (a : List α) :
    loopStates E n 0 i a = a := rfl

theorem loopStates_succ (E : List α → List α) (n m i : Nat) (a : List α) :
    loopStates E n (m + 1) i a =
      loopStates E n m (i + 1)
        (lswap (E a) (n - 1) (if n % 2 = 1 then 0 else i)) := rfl

/-- The loop of the generator, decomposed: its yields are the concatenation
of the sub-generator's yields at each visited state, and its final state is
the iterated state. -/
theorem heapIter_spec (f : List α → List (List α) × List α) (n : Nat) :
    ∀ (k i : Nat) (a : List α),
      (heapIter f n k i a).1 =
        (List.range k).flatMap
          (fun m => (f (loopStates (fun b => (f b).2) n m i a)).1) ∧
      (heapIter f n k i a).2 = loopStates (fun b => (f b).2) n k i a := by
  intro k
  induction k with
  | zero => intro i a; exact ⟨rfl, rfl⟩
  | succ k ih =>
    intro i a
    constructor
    · simp only [heapIter]
      rw [(ih (i + 1) _).1]
      rw [List.range_succ_eq_map, List.flatMap_cons, List.flatMap_map]
      rfl
    · simp only [heapIter]
      rw [(ih (i + 1) _).2]
      rfl

/-- Every visited state is a permutation of the initial array and agrees
with it from position `n` on, provided the sub-generator's net effect does
so at level `n - 1`. -/
theorem loopStates_facts (E : List α → List α) (n : Nat) (hn : 1 ≤ n)
    (hE : ∀ b : List α, n ≤ b.length →
      (E b).Perm b ∧ (E b).drop (n - 1) = b.drop (n - 1)) :
    ∀ (m i : Nat) (a : List α), n ≤ a.length → i + m ≤ n →
      (loopStates E n m i a).Perm a ∧
      (loopStates E n m i a).drop n = a.drop n := by
  intro m
  induction m with
  | zero => intro i a _ _; exact ⟨List.Perm.refl a, rfl⟩
  | succ m ih =>
    intro i a ha him
    have hEa := hE a ha
    have hlen : (E a).length = a.length := hEa.1.length_eq
    have hjlt : (if n % 2 = 1 then 0 else i) < n := by
      split_ifs <;> omega
    have hn1 : n - 1 < (E a).length := by omega
    have hjl : (if n % 2 = 1 then 0 else i) < (E a).length := by omega
    have hswap_perm :
        (lswap (E a) (n - 1) (if n % 2 = 1 then 0 else i)).Perm a :=
      (lswap_perm _ _ _ hn1 hjl).trans hEa.1
    have hEdrop : (E a).drop n = a.drop n := by
      have h3 := congrArg (List.drop 1) hEa.2
      rwa [List.drop_drop, List.drop_drop, show n - 1 + 1 = n by omega] at h3
    have hswap_drop :
        (lswap (E a) (n - 1) (if n % 2 = 1 then 0 else i)).drop n = a.drop n := by
      rw [lswap_drop _ _ _ _ (by omega) (by omega)]
      exact hEdrop
    have hr := ih (i + 1) (lswap (E a) (n - 1) (if n % 2 = 1 then 0 else i))
      (by rw [lswap_length]; omega) (by omega)
    rw [loopStates_succ]
    exact ⟨hr.1.trans hswap_perm, hr.2.trans hswap_drop⟩

/-- The swap step of an odd level applied to the rotated state of the even
sub-level is one full right rotation of the prefix. -/
theorem lswap_rotPre_odd (n : Nat) (s : List α) (hn : 2 ≤ n) (hs : n ≤ s.length) :
    lswap (rotPre (n - 1) s) (n - 1) 0 = rotPre n s := by
  apply List.ext_getElem?
  intro t
  have hlen : (rotPre (n - 1) s).length = s.length := rotPre_length _ _
  have h1 : n - 1 < (rotPre (n - 1) s).length := by omega
  have h0 : 0 < (rotPre (n - 1) s).length := by omega
  rw [lswap_getElem? _ _ _ h1 h0 t, rotPre_getElem? n s hs t]
  by_cases ht0 : t = 0
  · subst ht0
    rw [if_neg (by omega : ¬ (0 : Nat) = n - 1), if_pos rfl,
      rotPre_getElem? (n - 1) s (by omega) (n - 1),
      if_neg (by omega : ¬ n - 1 < n - 1), if_pos (by omega : 0 < n)]
    congr 1
    rw [Nat.mod_eq_of_lt (by omega : 0 + (n - 1) < n)]
    omega
  · by_cases htn : t = n - 1
    · subst htn
      rw [if_pos rfl, rotPre_getElem? (n - 1) s (by omega) 0,
        if_pos (by omega : 0 < n - 1), if_pos (by omega : n - 1 < n)]
      congr 1
      rw [Nat.mod_eq_of_lt (by omega : 0 + (n - 1 - 1) < n - 1)]
      rw [show n - 1 + (n - 1) = (n - 2) + n by omega, Nat.add_mod_right,
        Nat.mod_eq_of_lt (by omega)]
      omega
    · rw [if_neg htn, if_neg ht0, rotPre_getElem? (n - 1) s (by omega) t]
      by_cases htl : t < n - 1
      · rw [if_pos htl, if_pos (by omega : t < n)]
        congr 1
        rw [show t + (n - 1 - 1) = (t - 1) + (n - 1) by omega, Nat.add_mod_right,
          Nat.mod_eq_of_lt (by omega : t - 1 < n - 1)]
        rw [show t + (n - 1) = (t - 1) + n by omega, Nat.add_mod_right,
          Nat.mod_eq_of_lt (by omega : t - 1 < n)]
      · rw [if_neg htl, if_neg (by omega : ¬ t < n)]

/-- Closed form of the states of an odd level: each iteration rotates the
prefix one step further. -/
theorem loopStates_odd (n : Nat) (hn : 3 ≤ n) (hodd : n % 2 = 1)
    (E : List α → List α) (hE : ∀ b : List α, n ≤ b.length → E b = rotPre (n - 1) b) :
    ∀ (m i : Nat) (a : List α), n ≤ a.length →
      loopStates E n m i a = (a.take n).rotate ((n - 1) * m) ++ a.drop n := by
  intro m
  induction m with
  | zero =>
    intro i a _
    simp [loopStates_zero, List.take_append_drop]
  | succ m ih =>
    intro i a ha
    rw [loopStates_succ, hE a ha, if_pos hodd, lswap_rotPre_odd n a (by omega) ha,
      ih (i + 1) (rotPre n a) (by rw [rotPre_length]; omega)]
    have hxl : ((a.take n).rotate (n - 1)).length = n := by
      rw [List.length_rotate, List.length_take]; omega
    have h1 : (rotPre n a).take n = (a.take n).rotate (n - 1) := by
      rw [rotPre]
      exact List.take_left' hxl
    have h2 : (rotPre n a).drop n = a.drop n := rotPre_drop_ge n n a ha le_rfl
    rw [h1, h2, List.rotate_rotate]
    congr 2
    ring

/-- Closed form of the states of an even level over the strict-swap part of
the loop (`i + k ≤ n - 1`, so the final no-op iteration is excluded):
starting at index `i ≥ 1`, after `k` swaps position `i` holds the old last
element, positions `i+1 .. i+k-1` are shifted one to the right, and
position `n-1` holds the element most recently swapped out. -/
theorem loopStates_even (n : Nat) (heven : n % 2 = 0)
    (E : List α → List α) (hE : ∀ b : List α, n ≤ b.length → E b = b) :
    ∀ (k i : Nat) (a : List α), n ≤ a.length → 1 ≤ i → i + k ≤ n - 1 → ∀ t : Nat,
      (loopStates E n k i a)[t]? =
        if k = 0 then a[t]?
        else if t = i then a[n - 1]?
        else if i < t ∧ t < i + k then a[t - 1]?
        else if t = n - 1 then a[i + k - 1]?
        else a[t]? := by
  intro k
  induction k with
  | zero => intro i a _ _ _ t; rw [loopStates_zero, if_pos rfl]
  | succ k ih =>
    intro i a ha hi hik t
    rw [loopStates_succ, hE a ha, if_neg (by omega : ¬ n % 2 = 1)]
    rw [ih (i + 1) (lswap a (n - 1) i) (by rw [lswap_length]; omega)
      (by omega) (by omega) t]
    have hsw := lswap_getElem? a (n - 1) i (by omega) (by omega)
    simp only [hsw]
    split_ifs <;>
      first
        | rfl
        | (exfalso; first | assumption | omega)
        | (congr 1; omega)

theorem loopStates_add (E : List α → List α) (n : Nat) :
    ∀ (k₁ k₂ i : Nat) (a : List α),
      loopStates E n (k₁ + k₂) i a =
        loopStates E n k₂ (i + k₁) (loopStates E n k₁ i a) := by
  intro k₁
  induction k₁ with
  | zero => intro k₂ i a; rw [Nat.zero_add, Nat.add_zero, loopStates_zero]
  | succ k ih =>
    intro k₂ i a
    rw [show k + 1 + k₂ = (k + k₂) + 1 by omega]
    rw [loopStates_succ, loopStates_succ, ih]
    rw [show i + 1 + k = i + (k + 1) by omega]

theorem nodup_getElem?_inj (a : List α) (ha : a.Nodup) (x y : Nat)
    (hx : x < a.length) (hy : y < a.length) (h : a[x]? = a[y]?) : x = y := by
  rw [List.getElem?_eq_getElem hx, List.getElem?_eq_getElem hy] at h
  exact (List.Nodup.getElem_inj_iff ha).mp (Option.some_injective _ h)

/-- The final state of an even level is the right rotation of the prefix. -/
theorem loopStates_even_final (n : Nat) (hn : 2 ≤ n) (heven : n % 2 = 0)
    (E : List α → List α) (hE : ∀ b : List α, n ≤ b.length → E b = b)
    (a : List α) (ha : n ≤ a.length) :
    loopStates E n n 0 a = rotPre n a := by
  suffices h : ∀ k, k = n → loopStates E n k 0 a = rotPre n a by exact h n rfl
  intro k hk
  rw [show k = 1 + (n - 2) + 1 by omega]
  rw [loopStates_add E n (1 + (n - 2)) 1 0 a]
  rw [loopStates_add E n 1 (n - 2) 0 a]
  rw [show loopStates E n 1 0 a = lswap a (n - 1) 0 by
    rw [loopStates_succ, loopStates_zero, hE a ha,
      if_neg (by omega : ¬ n % 2 = 1)]]
  have ha1 : (lswap a (n - 1) 0).length = a.length := lswap_length a _ _
  have hEf : ∀ b : List α, n ≤ b.length →
      (E b).Perm b ∧ (E b).drop (n - 1) = b.drop (n - 1) := by
    intro b hb
    rw [hE b hb]
    exact ⟨List.Perm.refl b, rfl⟩
  have hs₁ := loopStates_facts E n (by omega) hEf (n - 2) (0 + 1)
    (lswap a (n - 1) 0) (by omega) (by omega)
  have hs₁len :
      (loopStates E n (n - 2) (0 + 1) (lswap a (n - 1) 0)).length = a.length := by
    rw [hs₁.1.length_eq, ha1]
  rw [show (0 + (1 + (n - 2))) = n - 1 by omega]
  rw [loopStates_succ, loopStates_zero, hE _ (by rw [hs₁len]; omega),
    if_neg (by omega : ¬ n % 2 = 1), lswap_self _ _ (by rw [hs₁len]; omega)]
  apply List.ext_getElem?
  intro t
  rw [loopStates_even n heven E hE (n - 2) (0 + 1) (lswap a (n - 1) 0)
    (by omega) (by omega) (by omega) t]
  rw [rotPre_getElem? n a ha t]
  have hsw := lswap_getElem? a (n - 1) 0 (by omega) (by omega)
  simp only [hsw]
  have hmod : ∀ u, u < n → (u + (n - 1)) % n = if u = 0 then n - 1 else u - 1 := by
    intro u hu
    by_cases h0 : u = 0
    · rw [if_pos h0, h0, Nat.zero_add, Nat.mod_eq_of_lt (by omega)]
    · rw [if_neg h0, show u + (n - 1) = (u - 1) + n by omega, Nat.add_mod_right,
        Nat.mod_eq_of_lt (by omega)]
  by_cases htn : t < n
  · rw [if_pos htn, hmod t htn]
    split_ifs <;>
      first
        | rfl
        | (exfalso; first | assumption | omega)
        | (congr 1; omega)
  · rw [if_neg htn]
    split_ifs <;>
      first
        | rfl
        | (exfalso; first | assumption | omega)
        | (congr 1; omega)

/-- At an odd level, the element exposed at the last prefix position during
iteration `m` is the initial array's entry `n - 1 - m`: all prefix entries
are exposed there exactly once. -/
theorem loopStates_val_odd (n : Nat) (hn : 3 ≤ n) (hodd : n % 2 = 1)
    (E : List α → List α) (hE : ∀ b : List α, n ≤ b.length → E b = rotPre (n - 1) b)
    (a : List α) (ha : n ≤ a.length) :
    ∀ m, m < n → (loopStates E n m 0 a)[n - 1]? = a[n - 1 - m]? := by
  intro m hm
  rw [loopStates_odd n hn hodd E hE m 0 a ha]
  have hmin : (a.take n).length = n := by rw [List.length_take]; omega
  have hrl : ((a.take n).rotate ((n - 1) * m)).length = n := by
    rw [List.length_rotate, hmin]
  rw [List.getElem?_append, hrl, if_pos (by omega : n - 1 < n)]
  rw [List.getElem?_rotate (by rw [hmin]; omega : n - 1 < (a.take n).length)]
  rw [hmin, List.getElem?_take]
  have h2 : (n - 1) * m = n * m - m := by rw [Nat.sub_mul, Nat.one_mul]
  have h3 : m ≤ n * m := Nat.le_mul_of_pos_left m (by omega)
  have h1 : (n - 1) + (n - 1) * m = n * m + (n - 1 - m) := by omega
  rw [h1, Nat.mul_add_mod, Nat.mod_eq_of_lt (by omega)]
  rw [if_pos (by omega : n - 1 - m < n)]

/-- At an even level, the element exposed at the last prefix position during
iteration `m` is the last entry for `m = 0` and entry `m - 1` afterwards:
again all prefix entries are exposed there exactly once. -/
theorem loopStates_val_even (n : Nat) (hn : 2 ≤ n) (heven : n % 2 = 0)
    (E : List α → List α) (hE : ∀ b : List α, n ≤ b.length → E b = b)
    (a : List α) (ha : n ≤ a.length) :
    ∀ m, m < n → (loopStates E n m 0 a)[n - 1]? =
      if m = 0 then a[n - 1]? else a[m - 1]? := by
  intro m hm
  by_cases hm0 : m = 0
  · rw [hm0, loopStates_zero, if_pos rfl]
  · rw [if_neg hm0]
    rw [show m = 1 + (m - 1) by omega, loopStates_add E n 1 (m - 1) 0 a]
    rw [show loopStates E n 1 0 a = lswap a (n - 1) 0 by
      rw [loopStates_succ, loopStates_zero, hE a ha,
        if_neg (by omega : ¬ n % 2 = 1)]]
    rw [loopStates_even n heven E hE (m - 1) (0 + 1) (lswap a (n - 1) 0)
      (by rw [lswap_length]; omega) (by omega) (by omega) (n - 1)]
    have hsw := lswap_getElem? a (n - 1) 0 (by omega) (by omega)
    simp only [hsw]
    split_ifs <;>
      first
        | rfl
        | (exfalso; first | assumption | omega)
        | (congr 1; omega)

/-- Correctness of the embedded Heap generator, by induction on the level:
the final state is the parity-dependent net effect, every yield is a
permutation of the array fixing positions from `n` on, there are `n!`
yields, and on a duplicate-free array the yields are pairwise distinct. -/
theorem heap_main : ∀ (n : Nat) (a : List α), n ≤ a.length →
    ((heapGo n a).2 = heapState n a) ∧
    (∀ y ∈ (heapGo n a).1, y.Perm a ∧ y.drop n = a.drop n) ∧
    ((heapGo n a).1.length = n.factorial) ∧
    (a.Nodup → (heapGo n a).1.Nodup) := by
  intro n
  induction n using Nat.strong_induction_on with
  | _ n ih =>
    match n with
    | 0 =>
      intro a _
      refine ⟨by simp [heapGo, heapState], ?_, by simp [heapGo], ?_⟩
      · intro y hy
        simp only [heapGo, List.mem_singleton] at hy
        subst hy
        exact ⟨List.Perm.refl _, rfl⟩
      · intro _
        simp [heapGo]
    | 1 =>
      intro a _
      refine ⟨by simp [heapGo, heapState], ?_, by simp [heapGo], ?_⟩
      · intro y hy
        simp only [heapGo, List.mem_singleton] at hy
        subst hy
        exact ⟨List.Perm.refl _, rfl⟩
      · intro _
        simp [heapGo]
    | (m + 2) =>
      intro a ha
      have ihf := fun (b : List α) (hb : m + 1 ≤ b.length) =>
        ih (m + 1) (by omega) b hb
      have hEfacts : ∀ b : List α, (m + 2) ≤ b.length →
          ((heapGo (m + 1) b).2).Perm b ∧
          ((heapGo (m + 1) b).2).drop (m + 2 - 1) = b.drop (m + 2 - 1) := by
        intro b hb
        rw [(ihf b (by omega)).1]
        constructor
        · unfold heapState
          split_ifs
          · exact rotPre_perm _ _
          · exact List.Perm.refl b
        · unfold heapState
          split_ifs
          · exact rotPre_drop_ge (m + 1) (m + 1) b (by omega) le_rfl
          · rfl
      have hspec := heapIter_spec (heapGo (m + 1)) (m + 2) (m + 2) 0 a
      have hunf : heapGo (m + 2) a = heapIter (heapGo (m + 1)) (m + 2) (m + 2) 0 a := rfl
      have hstf := fun (m' : Nat) (hm' : m' ≤ m + 2) =>
        loopStates_facts (fun b => (heapGo (m + 1) b).2) (m + 2) (by omega)
          hEfacts m' 0 a ha (by omega)
      refine ⟨?_, ?_, ?_, ?_⟩
      · rw [hunf, hspec.2]
        by_cases hpar : (m + 2) % 2 = 1
        · have hErot : ∀ b : List α, (m + 2) ≤ b.length →
              (heapGo (m + 1) b).2 = rotPre (m + 1) b := by
            intro b hb
            rw [(ihf b (by omega)).1, heapState, if_pos ⟨by omega, by omega⟩]
          rw [loopStates_odd (m + 2) (by omega) hpar _ hErot (m + 2) 0 a ha]
          have hmin : (a.take (m + 2)).length = m + 2 := by
            rw [List.length_take]; omega
          have hrot : (a.take (m + 2)).rotate ((m + 2 - 1) * (m + 2)) =
              a.take (m + 2) := by
            rw [← List.rotate_mod, hmin, Nat.mul_mod_left, List.rotate_zero]
          rw [hrot, List.take_append_drop]
          rw [heapState, if_neg (by omega : ¬ ((m + 2) % 2 = 0 ∧ 2 ≤ m + 2))]
        · have hEid : ∀ b : List α, (m + 2) ≤ b.length →
              (heapGo (m + 1) b).2 = b := by
            intro b hb
            rw [(ihf b (by omega)).1, heapState,
              if_neg (by omega : ¬ ((m + 1) % 2 = 0 ∧ 2 ≤ m + 1))]
          rw [loopStates_even_final (m + 2) (by omega) (by omega) _ hEid a ha]
          rw [heapState, if_pos ⟨by omega, by omega⟩]
      · intro y hy
        rw [hunf, hspec.1, List.mem_flatMap] at hy
        obtain ⟨m', hm'r, hym⟩ := hy
        have hm'N : m' < m + 2 := List.mem_range.mp hm'r
        have hsf := hstf m' (by omega)
        have hslen := hsf.1.length_eq
        have hyy := (ihf _ (by rw [hslen]; omega)).2.1 y hym
        refine ⟨hyy.1.trans hsf.1, ?_⟩
        have h1 := congrArg (List.drop 1) hyy.2
        rw [List.drop_drop, List.drop_drop] at h1
        exact h1.trans hsf.2
      · rw [hunf, hspec.1, List.length_flatMap]
        have hmap : List.map
            (List.length ∘ fun m' =>
              (heapGo (m + 1)
                (loopStates (fun b => (heapGo (m + 1) b).2) (m + 2) m' 0 a)).1)
            (List.range (m + 2)) =
            List.replicate (m + 2) (m + 1).factorial := by
          rw [List.eq_replicate_iff]
          constructor
          · simp
          · intro b hb
            rw [List.mem_map] at hb
            obtain ⟨m', hm'r, hb⟩ := hb
            have hm'N : m' < m + 2 := List.mem_range.mp hm'r
            have hsf := hstf m' (by omega)
            rw [← hb]
            simp only [Function.comp_apply]
            exact (ihf _ (by rw [hsf.1.length_eq]; omega)).2.2.1
        rw [hmap, List.sum_replicate, smul_eq_mul]
        rw [show (m + 2).factorial = (m + 2) * (m + 1).factorial from
          Nat.factorial_succ (m + 1)]
      · intro hnd
        rw [hunf, hspec.1, List.nodup_flatMap]
        constructor
        · intro m' hm'r
          have hm'N : m' < m + 2 := List.mem_range.mp hm'r
          have hsf := hstf m' (by omega)
          exact (ihf _ (by rw [hsf.1.length_eq]; omega)).2.2.2
            (hsf.1.nodup_iff.mpr hnd)
        · rw [List.pairwise_iff_getElem]
          intro i j hi hj hij
          simp only [List.length_range] at hi hj
          simp only [Function.onFun, List.getElem_range]
          intro y hyi hyj
          have hsfi := hstf i (by omega)
          have hsfj := hstf j (by omega)
          have hyi' := (ihf _ (by rw [hsfi.1.length_eq]; omega)).2.1 y hyi
          have hyj' := (ihf _ (by rw [hsfj.1.length_eq]; omega)).2.1 y hyj
          have hgi : y[m + 2 - 1]? =
              (loopStates (fun b => (heapGo (m + 1) b).2) (m + 2) i 0 a)[m + 2 - 1]? := by
            have h := congrArg (fun l => l[0]?) hyi'.2
            simpa [List.getElem?_drop] using h
          have hgj : y[m + 2 - 1]? =
              (loopStates (fun b => (heapGo (m + 1) b).2) (m + 2) j 0 a)[m + 2 - 1]? := by
            have h := congrArg (fun l => l[0]?) hyj'.2
            simpa [List.getElem?_drop] using h
          by_cases hpar : (m + 2) % 2 = 1
          · have hErot : ∀ b : List α, (m + 2) ≤ b.length →
                (heapGo (m + 1) b).2 = rotPre (m + 1) b := by
              intro b hb
              rw [(ihf b (by omega)).1, heapState, if_pos ⟨by omega, by omega⟩]
            have hvi := loopStates_val_odd (m + 2) (by omega) hpar _ hErot a ha i
              (by omega)
            have hvj := loopStates_val_odd (m + 2) (by omega) hpar _ hErot a ha j
              (by omega)
            rw [hvi] at hgi
            rw [hvj] at hgj
            have hij2 := hgi.symm.trans hgj
            have heq := nodup_getElem?_inj a hnd _ _ (by omega) (by omega) hij2
            omega
          · have hEid : ∀ b : List α, (m + 2) ≤ b.length →
                (heapGo (m + 1) b).2 = b := by
              intro b hb
              rw [(ihf b (by omega)).1, heapState,
                if_neg (by omega : ¬ ((m + 1) % 2 = 0 ∧ 2 ≤ m + 1))]
            have hvi := loopStates_val_even (m + 2) (by omega) (by omega) _ hEid a ha i
              (by omega)
            have hvj := loopStates_val_even (m + 2) (by omega) (by omega) _ hEid a ha j
              (by omega)
            rw [hvi] at hgi
            rw [hvj] at hgj
            have hij2 := hgi.symm.trans hgj
            by_cases hi0 : i = 0
            · rw [if_pos hi0, if_neg (by omega : ¬ j = 0)] at hij2
              have heq := nodup_getElem?_inj a hnd _ _ (by omega) (by omega) hij2
              omega
            · rw [if_neg hi0, if_neg (by omega : ¬ j = 0)] at hij2
              have heq := nodup_getElem?_inj a hnd _ _ (by omega) (by omega) hij2
              omega

/-- Every yield of the generator is a permutation of the array. -/
theorem permutationsJS_sound (a : List α) :
    ∀ y ∈ permutationsJS a, y.Perm a :=
  fun y hy => ((heap_main a.length a le_rfl).2.1 y hy).1

theorem permutationsJS_length (a : List α) :
    (permutationsJS a).length = a.length.factorial :=
  (heap_main a.length a le_rfl).2.2.1

/-- On a duplicate-free array the generator yields every permutation. -/
theorem permutationsJS_complete (a : List α) (hnd : a.Nodup) :
    ∀ q : List α, q.Perm a → q ∈ permutationsJS a := by
  have hmain := heap_main a.length a le_rfl
  have hsub : permutationsJS a ⊆ a.permutations := by
    intro y hy
    exact List.mem_permutations.mpr (permutationsJS_sound a y hy)
  have hnd2 : (permutationsJS a).Nodup := hmain.2.2.2 hnd
  have hsp : (permutationsJS a).Subperm a.permutations := hnd2.subperm hsub
  have hlen : a.permutations.length ≤ (permutationsJS a).length := by
    rw [List.length_permutations, permutationsJS_length a]
  have hperm := hsp.perm_of_length_le hlen
  intro q hq
  exact hperm.mem_iff.mpr (List.mem_permutations.mpr hq)

end HeapTheory

/-!
### The search loop of `getAsStackedChord` (claims C1 and C2)
-/

theorem foldl_add_nonneg : ∀ (pat : List Int) (init : Int), 0 ≤ init →
    (∀ v ∈ pat, 0 ≤ v) → 0 ≤ pat.foldl (· + ·) init := by
  intro pat
  induction pat with
  | nil => intro init h _; exact h
  | cons v vs ih =>
    intro init h hall
    exact ih (init + v) (by have := hall v (by simp); omega)
      (fun w hw => hall w (by simp [hw]))

theorem adjacentIntervals_all_wrapUp : ∀ (l : List Int), ∀ v ∈ adjacentIntervals l,
    ∃ d, v = wrapUp d := by
  intro l
  induction l with
  | nil => intro v hv; simp [adjacentIntervals] at hv
  | cons a t ih =>
    cases t with
    | nil => intro v hv; simp [adjacentIntervals] at hv
    | cons b r =>
      intro v hv
      rcases List.mem_cons.mp hv with h | h
      · exact ⟨b - a, h⟩
      · exact ih v h

theorem getIntervalPattern_nonneg (p : List Int) :
    ∀ v ∈ getIntervalPattern p, 0 ≤ v := by
  intro v hv
  by_cases h : p.length < 2
  · rw [getIntervalPattern, if_pos h] at hv
    simp at hv
    omega
  · rw [getIntervalPattern, if_neg h] at hv
    obtain ⟨d, hd⟩ := adjacentIntervals_all_wrapUp p v hv
    rw [hd]
    exact wrapUp_nonneg d

theorem energyOf_nonneg (p : List Int) : 0 ≤ energyOf p :=
  foldl_add_nonneg _ 0 le_rfl (getIntervalPattern_nonneg p)

theorem charListLe_refl : ∀ as : List Char, charListLe as as = true := by
  intro as
  induction as with
  | nil => rfl
  | cons a t ih => simp [charListLe, lt_irrefl, ih]

theorem charListLe_total : ∀ as bs : List Char,
    charListLe as bs = true ∨ charListLe bs as = true := by
  intro as
  induction as with
  | nil => intro bs; left; rfl
  | cons a t ih =>
    intro bs
    cases bs with
    | nil => right; rfl
    | cons b s =>
      rcases lt_trichotomy a b with h | h | h
      · left; simp [charListLe, h]
      · subst h
        rcases ih s with h2 | h2
        · left; simp [charListLe, lt_irrefl, h2]
        · right; simp [charListLe, lt_irrefl, h2]
      · right; simp [charListLe, h]

theorem charListLe_trans : ∀ as bs cs : List Char,
    charListLe as bs = true → charListLe bs cs = true →
    charListLe as cs = true := by
  intro as
  induction as with
  | nil => intro bs cs _ _; rfl
  | cons a t ih =>
    intro bs cs h1 h2
    cases bs with
    | nil => simp [charListLe] at h1
    | cons b s =>
      cases cs with
      | nil => simp [charListLe] at h2
      | cons c u =>
        simp only [charListLe] at h1 h2 ⊢
        rcases lt_trichotomy a b with hab | hab | hab
        · rcases lt_trichotomy b c with hbc | hbc | hbc
          · rw [if_pos (lt_trans hab hbc)]
          · subst hbc; rw [if_pos hab]
          · rw [if_neg (lt_asymm hbc), if_pos hbc] at h2
            exact absurd h2 (by simp)
        · subst hab
          rw [if_neg (lt_irrefl a), if_neg (lt_irrefl a)] at h1
          rcases lt_trichotomy a c with hac | hac | hac
          · rw [if_pos hac]
          · subst hac
            rw [if_neg (lt_irrefl a), if_neg (lt_irrefl a)] at h2 ⊢
            exact ih s u h1 h2
          · rw [if_neg (lt_asymm hac), if_pos hac] at h2
            exact absurd h2 (by simp)
        · rw [if_neg (lt_asymm hab), if_pos hab] at h1
          exact absurd h1 (by simp)

theorem charListLe_antisymm : ∀ as bs : List Char,
    charListLe as bs = true → charListLe bs as = true → as = bs := by
  intro as
  induction as with
  | nil =>
    intro bs _ h2
    cases bs with
    | nil => rfl
    | cons b s => simp [charListLe] at h2
  | cons a t ih =>
    intro bs h1 h2
    cases bs with
    | nil => simp [charListLe] at h1
    | cons b s =>
      simp only [charListLe] at h1 h2
      rcases lt_trichotomy a b with h | h | h
      · rw [if_neg (lt_asymm h), if_pos h] at h2
        exact absurd h2 (by simp)
      · subst h
        rw [if_neg (lt_irrefl a), if_neg (lt_irrefl a)] at h1 h2
        rw [ih s h1 h2]
      · rw [if_neg (lt_asymm h), if_pos h] at h1
        exact absurd h1 (by simp)

/-- The first iteration of the search loop always resets (`minEnergy` is the
`-1` sentinel). -/
theorem stackLoop_init (p : List Int) (ps : List (List Int)) :
    stackLoop (p :: ps) (-1) [] =
      stackLoop ps (energyOf p) [(p, patStrOf p)] := by
  show (if chordEnergy (getIntervalPattern p) < -1 ∨ (-1 : Int) = -1 then _
    else _) = _
  rw [if_pos (Or.inr rfl)]
  rfl

/-- Invariants of the search loop in the post-sentinel regime: the running
minimum only decreases and ends below every processed energy; the collected
entries are exactly the processed permutations (and inherited entries)
achieving the final minimum, each paired with its pattern string. -/
theorem stackLoop_spec : ∀ (ps : List (List Int)) (minE : Int)
    (acc : List (List Int × String)), 0 ≤ minE →
    ((stackLoop ps minE acc).1 ≤ minE) ∧
    (∀ p ∈ ps, (stackLoop ps minE acc).1 ≤ energyOf p) ∧
    (∀ x ∈ (stackLoop ps minE acc).2,
      (x ∈ acc ∧ (stackLoop ps minE acc).1 = minE) ∨
      (∃ p ∈ ps, x = (p, patStrOf p) ∧ energyOf p = (stackLoop ps minE acc).1)) ∧
    (∀ p ∈ ps, energyOf p = (stackLoop ps minE acc).1 →
      (p, patStrOf p) ∈ (stackLoop ps minE acc).2) ∧
    (minE = (stackLoop ps minE acc).1 → ∀ x ∈ acc, x ∈ (stackLoop ps minE acc).2) ∧
    (acc ≠ [] → (stackLoop ps minE acc).2 ≠ []) := by
  intro ps
  induction ps with
  | nil =>
    intro minE acc _
    refine ⟨le_refl _, ?_, ?_, ?_, ?_, ?_⟩
    · intro p hp; simp at hp
    · intro x hx; exact Or.inl ⟨hx, rfl⟩
    · intro p hp; simp at hp
    · intro _ x hx; exact hx
    · intro h; exact h
  | cons p ps ih =>
    intro minE acc h0
    have hE0 : 0 ≤ energyOf p := energyOf_nonneg p
    have hstep : stackLoop (p :: ps) minE acc =
        if energyOf p < minE ∨ minE = -1 then
          stackLoop ps (energyOf p) [(p, patStrOf p)]
        else if energyOf p = minE then
          stackLoop ps minE (acc ++ [(p, patStrOf p)])
        else stackLoop ps minE acc := rfl
    rw [hstep]
    by_cases hlt : energyOf p < minE
    · rw [if_pos (Or.inl hlt)]
      obtain ⟨c1, c2, c3, c4, c5, c6⟩ := ih (energyOf p) [(p, patStrOf p)] hE0
      refine ⟨le_trans c1 (le_of_lt hlt), ?_, ?_, ?_, ?_, ?_⟩
      · intro q hq
        rcases List.mem_cons.mp hq with h | h
        · rw [h]; exact c1
        · exact c2 q h
      · intro x hx
        rcases c3 x hx with ⟨hxa, hres⟩ | ⟨q, hqps, hxq, hEq⟩
        · exact Or.inr ⟨p, List.mem_cons_self _ _,
            List.mem_singleton.mp hxa, hres.symm⟩
        · exact Or.inr ⟨q, List.mem_cons_of_mem _ hqps, hxq, hEq⟩
      · intro q hq hEq
        rcases List.mem_cons.mp hq with h | h
        · rw [h] at hEq ⊢
          exact c5 hEq (p, patStrOf p) (by simp)
        · exact c4 q h hEq
      · intro hminEq x _
        exfalso
        omega
      · intro _
        exact c6 (by simp)
    · have hne1 : ¬ minE = (-1 : Int) := by omega
      rw [if_neg (fun h => h.elim hlt hne1)]
      by_cases heq : energyOf p = minE
      · rw [if_pos heq]
        obtain ⟨c1, c2, c3, c4, c5, c6⟩ := ih minE (acc ++ [(p, patStrOf p)]) h0
        refine ⟨c1, ?_, ?_, ?_, ?_, ?_⟩
        · intro q hq
          rcases List.mem_cons.mp hq with h | h
          · rw [h, heq]; exact c1
          · exact c2 q h
        · intro x hx
          rcases c3 x hx with ⟨hxa, hres⟩ | ⟨q, hqps, hxq, hEq⟩
          · rcases List.mem_append.mp hxa with hxacc | hxp
            · exact Or.inl ⟨hxacc, hres⟩
            · exact Or.inr ⟨p, List.mem_cons_self _ _,
                List.mem_singleton.mp hxp, heq.trans hres.symm⟩
          · exact Or.inr ⟨q, List.mem_cons_of_mem _ hqps, hxq, hEq⟩
        · intro q hq hEq
          rcases List.mem_cons.mp hq with h | h
          · subst h
            exact c5 (heq.symm.trans hEq) (q, patStrOf q) (by simp)
          · exact c4 q h hEq
        · intro hminEq x hx
          exact c5 hminEq x (List.mem_append_left _ hx)
        · intro _
          exact c6 (by simp)
      · have hgt : minE < energyOf p := by omega
        rw [if_neg heq]
        obtain ⟨c1, c2, c3, c4, c5, c6⟩ := ih minE acc h0
        refine ⟨c1, ?_, ?_, ?_, c5, c6⟩
        · intro q hq
          rcases List.mem_cons.mp hq with h | h
          · rw [h]; exact le_trans c1 (le_of_lt hgt)
          · exact c2 q h
        · intro x hx
          rcases c3 x hx with h | ⟨q, hqps, hxq, hEq⟩
          · exact Or.inl h
          · exact Or.inr ⟨q, List.mem_cons_of_mem _ hqps, hxq, hEq⟩
        · intro q hq hEq
          rcases List.mem_cons.mp hq with h | h
          · exfalso
            rw [h] at hEq
            omega
          · exact c4 q h hEq

/-- Characterization of the canonical stacking: the output is a permutation
of the input with minimum energy, and its pattern string is
lexicographically least among the minimum-energy permutations. -/
theorem getAsStackedChord_min (l : List Int) (hne : l ≠ []) (hnd : l.Nodup) :
    (getAsStackedChord l).Perm l ∧
    (∀ q : List Int, q.Perm l → energyOf (getAsStackedChord l) ≤ energyOf q) ∧
    (∀ q : List Int, q.Perm l → energyOf q = energyOf (getAsStackedChord l) →
      charListLe (patStrOf (getAsStackedChord l)).data (patStrOf q).data = true) := by
  by_cases hlen : l.length ≤ 1
  · obtain ⟨x, rfl⟩ : ∃ x, l = [x] := by
      cases l with
      | nil => exact absurd rfl hne
      | cons a t =>
        cases t with
        | nil => exact ⟨a, rfl⟩
        | cons b r => simp at hlen
    have h1 : getAsStackedChord [x] = [x] := by
      rw [getAsStackedChord, if_pos hlen]
    rw [h1]
    refine ⟨List.Perm.refl _, ?_, ?_⟩
    · intro q hq
      rw [List.perm_singleton.mp hq]
    · intro q hq _
      rw [List.perm_singleton.mp hq]
      exact charListLe_refl _
  · have hunf0 : getAsStackedChord l =
        (((stackLoop (permutationsJS l) (-1) []).2.insertionSort patLe).headD
          ([], "")).1 := by
      rw [getAsStackedChord, if_neg hlen]
    have hpne : permutationsJS l ≠ [] := by
      intro h
      have hl := permutationsJS_length l
      rw [h] at hl
      exact absurd hl.symm (Nat.factorial_ne_zero _)
    obtain ⟨p₀, rest, hp⟩ : ∃ p₀ rest, permutationsJS l = p₀ :: rest := by
      cases hperm : permutationsJS l with
      | nil => exact absurd hperm hpne
      | cons x xs => exact ⟨x, xs, rfl⟩
    have hunf : getAsStackedChord l =
        (((stackLoop rest (energyOf p₀) [(p₀, patStrOf p₀)]).2.insertionSort
          patLe).headD ([], "")).1 := by
      rw [hunf0, hp, stackLoop_init]
    obtain ⟨c1, c2, c3, c4, c5, c6⟩ :=
      stackLoop_spec rest (energyOf p₀) [(p₀, patStrOf p₀)] (energyOf_nonneg p₀)
    have hAne : (stackLoop rest (energyOf p₀) [(p₀, patStrOf p₀)]).2 ≠ [] :=
      c6 (by simp)
    have hsorted := @List.sorted_insertionSort (List Int × String) patLe
      inferInstance ⟨fun a b => charListLe_total a.2.data b.2.data⟩
      ⟨fun a b c hab hbc => charListLe_trans _ _ _ hab hbc⟩
      (stackLoop rest (energyOf p₀) [(p₀, patStrOf p₀)]).2
    have hperm := List.perm_insertionSort patLe
      (stackLoop rest (energyOf p₀) [(p₀, patStrOf p₀)]).2
    obtain ⟨x, tl, hx⟩ : ∃ x tl,
        (stackLoop rest (energyOf p₀) [(p₀, patStrOf p₀)]).2.insertionSort patLe =
          x :: tl := by
      cases hsi : (stackLoop rest (energyOf p₀) [(p₀, patStrOf p₀)]).2.insertionSort
        patLe with
      | nil =>
        exfalso
        have h2 := hperm
        rw [hsi] at h2
        exact hAne (h2.symm.eq_nil)
      | cons y ys => exact ⟨y, ys, rfl⟩
    have hxA : x ∈ (stackLoop rest (energyOf p₀) [(p₀, patStrOf p₀)]).2 :=
      hperm.mem_iff.mp (by rw [hx]; simp)
    obtain ⟨p, hpmem, hxp, hpE⟩ : ∃ p, p ∈ permutationsJS l ∧
        x = (p, patStrOf p) ∧
        energyOf p = (stackLoop rest (energyOf p₀) [(p₀, patStrOf p₀)]).1 := by
      rcases c3 x hxA with ⟨hxin, hres⟩ | ⟨q, hqmem, hxq, hEq⟩
      · exact ⟨p₀, by rw [hp]; exact List.mem_cons_self _ _,
          List.mem_singleton.mp hxin, hres.symm⟩
      · exact ⟨q, by rw [hp]; exact List.mem_cons_of_mem _ hqmem, hxq, hEq⟩
    have hres : getAsStackedChord l = p := by
      rw [hunf, hx, List.headD_cons, hxp]
    refine ⟨?_, ?_, ?_⟩
    · rw [hres]
      exact permutationsJS_sound l p hpmem
    · intro q hq
      have hqmem : q ∈ permutationsJS l := permutationsJS_complete l hnd q hq
      rw [hres, hpE]
      rcases List.mem_cons.mp (by rw [← hp]; exact hqmem :
          q ∈ p₀ :: rest) with h | h
      · rw [h]; exact c1
      · exact c2 q h
    · intro q hq hqE
      rw [hres] at hqE
      have hqmem : q ∈ permutationsJS l := permutationsJS_complete l hnd q hq
      have hqA : (q, patStrOf q) ∈
          (stackLoop rest (energyOf p₀) [(p₀, patStrOf p₀)]).2 := by
        rcases List.mem_cons.mp (by rw [← hp]; exact hqmem :
            q ∈ p₀ :: rest) with h | h
        · have hE0 : energyOf p₀ =
              (stackLoop rest (energyOf p₀) [(p₀, patStrOf p₀)]).1 :=
            (congrArg energyOf h.symm).trans (hqE.trans hpE)
          have := c5 hE0 (p₀, patStrOf p₀) (by simp)
          rw [h]
          exact this
        · exact c4 q h (by rw [hqE, hpE])
      have hqsorted : (q, patStrOf q) ∈ x :: tl := by
        rw [← hx]
        exact hperm.mem_iff.mpr hqA
      rw [hres]
      rcases List.mem_cons.mp hqsorted with h | h
      · have h2 : patStrOf q = patStrOf p := congrArg Prod.snd (h.trans hxp)
        rw [h2]
        exact charListLe_refl _
      · have hple := (List.pairwise_cons.mp (by rw [← hx]; exact hsorted)).1 _ h
        rw [hxp] at hple
        exact hple

theorem string_eq_of_data {s t : String} (h : s.data = t.data) : s = t := by
  cases s; cases t; exact congrArg String.mk h

/-- C1: for every nonempty list of distinct pitch classes in [0,11],
`getAsStackedChord` returns a permutation of exactly that set whose
interval-pattern energy is minimal among all permutations, and among the
minimum-energy permutations its comma-joined pattern string is
lexicographically smallest. -/
theorem C1_canonical_stacking (l : List Int) (hne : l ≠ []) (hnd : l.Nodup)
    (hbd : ∀ x ∈ l, 0 ≤ x ∧ x ≤ 11) :
    (getAsStackedChord l).Perm l ∧
    (∀ q : List Int, q.Perm l → energyOf (getAsStackedChord l) ≤ energyOf q) ∧
    (∀ q : List Int, q.Perm l → energyOf q = energyOf (getAsStackedChord l) →
      charListLe (patStrOf (getAsStackedChord l)).data (patStrOf q).data = true) :=
  getAsStackedChord_min l hne hnd

/-- Witness for C1 at the C-major pitch-class set. -/
theorem C1_canonical_stacking_witness :
    (getAsStackedChord [0, 4, 7]).Perm [0, 4, 7] ∧
    (∀ q : List Int, q.Perm [0, 4, 7] →
      energyOf (getAsStackedChord [0, 4, 7]) ≤ energyOf q) ∧
    (∀ q : List Int, q.Perm [0, 4, 7] →
      energyOf q = energyOf (getAsStackedChord [0, 4, 7]) →
      charListLe (patStrOf (getAsStackedChord [0, 4, 7])).data
        (patStrOf q).data = true) :=
  C1_canonical_stacking [0, 4, 7] (by decide) (by decide) (by decide)

/-- C2 counterexample: `[0,6]` and `[6,0]` carry the same pitch-class set,
yet `getAsStackedChord` returns a different ordering for each (the energy
tie at the tritone is broken by the stable sort in input-dependent
generation order), so the ordering is not a function of the set alone. -/
theorem C2_counterexample :
    ([0, 6] : List Int).Perm [6, 0] ∧
    getAsStackedChord [0, 6] = [0, 6] ∧
    getAsStackedChord [6, 0] = [6, 0] ∧
    getAsStackedChord [0, 6] ≠ getAsStackedChord [6, 0] := by
  decide

/-- C2 amended: for two nonempty duplicate-free lists carrying the same
pitch-class set, `getAsStackedChord` returns orderings with identical
interval-pattern energy and identical comma-joined pattern string (the
quantities the detector afterwards matches on), though not necessarily
the identical ordering. -/
theorem C2_set_function (l₁ l₂ : List Int) (h : l₁.Perm l₂) (hne : l₁ ≠ [])
    (hnd : l₁.Nodup) :
    energyOf (getAsStackedChord l₁) = energyOf (getAsStackedChord l₂) ∧
    patStrOf (getAsStackedChord l₁) = patStrOf (getAsStackedChord l₂) := by
  have hne₂ : l₂ ≠ [] := by
    intro h2
    rw [h2] at h
    exact hne h.eq_nil
  have hnd₂ : l₂.Nodup := h.nodup_iff.mp hnd
  obtain ⟨hp₁, hmin₁, hlex₁⟩ := getAsStackedChord_min l₁ hne hnd
  obtain ⟨hp₂, hmin₂, hlex₂⟩ := getAsStackedChord_min l₂ hne₂ hnd₂
  have hq₂₁ : (getAsStackedChord l₂).Perm l₁ := hp₂.trans h.symm
  have hq₁₂ : (getAsStackedChord l₁).Perm l₂ := hp₁.trans h
  have hE : energyOf (getAsStackedChord l₁) = energyOf (getAsStackedChord l₂) :=
    le_antisymm (hmin₁ _ hq₂₁) (hmin₂ _ hq₁₂)
  refine ⟨hE, ?_⟩
  have h12 := hlex₁ _ hq₂₁ hE.symm
  have h21 := hlex₂ _ hq₁₂ hE
  exact string_eq_of_data (charListLe_antisymm _ _ h12 h21)

/-- Witness for the amended C2 at two orderings of the C-major set. -/
theorem C2_set_function_witness :
    energyOf (getAsStackedChord [0, 4, 7]) =
      energyOf (getAsStackedChord [7, 0, 4]) ∧
    patStrOf (getAsStackedChord [0, 4, 7]) =
      patStrOf (getAsStackedChord [7, 0, 4]) :=
  C2_set_function [0, 4, 7] [7, 0, 4] (by decide) (by decide) (by decide)

/-!
### Chunked evaluation of the mirrored search

The seven-note templates generate 5040 permutations; the search over them
is evaluated in slices, glued by the following two composition lemmas.
-/

theorem stackLoopN_cons_none (p : List Nat) (ps : List (List Nat))
    (acc : List (List Nat × String)) :
    stackLoopN (p :: ps) none acc =
      stackLoopN ps (some (chordEnergyN (getIntervalPatternN p)))
        [(p, joinCommaN (getIntervalPatternN p))] := rfl

theorem stackLoopN_cons_lt (p : List Nat) (ps : List (List Nat)) (m : Nat)
    (acc : List (List Nat × String))
    (h : chordEnergyN (getIntervalPatternN p) < m) :
    stackLoopN (p :: ps) (some m) acc =
      stackLoopN ps (some (chordEnergyN (getIntervalPatternN p)))
        [(p, joinCommaN (getIntervalPatternN p))] := by
  show (if chordEnergyN (getIntervalPatternN p) < m then _ else _) = _
  rw [if_pos h]

theorem stackLoopN_cons_eq (p : List Nat) (ps : List (List Nat)) (m : Nat)
    (acc : List (List Nat × String))
    (h : chordEnergyN (getIntervalPatternN p) = m) :
    stackLoopN (p :: ps) (some m) acc =
      stackLoopN ps (some m)
        (acc ++ [(p, joinCommaN (getIntervalPatternN p))]) := by
  show (if chordEnergyN (getIntervalPatternN p) < m then _
    else if chordEnergyN (getIntervalPatternN p) = m then _ else _) = _
  rw [if_neg (by omega), if_pos h]

theorem stackLoopN_cons_gt (p : List Nat) (ps : List (List Nat)) (m : Nat)
    (acc : List (List Nat × String))
    (h : m < chordEnergyN (getIntervalPatternN p)) :
    stackLoopN (p :: ps) (some m) acc = stackLoopN ps (some m) acc := by
  show (if chordEnergyN (getIntervalPatternN p) < m then _
    else if chordEnergyN (getIntervalPatternN p) = m then _ else _) = _
  rw [if_neg (by omega), if_neg (by omega)]

theorem stackLoopN_append (l₁ l₂ : List (List Nat)) (m : Option Nat)
    (acc : List (List Nat × String)) :
    stackLoopN (l₁ ++ l₂) m acc =
      stackLoopN l₂ (stackLoopN l₁ m acc).1 (stackLoopN l₁ m acc).2 := by
  induction l₁ generalizing m acc with
  | nil => rfl
  | cons p ps ih =>
    rw [List.cons_append]
    cases m with
    | none =>
      rw [stackLoopN_cons_none, stackLoopN_cons_none, ih]
    | some mv =>
      rcases Nat.lt_trichotomy (chordEnergyN (getIntervalPatternN p)) mv
        with h | h | h
      · rw [stackLoopN_cons_lt _ _ _ _ h, stackLoopN_cons_lt _ _ _ _ h, ih]
      · rw [stackLoopN_cons_eq _ _ _ _ h, stackLoopN_cons_eq _ _ _ _ h, ih]
      · rw [stackLoopN_cons_gt _ _ _ _ h, stackLoopN_cons_gt _ _ _ _ h, ih]

theorem heapIter_succ {α : Type} [Inhabited α]
    (f : List α → List (List α) × List α) (n k i : Nat) (a : List α) :
    heapIter f n (k + 1) i a =
      ((f a).1 ++ (heapIter f n k (i + 1)
          (lswap (f a).2 (n - 1) (if n % 2 = 1 then 0 else i))).1,
        (heapIter f n k (i + 1)
          (lswap (f a).2 (n - 1) (if n % 2 = 1 then 0 else i))).2) := rfl

theorem heapIter_one_state {α : Type} [Inhabited α]
    (f : List α → List (List α) × List α) (n i : Nat) (a : List α) :
    (heapIter f n 1 i a).2 =
      lswap (f a).2 (n - 1) (if n % 2 = 1 then 0 else i) := rfl

theorem heapIter_add {α : Type} [Inhabited α]
    (f : List α → List (List α) × List α) (n k₁ k₂ i : Nat) (a : List α) :
    heapIter f n (k₁ + k₂) i a =
      ((heapIter f n k₁ i a).1 ++
        (heapIter f n k₂ (i + k₁) (heapIter f n k₁ i a).2).1,
       (heapIter f n k₂ (i + k₁) (heapIter f n k₁ i a).2).2) := by
  induction k₁ generalizing i a with
  | zero =>
    rw [Nat.zero_add, Nat.add_zero]
    rfl
  | succ k ih =>
    have hs : k + 1 + k₂ = (k + k₂) + 1 := by omega
    have hi : i + 1 + k = i + (k + 1) := by omega
    rw [hs, heapIter_succ, ih, heapIter_succ, List.append_assoc, hi]

/-!
### The mirrored search agrees with the faithful one

`getAsStackedChordN` is tied to `getAsStackedChord` on every in-range
input: the two pipelines are related pointwise through `Int.ofNat`.
-/

theorem stackLoop_cons_reset (p : List Int) (ps : List (List Int)) (m : Int)
    (acc : List (List Int × String))
    (h : chordEnergy (getIntervalPattern p) < m ∨ m = -1) :
    stackLoop (p :: ps) m acc =
      stackLoop ps (chordEnergy (getIntervalPattern p))
        [(p, joinComma (getIntervalPattern p))] := by
  show (if chordEnergy (getIntervalPattern p) < m ∨ m = -1 then _ else _) = _
  rw [if_pos h]

theorem stackLoop_cons_eq (p : List Int) (ps : List (List Int)) (m : Int)
    (acc : List (List Int × String))
    (hne : ¬ (chordEnergy (getIntervalPattern p) < m ∨ m = -1))
    (h : chordEnergy (getIntervalPattern p) = m) :
    stackLoop (p :: ps) m acc =
      stackLoop ps m (acc ++ [(p, joinComma (getIntervalPattern p))]) := by
  show (if chordEnergy (getIntervalPattern p) < m ∨ m = -1 then _
    else if chordEnergy (getIntervalPattern p) = m then _ else _) = _
  rw [if_neg hne, if_pos h]

theorem stackLoop_cons_skip (p : List Int) (ps : List (List Int)) (m : Int)
    (acc : List (List Int × String))
    (hne : ¬ (chordEnergy (getIntervalPattern p) < m ∨ m = -1))
    (h : chordEnergy (getIntervalPattern p) ≠ m) :
    stackLoop (p :: ps) m acc = stackLoop ps m acc := by
  show (if chordEnergy (getIntervalPattern p) < m ∨ m = -1 then _
    else if chordEnergy (getIntervalPattern p) = m then _ else _) = _
  rw [if_neg hne, if_neg h]

theorem getD_map_ofNat (l : List Nat) (j : Nat) :
    (l.map Int.ofNat).getD j default = Int.ofNat (l.getD j default) := by
  rw [List.getD_eq_getElem?_getD, List.getD_eq_getElem?_getD, List.getElem?_map]
  cases l[j]? <;> rfl

theorem lswap_map_ofNat (a : List Nat) (i j : Nat) :
    lswap (a.map Int.ofNat) i j = (lswap a i j).map Int.ofNat := by
  unfold lswap
  rw [getD_map_ofNat, getD_map_ofNat, ← List.map_set, ← List.map_set]

theorem heapIter_map_ofNat (fN : List Nat → List (List Nat) × List Nat)
    (fI : List Int → List (List Int) × List Int)
    (hf : ∀ s : List Nat, fI (s.map Int.ofNat) =
      ((fN s).1.map (List.map Int.ofNat), (fN s).2.map Int.ofNat))
    (n : Nat) : ∀ (k i : Nat) (a : List Nat),
    heapIter fI n k i (a.map Int.ofNat) =
      ((heapIter fN n k i a).1.map (List.map Int.ofNat),
       (heapIter fN n k i a).2.map Int.ofNat) := by
  intro k
  induction k with
  | zero => intro i a; rfl
  | succ k ih =>
    intro i a
    rw [heapIter_succ, heapIter_succ, hf, lswap_map_ofNat, ih, List.map_append]

theorem heapGo_map_ofNat : ∀ (n : Nat) (a : List Nat),
    heapGo n (a.map Int.ofNat) =
      ((heapGo n a).1.map (List.map Int.ofNat), (heapGo n a).2.map Int.ofNat) := by
  intro n
  induction n using Nat.strong_induction_on with
  | _ n ih =>
    match n with
    | 0 => intro a; rfl
    | 1 => intro a; rfl
    | (m + 2) =>
      intro a
      exact heapIter_map_ofNat (heapGo (m + 1)) (heapGo (m + 1))
        (fun s => ih (m + 1) (by omega) s) (m + 2) (m + 2) 0 a

theorem permutationsJS_map_ofNat (a : List Nat) :
    permutationsJS (a.map Int.ofNat) =
      (permutationsJS a).map (List.map Int.ofNat) := by
  unfold permutationsJS
  rw [List.length_map, heapGo_map_ofNat]

theorem wrapUp_step (a b : Nat) (ha : a < 12) (hb : b < 12) :
    wrapUp ((b : Int) - a) = Int.ofNat (stepN a b) := by
  unfold stepN
  by_cases hab : a ≤ b
  · rw [if_pos hab, wrapUp_of_nonneg _ (by omega), Int.ofNat_eq_natCast]
    omega
  · rw [if_neg hab, wrapUp_neg _ (by omega), wrapUp_of_nonneg _ (by omega),
      Int.ofNat_eq_natCast]
    omega

theorem adjacentIntervals_map_ofNat (l : List Nat) (h : ∀ x ∈ l, x < 12) :
    adjacentIntervals (l.map Int.ofNat) =
      (adjacentIntervalsN l).map Int.ofNat := by
  induction l with
  | nil => rfl
  | cons a t ih =>
    cases t with
    | nil => rfl
    | cons b r =>
      show wrapUp ((b : Int) - a) :: adjacentIntervals ((b :: r).map Int.ofNat) =
        Int.ofNat (stepN a b) :: (adjacentIntervalsN (b :: r)).map Int.ofNat
      rw [wrapUp_step a b (h a (by simp)) (h b (by simp)),
        ih (fun x hx => h x (List.mem_cons_of_mem a hx))]

theorem getIntervalPattern_map_ofNat (l : List Nat) (h : ∀ x ∈ l, x < 12) :
    getIntervalPattern (l.map Int.ofNat) =
      (getIntervalPatternN l).map Int.ofNat := by
  rw [getIntervalPattern, getIntervalPatternN, List.length_map]
  split_ifs
  · rfl
  · exact adjacentIntervals_map_ofNat l h

theorem foldl_add_map_ofNat (pat : List Nat) : ∀ i : Nat,
    List.foldl (· + ·) (Int.ofNat i) (pat.map Int.ofNat) =
      Int.ofNat (List.foldl (· + ·) i pat) := by
  induction pat with
  | nil => intro i; rfl
  | cons x xs ih =>
    intro i
    show List.foldl (· + ·) (Int.ofNat i + Int.ofNat x) (xs.map Int.ofNat) = _
    have hadd : Int.ofNat i + Int.ofNat x = Int.ofNat (i + x) := rfl
    rw [hadd, ih]
    rfl

theorem chordEnergy_map_ofNat (pat : List Nat) :
    chordEnergy (pat.map Int.ofNat) = Int.ofNat (chordEnergyN pat) :=
  foldl_add_map_ofNat pat 0

theorem joinComma_map_ofNat (pat : List Nat) :
    joinComma (pat.map Int.ofNat) = joinCommaN pat := by
  induction pat with
  | nil => rfl
  | cons x xs ih =>
    cases xs with
    | nil => rfl
    | cons y r =>
      show toString (Int.ofNat x) ++ "," ++ joinComma ((y :: r).map Int.ofNat) =
        toString x ++ "," ++ joinCommaN (y :: r)
      rw [ih]
      rfl

theorem stackLoop_map_ofNat (ps : List (List Nat)) :
    ∀ (m : Option Nat) (acc : List (List Nat × String)),
    (∀ p ∈ ps, ∀ x ∈ p, x < 12) →
    stackLoop (ps.map (List.map Int.ofNat)) (m.elim (-1) Int.ofNat)
        (acc.map (fun e => (e.1.map Int.ofNat, e.2))) =
      ((stackLoopN ps m acc).1.elim (-1) Int.ofNat,
       (stackLoopN ps m acc).2.map (fun e => (e.1.map Int.ofNat, e.2))) := by
  induction ps with
  | nil => intro m acc _; rfl
  | cons p ps ih =>
    intro m acc hb
    have hp : ∀ x ∈ p, x < 12 := hb p (by simp)
    have hps : ∀ q ∈ ps, ∀ x ∈ q, x < 12 :=
      fun q hq => hb q (List.mem_cons_of_mem p hq)
    have hE : chordEnergy (getIntervalPattern (p.map Int.ofNat)) =
        Int.ofNat (chordEnergyN (getIntervalPatternN p)) := by
      rw [getIntervalPattern_map_ofNat p hp, chordEnergy_map_ofNat]
    have hJ : joinComma (getIntervalPattern (p.map Int.ofNat)) =
        joinCommaN (getIntervalPatternN p) := by
      rw [getIntervalPattern_map_ofNat p hp, joinComma_map_ofNat]
    rw [List.map_cons]
    cases m with
    | none =>
      have h0 : ((none : Option Nat).elim (-1) Int.ofNat : Int) = -1 := rfl
      rw [h0, stackLoop_cons_reset _ _ _ _ (Or.inr rfl), stackLoopN_cons_none,
        hE, hJ]
      have h' := ih (some (chordEnergyN (getIntervalPatternN p)))
        [(p, joinCommaN (getIntervalPatternN p))] hps
      have hsome : ((some (chordEnergyN (getIntervalPatternN p)) :
          Option Nat).elim (-1) Int.ofNat : Int) =
          Int.ofNat (chordEnergyN (getIntervalPatternN p)) := rfl
      rw [hsome] at h'
      exact h'
    | some v =>
      have h1 : ((some v : Option Nat).elim (-1) Int.ofNat : Int) =
          Int.ofNat v := rfl
      rw [h1]
      rcases Nat.lt_trichotomy (chordEnergyN (getIntervalPatternN p)) v
        with hlt | heq | hgt
      · have hcond : chordEnergy (getIntervalPattern (p.map Int.ofNat)) <
            Int.ofNat v ∨ (Int.ofNat v : Int) = -1 := by
          left
          rw [hE]
          exact Int.ofNat_lt.mpr hlt
        rw [stackLoop_cons_reset _ _ _ _ hcond, stackLoopN_cons_lt _ _ _ _ hlt,
          hE, hJ]
        have h' := ih (some (chordEnergyN (getIntervalPatternN p)))
          [(p, joinCommaN (getIntervalPatternN p))] hps
        have hsome : ((some (chordEnergyN (getIntervalPatternN p)) :
            Option Nat).elim (-1) Int.ofNat : Int) =
            Int.ofNat (chordEnergyN (getIntervalPatternN p)) := rfl
        rw [hsome] at h'
        exact h'
      · have hne : ¬ (chordEnergy (getIntervalPattern (p.map Int.ofNat)) <
            Int.ofNat v ∨ (Int.ofNat v : Int) = -1) := by
          intro hor
          rcases hor with hh | hh
          · rw [hE] at hh
            exact absurd (Int.ofNat_lt.mp hh) (by omega)
          · rw [Int.ofNat_eq_natCast] at hh
            omega
        rw [stackLoop_cons_eq _ _ _ _ hne (by rw [hE]; exact congrArg Int.ofNat heq),
          stackLoopN_cons_eq _ _ _ _ heq, hJ]
        have haux : (acc ++ [(p, joinCommaN (getIntervalPatternN p))]).map
            (fun e => (e.1.map Int.ofNat, e.2)) =
            acc.map (fun e => (e.1.map Int.ofNat, e.2)) ++
              [(p.map Int.ofNat, joinCommaN (getIntervalPatternN p))] := by
          rw [List.map_append]
          rfl
        rw [← haux]
        have h' := ih (some v) (acc ++ [(p, joinCommaN (getIntervalPatternN p))]) hps
        rw [h1] at h'
        exact h'
      · have hne : ¬ (chordEnergy (getIntervalPattern (p.map Int.ofNat)) <
            Int.ofNat v ∨ (Int.ofNat v : Int) = -1) := by
          intro hor
          rcases hor with hh | hh
          · rw [hE] at hh
            exact absurd (Int.ofNat_lt.mp hh) (by omega)
          · rw [Int.ofNat_eq_natCast] at hh
            omega
        have hneq : chordEnergy (getIntervalPattern (p.map Int.ofNat)) ≠
            Int.ofNat v := by
          rw [hE]
          intro hh
          exact absurd (Int.ofNat_inj.mp hh) (by omega)
        rw [stackLoop_cons_skip _ _ _ _ hne hneq, stackLoopN_cons_gt _ _ _ _ hgt]
        have h' := ih (some v) acc hps
        rw [h1] at h'
        exact h'

theorem orderedInsert_map_pairs (b : List Nat × String) :
    ∀ l : List (List Nat × String),
    List.orderedInsert patLe (b.1.map Int.ofNat, b.2)
        (l.map (fun e => (e.1.map Int.ofNat, e.2))) =
      (List.orderedInsert patLe b l).map (fun e => (e.1.map Int.ofNat, e.2)) := by
  intro l
  induction l with
  | nil => rfl
  | cons a t ih =>
    simp only [List.map_cons, List.orderedInsert]
    split_ifs with h1 h2 h2
    · rfl
    · exact absurd h1 h2
    · exact absurd h2 h1
    · rw [List.map_cons, ← ih]

theorem insertionSort_map_pairs (l : List (List Nat × String)) :
    (l.map (fun e => (e.1.map Int.ofNat, e.2))).insertionSort patLe =
      (l.insertionSort patLe).map (fun e => (e.1.map Int.ofNat, e.2)) := by
  induction l with
  | nil => rfl
  | cons a t ih =>
    show List.orderedInsert patLe (a.1.map Int.ofNat, a.2)
        ((t.map (fun e => (e.1.map Int.ofNat, e.2))).insertionSort patLe) = _
    rw [ih, orderedInsert_map_pairs]
    rfl

/-- Bridge: on in-range inputs the faithful `Int` search is the image of the
mirrored `Nat` search under `Int.ofNat`, so concrete instances of
`getAsStackedChord` can be computed through `getAsStackedChordN`. -/
theorem getAsStackedChord_eq_fast (l : List Nat) (h : ∀ x ∈ l, x < 12) :
    getAsStackedChord (l.map Int.ofNat) = (getAsStackedChordN l).map Int.ofNat := by
  rw [getAsStackedChord, getAsStackedChordN, List.length_map]
  split_ifs with hlen
  · rfl
  · have hperms : ∀ p ∈ permutationsJS l, ∀ x ∈ p, x < 12 :=
      fun p hp x hx => h x ((permutationsJS_sound l p hp).mem_iff.mp hx)
    rw [permutationsJS_map_ofNat]
    have hsl := stackLoop_map_ofNat (permutationsJS l) none [] hperms
    have h0 : ((none : Option Nat).elim (-1) Int.ofNat : Int) = -1 := rfl
    rw [h0] at hsl
    simp only [List.map_nil] at hsl
    show ((((stackLoop ((permutationsJS l).map (List.map Int.ofNat)) (-1)
        []).2).insertionSort patLe).headD ([], "")).1 = _
    rw [hsl, insertionSort_map_pairs]
    show ((((stackLoopN (permutationsJS l) none []).2.insertionSort patLe).map
        (fun e => (e.1.map Int.ofNat, e.2))).headD ([], "")).1 =
      (((stackLoopN (permutationsJS l) none []).2.insertionSort
        patLe).headD ([], "")).1.map Int.ofNat
    cases (stackLoopN (permutationsJS l) none []).2.insertionSort patLe with
    | nil => rfl
    | cons e es => rfl

/-!
### Evaluation lemmas for the database build and the detection pipeline
-/

/-- `defineChord` reduced to its record, given the parsed note list and the
canonical stacking as explicit data. -/
theorem defineChord_eval (name noteStr : String) (notes stacked : List Int)
    (hn : (splitComma noteStr).map
      (fun n => jsIndexOfStr SHARP_NOTES (normToken n)) = notes)
    (hs : getAsStackedChord notes = stacked) :
    defineChord name noteStr =
      ⟨name, joinComma (getIntervalPattern stacked),
        jsIndexOfInt stacked (notes.headD 0)⟩ := by
  simp only [defineChord]
  rw [hn, hs]

/-- The matched branch of `detectChordWith`, with every stage of the
pipeline supplied as an explicit equation. -/
theorem detectChordWith_matched (db : List ChordFormula) (notes : List String)
    (u : Bool) (midis classes stacked : List Int) (f : ChordFormula)
    (hne : notes.length ≠ 0)
    (hm : (notes.map noteToMidi).insertionSort (fun a b => a ≤ b) = midis)
    (h1 : midis.length ≠ 1) (h2 : midis.length ≠ 2)
    (hcl : setDedup (midis.map (fun n => Int.tmod n 12)) = classes)
    (hsmall : ¬ 9 ≤ classes.length)
    (hst : getAsStackedChord classes = stacked)
    (hfind : db.find?
      (fun g => g.pattern = joinComma (getIntervalPattern stacked)) = some f) :
    detectChordWith db notes u =
      some (if (if f.name = "dim7" ∨ f.name = "+"
            then Int.tmod (midis.headD 0) 12
            else stacked.getD f.rootIndex.toNat 0) ≠ Int.tmod (midis.headD 0) 12
        then midiToNoteName (if f.name = "dim7" ∨ f.name = "+"
              then Int.tmod (midis.headD 0) 12
              else stacked.getD f.rootIndex.toNat 0) (!u) ++ f.name ++ "/" ++
            midiToNoteName (Int.tmod (midis.headD 0) 12) (!u)
        else midiToNoteName (if f.name = "dim7" ∨ f.name = "+"
              then Int.tmod (midis.headD 0) 12
              else stacked.getD f.rootIndex.toNat 0) (!u) ++ f.name) := by
  simp only [detectChordWith]
  rw [if_neg hne, hm, if_neg h1, if_neg h2, hcl, if_neg hsmall, hst, hfind]

/-- When one permutation `p` beats every other permutation of the set —
strictly smaller energy, or equal energy and lexicographically no larger
pattern string, with equality of pattern strings only for `p` itself —
the search returns `p` for every input ordering `l` of the set.  `base`
is any fixed enumeration order of the set over which the side condition
is checked. -/
theorem getAsStackedChord_of_unique (l base p : List Int) (hne : l ≠ [])
    (hnd : l.Nodup) (hbase : l.Perm base) (hp : p.Perm base)
    (hmin : ∀ q ∈ base.permutations',
      energyOf p < energyOf q ∨
      (energyOf p = energyOf q ∧
        charListLe (patStrOf p).data (patStrOf q).data = true ∧
        ((patStrOf q).data = (patStrOf p).data → q = p))) :
    getAsStackedChord l = p := by
  obtain ⟨hr, hminE, hlex⟩ := getAsStackedChord_min l hne hnd
  have hrb : (getAsStackedChord l).Perm base := hr.trans hbase
  have hpl : p.Perm l := hp.trans hbase.symm
  rcases hmin _ (List.mem_permutations'.mpr hrb) with h | ⟨hE, hle, huniq⟩
  · have h2 := hminE p hpl
    omega
  · have h1 := hlex p hpl hE
    exact huniq (charListLe_antisymm _ _ h1 hle)

/-- Splitting a quantifier over a list at position `n`, so that large
instances are checked in slices of bounded size. -/
theorem forall_mem_take_drop {α : Type} (n : Nat) (l : List α)
    (P : α → Prop) (h1 : ∀ x ∈ l.take n, P x) (h2 : ∀ x ∈ l.drop n, P x) :
    ∀ x ∈ l, P x := by
  intro x hx
  rw [← List.take_append_drop n l] at hx
  rcases List.mem_append.mp hx with h | h
  · exact h1 x h
  · exact h2 x h

/-- Splitting the quantifier over `(x :: l).permutations'` through its
`flatMap` structure, so that large instances decide within the
recursion-depth budget. -/
theorem forall_perm_cons {α : Type} (x : α) (l : List α) (P : List α → Prop)
    (h : ∀ a ∈ l.permutations', ∀ q ∈ List.permutations'Aux x a, P q) :
    ∀ q ∈ (x :: l).permutations', P q := by
  intro q hq
  have hq2 : q ∈ (l.permutations').flatMap (List.permutations'Aux x) := hq
  obtain ⟨a, ha, hqa⟩ := List.mem_flatMap.mp hq2
  exact h a ha q hqa

/-!
### Concrete canonical stackings

One lemma per distinct search input that occurs while building the
database or while detecting a template's own note set.  For a set whose
minimum-energy, lexicographically least stacking is unique among all
permutations, one `hmin` side condition per set settles every input
ordering of that set through `getAsStackedChord_of_unique`; the
remaining sets (those with a rotational translation symmetry, where the
generation order breaks a tie) are evaluated directly through the `Nat`
mirror.
-/

set_option maxRecDepth 20000 in
theorem hmin_s_0_4_7 : ∀ q ∈ ([0, 4, 7] : List Int).permutations',
    energyOf [0, 4, 7] < energyOf q ∨
    (energyOf [0, 4, 7] = energyOf q ∧
      charListLe (patStrOf [0, 4, 7]).data (patStrOf q).data = true ∧
      ((patStrOf q).data = (patStrOf [0, 4, 7]).data → q = [0, 4, 7])) := by
  decide

theorem stk_0_4_7 : getAsStackedChord ([0, 4, 7] : List Int) = ([0, 4, 7] : List Int) :=
  getAsStackedChord_of_unique [0, 4, 7] [0, 4, 7] [0, 4, 7] (by decide) (by decide) (by decide) (by decide) hmin_s_0_4_7

set_option maxRecDepth 20000 in
theorem hmin_s_0_7 : ∀ q ∈ ([0, 7] : List Int).permutations',
    energyOf [7, 0] < energyOf q ∨
    (energyOf [7, 0] = energyOf q ∧
      charListLe (patStrOf [7, 0]).data (patStrOf q).data = true ∧
      ((patStrOf q).data = (patStrOf [7, 0]).data → q = [7, 0])) := by
  decide

theorem stk_0_7 : getAsStackedChord ([0, 7] : List Int) = ([7, 0] : List Int) :=
  getAsStackedChord_of_unique [0, 7] [0, 7] [7, 0] (by decide) (by decide) (by decide) (by decide) hmin_s_0_7

set_option maxRecDepth 20000 in
theorem hmin_s_0_7_9 : ∀ q ∈ ([0, 7, 9] : List Int).permutations',
    energyOf [7, 9, 0] < energyOf q ∨
    (energyOf [7, 9, 0] = energyOf q ∧
      charListLe (patStrOf [7, 9, 0]).data (patStrOf q).data = true ∧
      ((patStrOf q).data = (patStrOf [7, 9, 0]).data → q = [7, 9, 0])) := by
  decide

theorem stk_0_7_9 : getAsStackedChord ([0, 7, 9] : List Int) = ([7, 9, 0] : List Int) :=
  getAsStackedChord_of_unique [0, 7, 9] [0, 7, 9] [7, 9, 0] (by decide) (by decide) (by decide) (by decide) hmin_s_0_7_9

set_option maxRecDepth 20000 in
theorem hmin_s_0_4_7_11 : ∀ q ∈ ([0, 4, 7, 11] : List Int).permutations',
    energyOf [11, 0, 4, 7] < energyOf q ∨
    (energyOf [11, 0, 4, 7] = energyOf q ∧
      charListLe (patStrOf [11, 0, 4, 7]).data (patStrOf q).data = true ∧
      ((patStrOf q).data = (patStrOf [11, 0, 4, 7]).data → q = [11, 0, 4, 7])) := by
  decide

theorem stk_0_4_7_11 : getAsStackedChord ([0, 4, 7, 11] : List Int) = ([11, 0, 4, 7] : List Int) :=
  getAsStackedChord_of_unique [0, 4, 7, 11] [0, 4, 7, 11] [11, 0, 4, 7] (by decide) (by decide) (by decide) (by decide) hmin_s_0_4_7_11

set_option maxRecDepth 20000 in
theorem hmin_s_0_4_6_11 : ∀ q ∈ ([0, 4, 6, 11] : List Int).permutations',
    energyOf [11, 0, 4, 6] < energyOf q ∨
    (energyOf [11, 0, 4, 6] = energyOf q ∧
      charListLe (patStrOf [11, 0, 4, 6]).data (patStrOf q).data = true ∧
      ((patStrOf q).data = (patStrOf [11, 0, 4, 6]).data → q = [11, 0, 4, 6])) := by
  decide

theorem stk_0_4_6_11 : getAsStackedChord ([0, 4, 6, 11] : List Int) = ([11, 0, 4, 6] : List Int) :=
  getAsStackedChord_of_unique [0, 4, 6, 11] [0, 4, 6, 11] [11, 0, 4, 6] (by decide) (by decide) (by decide) (by decide) hmin_s_0_4_6_11

set_option maxRecDepth 20000 in
theorem hmin_s_0_2_4_7 : ∀ q ∈ ([0, 2, 4, 7] : List Int).permutations',
    energyOf [0, 2, 4, 7] < energyOf q ∨
    (energyOf [0, 2, 4, 7] = energyOf q ∧
      charListLe (patStrOf [0, 2, 4, 7]).data (patStrOf q).data = true ∧
      ((patStrOf q).data = (patStrOf [0, 2, 4, 7]).data → q = [0, 2, 4, 7])) := by
  decide

theorem stk_0_4_7_2 : getAsStackedChord ([0, 4, 7, 2] : List Int) = ([0, 2, 4, 7] : List Int) :=
  getAsStackedChord_of_unique [0, 4, 7, 2] [0, 2, 4, 7] [0, 2, 4, 7] (by decide) (by decide) (by decide) (by decide) hmin_s_0_2_4_7

set_option maxRecDepth 20000 in
theorem hmin_s_0_2_4_11 : ∀ q ∈ ([0, 2, 4, 11] : List Int).permutations',
    energyOf [11, 0, 2, 4] < energyOf q ∨
    (energyOf [11, 0, 2, 4] = energyOf q ∧
      charListLe (patStrOf [11, 0, 2, 4]).data (patStrOf q).data = true ∧
      ((patStrOf q).data = (patStrOf [11, 0, 2, 4]).data → q = [11, 0, 2, 4])) := by
  decide

theorem stk_0_2_4_11 : getAsStackedChord ([0, 2, 4, 11] : List Int) = ([11, 0, 2, 4] : List Int) :=
  getAsStackedChord_of_unique [0, 2, 4, 11] [0, 2, 4, 11] [11, 0, 2, 4] (by decide) (by decide) (by decide) (by decide) hmin_s_0_2_4_11

set_option maxRecDepth 20000 in
theorem hmin_s_0_2_4_9 : ∀ q ∈ ([0, 2, 4, 9] : List Int).permutations',
    energyOf [9, 0, 2, 4] < energyOf q ∨
    (energyOf [9, 0, 2, 4] = energyOf q ∧
      charListLe (patStrOf [9, 0, 2, 4]).data (patStrOf q).data = true ∧
      ((patStrOf q).data = (patStrOf [9, 0, 2, 4]).data → q = [9, 0, 2, 4])) := by
  decide

theorem stk_0_2_4_9 : getAsStackedChord ([0, 2, 4, 9] : List Int) = ([9, 0, 2, 4] : List Int) :=
  getAsStackedChord_of_unique [0, 2, 4, 9] [0, 2, 4, 9] [9, 0, 2, 4] (by decide) (by decide) (by decide) (by decide) hmin_s_0_2_4_9

set_option maxRecDepth 40000 in
theorem stk_0_4_8 : getAsStackedChord ([0, 4, 8] : List Int) = ([0, 4, 8] : List Int) := by
  have hN : getAsStackedChordN [0, 4, 8] = [0, 4, 8] := by decide
  have h := getAsStackedChord_eq_fast [0, 4, 8] (by decide)
  rw [hN] at h
  have hm : List.map Int.ofNat [0, 4, 8] = ([0, 4, 8] : List Int) := by decide
  rw [hm] at h
  exact h

set_option maxRecDepth 20000 in
theorem hmin_s_0_3_7 : ∀ q ∈ ([0, 3, 7] : List Int).permutations',
    energyOf [0, 3, 7] < energyOf q ∨
    (energyOf [0, 3, 7] = energyOf q ∧
      charListLe (patStrOf [0, 3, 7]).data (patStrOf q).data = true ∧
      ((patStrOf q).data = (patStrOf [0, 3, 7]).data → q = [0, 3, 7])) := by
  decide

theorem stk_0_3_7 : getAsStackedChord ([0, 3, 7] : List Int) = ([0, 3, 7] : List Int) :=
  getAsStackedChord_of_unique [0, 3, 7] [0, 3, 7] [0, 3, 7] (by decide) (by decide) (by decide) (by decide) hmin_s_0_3_7

set_option maxRecDepth 20000 in
theorem hmin_s_0_2_3_7 : ∀ q ∈ ([0, 2, 3, 7] : List Int).permutations',
    energyOf [0, 2, 3, 7] < energyOf q ∨
    (energyOf [0, 2, 3, 7] = energyOf q ∧
      charListLe (patStrOf [0, 2, 3, 7]).data (patStrOf q).data = true ∧
      ((patStrOf q).data = (patStrOf [0, 2, 3, 7]).data → q = [0, 2, 3, 7])) := by
  decide

theorem stk_0_3_7_2 : getAsStackedChord ([0, 3, 7, 2] : List Int) = ([0, 2, 3, 7] : List Int) :=
  getAsStackedChord_of_unique [0, 3, 7, 2] [0, 2, 3, 7] [0, 2, 3, 7] (by decide) (by decide) (by decide) (by decide) hmin_s_0_2_3_7

set_option maxRecDepth 20000 in
theorem hmin_s_0_3_7_10 : ∀ q ∈ ([0, 3, 7, 10] : List Int).permutations',
    energyOf [7, 10, 0, 3] < energyOf q ∨
    (energyOf [7, 10, 0, 3] = energyOf q ∧
      charListLe (patStrOf [7, 10, 0, 3]).data (patStrOf q).data = true ∧
      ((patStrOf q).data = (patStrOf [7, 10, 0, 3]).data → q = [7, 10, 0, 3])) := by
  decide

theorem stk_0_3_7_10 : getAsStackedChord ([0, 3, 7, 10] : List Int) = ([7, 10, 0, 3] : List Int) :=
  getAsStackedChord_of_unique [0, 3, 7, 10] [0, 3, 7, 10] [7, 10, 0, 3] (by decide) (by decide) (by decide) (by decide) hmin_s_0_3_7_10

set_option maxRecDepth 20000 in
theorem hmin_s_0_2_3_10 : ∀ q ∈ ([0, 2, 3, 10] : List Int).permutations',
    energyOf [10, 0, 2, 3] < energyOf q ∨
    (energyOf [10, 0, 2, 3] = energyOf q ∧
      charListLe (patStrOf [10, 0, 2, 3]).data (patStrOf q).data = true ∧
      ((patStrOf q).data = (patStrOf [10, 0, 2, 3]).data → q = [10, 0, 2, 3])) := by
  decide

theorem stk_0_2_3_10 : getAsStackedChord ([0, 2, 3, 10] : List Int) = ([10, 0, 2, 3] : List Int) :=
  getAsStackedChord_of_unique [0, 2, 3, 10] [0, 2, 3, 10] [10, 0, 2, 3] (by decide) (by decide) (by decide) (by decide) hmin_s_0_2_3_10

set_option maxRecDepth 20000 in
theorem hmin_s_0_3_7_11 : ∀ q ∈ ([0, 3, 7, 11] : List Int).permutations',
    energyOf [11, 0, 3, 7] < energyOf q ∨
    (energyOf [11, 0, 3, 7] = energyOf q ∧
      charListLe (patStrOf [11, 0, 3, 7]).data (patStrOf q).data = true ∧
      ((patStrOf q).data = (patStrOf [11, 0, 3, 7]).data → q = [11, 0, 3, 7])) := by
  decide

theorem stk_0_3_7_11 : getAsStackedChord ([0, 3, 7, 11] : List Int) = ([11, 0, 3, 7] : List Int) :=
  getAsStackedChord_of_unique [0, 3, 7, 11] [0, 3, 7, 11] [11, 0, 3, 7] (by decide) (by decide) (by decide) (by decide) hmin_s_0_3_7_11

set_option maxRecDepth 20000 in
theorem hmin_s_0_2_3_11 : ∀ q ∈ ([0, 2, 3, 11] : List Int).permutations',
    energyOf [11, 0, 2, 3] < energyOf q ∨
    (energyOf [11, 0, 2, 3] = energyOf q ∧
      charListLe (patStrOf [11, 0, 2, 3]).data (patStrOf q).data = true ∧
      ((patStrOf q).data = (patStrOf [11, 0, 2, 3]).data → q = [11, 0, 2, 3])) := by
  decide

theorem stk_0_2_3_11 : getAsStackedChord ([0, 2, 3, 11] : List Int) = ([11, 0, 2, 3] : List Int) :=
  getAsStackedChord_of_unique [0, 2, 3, 11] [0, 2, 3, 11] [11, 0, 2, 3] (by decide) (by decide) (by decide) (by decide) hmin_s_0_2_3_11

set_option maxRecDepth 20000 in
theorem hmin_s_0_3_6 : ∀ q ∈ ([0, 3, 6] : List Int).permutations',
    energyOf [0, 3, 6] < energyOf q ∨
    (energyOf [0, 3, 6] = energyOf q ∧
      charListLe (patStrOf [0, 3, 6]).data (patStrOf q).data = true ∧
      ((patStrOf q).data = (patStrOf [0, 3, 6]).data → q = [0, 3, 6])) := by
  decide

theorem stk_0_3_6 : getAsStackedChord ([0, 3, 6] : List Int) = ([0, 3, 6] : List Int) :=
  getAsStackedChord_of_unique [0, 3, 6] [0, 3, 6] [0, 3, 6] (by decide) (by decide) (by decide) (by decide) hmin_s_0_3_6

set_option maxRecDepth 40000 in
theorem stk_0_3_6_9 : getAsStackedChord ([0, 3, 6, 9] : List Int) = ([0, 3, 6, 9] : List Int) := by
  have hN : getAsStackedChordN [0, 3, 6, 9] = [0, 3, 6, 9] := by decide
  have h := getAsStackedChord_eq_fast [0, 3, 6, 9] (by decide)
  rw [hN] at h
  have hm : List.map Int.ofNat [0, 3, 6, 9] = ([0, 3, 6, 9] : List Int) := by decide
  rw [hm] at h
  exact h

set_option maxRecDepth 20000 in
theorem hmin_s_0_4_7_10 : ∀ q ∈ ([0, 4, 7, 10] : List Int).permutations',
    energyOf [4, 7, 10, 0] < energyOf q ∨
    (energyOf [4, 7, 10, 0] = energyOf q ∧
      charListLe (patStrOf [4, 7, 10, 0]).data (patStrOf q).data = true ∧
      ((patStrOf q).data = (patStrOf [4, 7, 10, 0]).data → q = [4, 7, 10, 0])) := by
  decide

theorem stk_0_4_7_10 : getAsStackedChord ([0, 4, 7, 10] : List Int) = ([4, 7, 10, 0] : List Int) :=
  getAsStackedChord_of_unique [0, 4, 7, 10] [0, 4, 7, 10] [4, 7, 10, 0] (by decide) (by decide) (by decide) (by decide) hmin_s_0_4_7_10

set_option maxRecDepth 20000 in
theorem hmin_s_0_4_10 : ∀ q ∈ ([0, 4, 10] : List Int).permutations',
    energyOf [10, 0, 4] < energyOf q ∨
    (energyOf [10, 0, 4] = energyOf q ∧
      charListLe (patStrOf [10, 0, 4]).data (patStrOf q).data = true ∧
      ((patStrOf q).data = (patStrOf [10, 0, 4]).data → q = [10, 0, 4])) := by
  decide

theorem stk_0_4_10 : getAsStackedChord ([0, 4, 10] : List Int) = ([10, 0, 4] : List Int) :=
  getAsStackedChord_of_unique [0, 4, 10] [0, 4, 10] [10, 0, 4] (by decide) (by decide) (by decide) (by decide) hmin_s_0_4_10

set_option maxRecDepth 20000 in
theorem hmin_s_0_5_7_10 : ∀ q ∈ ([0, 5, 7, 10] : List Int).permutations',
    energyOf [5, 7, 10, 0] < energyOf q ∨
    (energyOf [5, 7, 10, 0] = energyOf q ∧
      charListLe (patStrOf [5, 7, 10, 0]).data (patStrOf q).data = true ∧
      ((patStrOf q).data = (patStrOf [5, 7, 10, 0]).data → q = [5, 7, 10, 0])) := by
  decide

theorem stk_0_5_7_10 : getAsStackedChord ([0, 5, 7, 10] : List Int) = ([5, 7, 10, 0] : List Int) :=
  getAsStackedChord_of_unique [0, 5, 7, 10] [0, 5, 7, 10] [5, 7, 10, 0] (by decide) (by decide) (by decide) (by decide) hmin_s_0_5_7_10

set_option maxRecDepth 40000 in
theorem stk_0_4_6_10 : getAsStackedChord ([0, 4, 6, 10] : List Int) = ([4, 6, 10, 0] : List Int) := by
  have hN : getAsStackedChordN [0, 4, 6, 10] = [4, 6, 10, 0] := by decide
  have h := getAsStackedChord_eq_fast [0, 4, 6, 10] (by decide)
  rw [hN] at h
  have hm : List.map Int.ofNat [0, 4, 6, 10] = ([0, 4, 6, 10] : List Int) := by decide
  have hm2 : List.map Int.ofNat [4, 6, 10, 0] = ([4, 6, 10, 0] : List Int) := by decide
  rw [hm, hm2] at h
  exact h

set_option maxRecDepth 20000 in
theorem hmin_s_0_2_4_10 : ∀ q ∈ ([0, 2, 4, 10] : List Int).permutations',
    energyOf [10, 0, 2, 4] < energyOf q ∨
    (energyOf [10, 0, 2, 4] = energyOf q ∧
      charListLe (patStrOf [10, 0, 2, 4]).data (patStrOf q).data = true ∧
      ((patStrOf q).data = (patStrOf [10, 0, 2, 4]).data → q = [10, 0, 2, 4])) := by
  decide

theorem stk_0_2_4_10 : getAsStackedChord ([0, 2, 4, 10] : List Int) = ([10, 0, 2, 4] : List Int) :=
  getAsStackedChord_of_unique [0, 2, 4, 10] [0, 2, 4, 10] [10, 0, 2, 4] (by decide) (by decide) (by decide) (by decide) hmin_s_0_2_4_10

set_option maxRecDepth 20000 in
theorem hmin_s_0_4_9_10 : ∀ q ∈ ([0, 4, 9, 10] : List Int).permutations',
    energyOf [9, 10, 0, 4] < energyOf q ∨
    (energyOf [9, 10, 0, 4] = energyOf q ∧
      charListLe (patStrOf [9, 10, 0, 4]).data (patStrOf q).data = true ∧
      ((patStrOf q).data = (patStrOf [9, 10, 0, 4]).data → q = [9, 10, 0, 4])) := by
  decide

theorem stk_0_4_9_10 : getAsStackedChord ([0, 4, 9, 10] : List Int) = ([9, 10, 0, 4] : List Int) :=
  getAsStackedChord_of_unique [0, 4, 9, 10] [0, 4, 9, 10] [9, 10, 0, 4] (by decide) (by decide) (by decide) (by decide) hmin_s_0_4_9_10

set_option maxRecDepth 20000 in
theorem hmin_s_0_1_4_10 : ∀ q ∈ ([0, 1, 4, 10] : List Int).permutations',
    energyOf [10, 0, 1, 4] < energyOf q ∨
    (energyOf [10, 0, 1, 4] = energyOf q ∧
      charListLe (patStrOf [10, 0, 1, 4]).data (patStrOf q).data = true ∧
      ((patStrOf q).data = (patStrOf [10, 0, 1, 4]).data → q = [10, 0, 1, 4])) := by
  decide

theorem stk_0_1_4_10 : getAsStackedChord ([0, 1, 4, 10] : List Int) = ([10, 0, 1, 4] : List Int) :=
  getAsStackedChord_of_unique [0, 1, 4, 10] [0, 1, 4, 10] [10, 0, 1, 4] (by decide) (by decide) (by decide) (by decide) hmin_s_0_1_4_10

set_option maxRecDepth 20000 in
theorem hmin_s_0_4_8_10 : ∀ q ∈ ([0, 4, 8, 10] : List Int).permutations',
    energyOf [8, 10, 0, 4] < energyOf q ∨
    (energyOf [8, 10, 0, 4] = energyOf q ∧
      charListLe (patStrOf [8, 10, 0, 4]).data (patStrOf q).data = true ∧
      ((patStrOf q).data = (patStrOf [8, 10, 0, 4]).data → q = [8, 10, 0, 4])) := by
  decide

theorem stk_0_4_8_10 : getAsStackedChord ([0, 4, 8, 10] : List Int) = ([8, 10, 0, 4] : List Int) :=
  getAsStackedChord_of_unique [0, 4, 8, 10] [0, 4, 8, 10] [8, 10, 0, 4] (by decide) (by decide) (by decide) (by decide) hmin_s_0_4_8_10

set_option maxRecDepth 20000 in
theorem hmin_s_0_3_4_10 : ∀ q ∈ ([0, 3, 4, 10] : List Int).permutations',
    energyOf [10, 0, 3, 4] < energyOf q ∨
    (energyOf [10, 0, 3, 4] = energyOf q ∧
      charListLe (patStrOf [10, 0, 3, 4]).data (patStrOf q).data = true ∧
      ((patStrOf q).data = (patStrOf [10, 0, 3, 4]).data → q = [10, 0, 3, 4])) := by
  decide

theorem stk_0_3_4_10 : getAsStackedChord ([0, 3, 4, 10] : List Int) = ([10, 0, 3, 4] : List Int) :=
  getAsStackedChord_of_unique [0, 3, 4, 10] [0, 3, 4, 10] [10, 0, 3, 4] (by decide) (by decide) (by decide) (by decide) hmin_s_0_3_4_10

set_option maxRecDepth 20000 in
theorem hmin_s_0_5_7 : ∀ q ∈ ([0, 5, 7] : List Int).permutations',
    energyOf [5, 7, 0] < energyOf q ∨
    (energyOf [5, 7, 0] = energyOf q ∧
      charListLe (patStrOf [5, 7, 0]).data (patStrOf q).data = true ∧
      ((patStrOf q).data = (patStrOf [5, 7, 0]).data → q = [5, 7, 0])) := by
  decide

theorem stk_0_5_7 : getAsStackedChord ([0, 5, 7] : List Int) = ([5, 7, 0] : List Int) :=
  getAsStackedChord_of_unique [0, 5, 7] [0, 5, 7] [5, 7, 0] (by decide) (by decide) (by decide) (by decide) hmin_s_0_5_7

set_option maxRecDepth 20000 in
theorem hmin_s_0_2_4_7_9 : ∀ q ∈ ([0, 2, 4, 7, 9] : List Int).permutations',
    energyOf [0, 2, 4, 7, 9] < energyOf q ∨
    (energyOf [0, 2, 4, 7, 9] = energyOf q ∧
      charListLe (patStrOf [0, 2, 4, 7, 9]).data (patStrOf q).data = true ∧
      ((patStrOf q).data = (patStrOf [0, 2, 4, 7, 9]).data → q = [0, 2, 4, 7, 9])) := by
  decide

theorem stk_0_4_7_9_2 : getAsStackedChord ([0, 4, 7, 9, 2] : List Int) = ([0, 2, 4, 7, 9] : List Int) :=
  getAsStackedChord_of_unique [0, 4, 7, 9, 2] [0, 2, 4, 7, 9] [0, 2, 4, 7, 9] (by decide) (by decide) (by decide) (by decide) hmin_s_0_2_4_7_9

set_option maxRecDepth 20000 in
theorem hmin_s_0_2_4_7_11 : ∀ q ∈ ([0, 2, 4, 7, 11] : List Int).permutations',
    energyOf [11, 0, 2, 4, 7] < energyOf q ∨
    (energyOf [11, 0, 2, 4, 7] = energyOf q ∧
      charListLe (patStrOf [11, 0, 2, 4, 7]).data (patStrOf q).data = true ∧
      ((patStrOf q).data = (patStrOf [11, 0, 2, 4, 7]).data → q = [11, 0, 2, 4, 7])) := by
  decide

theorem stk_0_4_7_11_2 : getAsStackedChord ([0, 4, 7, 11, 2] : List Int) = ([11, 0, 2, 4, 7] : List Int) :=
  getAsStackedChord_of_unique [0, 4, 7, 11, 2] [0, 2, 4, 7, 11] [11, 0, 2, 4, 7] (by decide) (by decide) (by decide) (by decide) hmin_s_0_2_4_7_11

set_option maxRecDepth 20000 in
theorem hmin_s_0_2_4_7_10 : ∀ q ∈ ([0, 2, 4, 7, 10] : List Int).permutations',
    energyOf [10, 0, 2, 4, 7] < energyOf q ∨
    (energyOf [10, 0, 2, 4, 7] = energyOf q ∧
      charListLe (patStrOf [10, 0, 2, 4, 7]).data (patStrOf q).data = true ∧
      ((patStrOf q).data = (patStrOf [10, 0, 2, 4, 7]).data → q = [10, 0, 2, 4, 7])) := by
  decide

theorem stk_0_4_7_10_2 : getAsStackedChord ([0, 4, 7, 10, 2] : List Int) = ([10, 0, 2, 4, 7] : List Int) :=
  getAsStackedChord_of_unique [0, 4, 7, 10, 2] [0, 2, 4, 7, 10] [10, 0, 2, 4, 7] (by decide) (by decide) (by decide) (by decide) hmin_s_0_2_4_7_10

set_option maxRecDepth 20000 in
theorem hmin_s_0_2_4_7_9_10 : ∀ q ∈ ([0, 2, 4, 7, 9, 10] : List Int).permutations',
    energyOf [7, 9, 10, 0, 2, 4] < energyOf q ∨
    (energyOf [7, 9, 10, 0, 2, 4] = energyOf q ∧
      charListLe (patStrOf [7, 9, 10, 0, 2, 4]).data (patStrOf q).data = true ∧
      ((patStrOf q).data = (patStrOf [7, 9, 10, 0, 2, 4]).data → q = [7, 9, 10, 0, 2, 4])) := by
  decide

theorem stk_0_4_7_10_2_9 : getAsStackedChord ([0, 4, 7, 10, 2, 9] : List Int) = ([7, 9, 10, 0, 2, 4] : List Int) :=
  getAsStackedChord_of_unique [0, 4, 7, 10, 2, 9] [0, 2, 4, 7, 9, 10] [7, 9, 10, 0, 2, 4] (by decide) (by decide) (by decide) (by decide) hmin_s_0_2_4_7_9_10

set_option maxRecDepth 20000 in
theorem hminc_0_2_4_5_7_9_10_p0 : ∀ a ∈ (([2, 4, 5, 7, 9, 10] : List Int).permutations').take 120,
    ∀ q ∈ List.permutations'Aux (0 : Int) a,
    energyOf [4, 5, 7, 9, 10, 0, 2] < energyOf q ∨
    (energyOf [4, 5, 7, 9, 10, 0, 2] = energyOf q ∧
      charListLe (patStrOf [4, 5, 7, 9, 10, 0, 2]).data (patStrOf q).data = true ∧
      ((patStrOf q).data = (patStrOf [4, 5, 7, 9, 10, 0, 2]).data → q = [4, 5, 7, 9, 10, 0, 2])) := by
  decide

set_option maxRecDepth 20000 in
theorem hminc_0_2_4_5_7_9_10_p1 : ∀ a ∈ ((([2, 4, 5, 7, 9, 10] : List Int).permutations').drop 120).take 120,
    ∀ q ∈ List.permutations'Aux (0 : Int) a,
    energyOf [4, 5, 7, 9, 10, 0, 2] < energyOf q ∨
    (energyOf [4, 5, 7, 9, 10, 0, 2] = energyOf q ∧
      charListLe (patStrOf [4, 5, 7, 9, 10, 0, 2]).data (patStrOf q).data = true ∧
      ((patStrOf q).data = (patStrOf [4, 5, 7, 9, 10, 0, 2]).data → q = [4, 5, 7, 9, 10, 0, 2])) := by
  decide

set_option maxRecDepth 20000 in
theorem hminc_0_2_4_5_7_9_10_p2 : ∀ a ∈ (((([2, 4, 5, 7, 9, 10] : List Int).permutations').drop 120).drop 120).take 120,
    ∀ q ∈ List.permutations'Aux (0 : Int) a,
    energyOf [4, 5, 7, 9, 10, 0, 2] < energyOf q ∨
    (energyOf [4, 5, 7, 9, 10, 0, 2] = energyOf q ∧
      charListLe (patStrOf [4, 5, 7, 9, 10, 0, 2]).data (patStrOf q).data = true ∧
      ((patStrOf q).data = (patStrOf [4, 5, 7, 9, 10, 0, 2]).data → q = [4, 5, 7, 9, 10, 0, 2])) := by
  decide

set_option maxRecDepth 20000 in
theorem hminc_0_2_4_5_7_9_10_p3 : ∀ a ∈ ((((([2, 4, 5, 7, 9, 10] : List Int).permutations').drop 120).drop 120).drop 120).take 120,
    ∀ q ∈ List.permutations'Aux (0 : Int) a,
    energyOf [4, 5, 7, 9, 10, 0, 2] < energyOf q ∨
    (energyOf [4, 5, 7, 9, 10, 0, 2] = energyOf q ∧
      charListLe (patStrOf [4, 5, 7, 9, 10, 0, 2]).data (patStrOf q).data = true ∧
      ((patStrOf q).data = (patStrOf [4, 5, 7, 9, 10, 0, 2]).data → q = [4, 5, 7, 9, 10, 0, 2])) := by
  decide

set_option maxRecDepth 20000 in
theorem hminc_0_2_4_5_7_9_10_p4 : ∀ a ∈ (((((([2, 4, 5, 7, 9, 10] : List Int).permutations').drop 120).drop 120).drop 120).drop 120).take 120,
    ∀ q ∈ List.permutations'Aux (0 : Int) a,
    energyOf [4, 5, 7, 9, 10, 0, 2] < energyOf q ∨
    (energyOf [4, 5, 7, 9, 10, 0, 2] = energyOf q ∧
      charListLe (patStrOf [4, 5, 7, 9, 10, 0, 2]).data (patStrOf q).data = true ∧
      ((patStrOf q).data = (patStrOf [4, 5, 7, 9, 10, 0, 2]).data → q = [4, 5, 7, 9, 10, 0, 2])) := by
  decide

set_option maxRecDepth 20000 in
theorem hminc_0_2_4_5_7_9_10_p5 : ∀ a ∈ ((((((([2, 4, 5, 7, 9, 10] : List Int).permutations').drop 120).drop 120).drop 120).drop 120).drop 120),
    ∀ q ∈ List.permutations'Aux (0 : Int) a,
    energyOf [4, 5, 7, 9, 10, 0, 2] < energyOf q ∨
    (energyOf [4, 5, 7, 9, 10, 0, 2] = energyOf q ∧
      charListLe (patStrOf [4, 5, 7, 9, 10, 0, 2]).data (patStrOf q).data = true ∧
      ((patStrOf q).data = (patStrOf [4, 5, 7, 9, 10, 0, 2]).data → q = [4, 5, 7, 9, 10, 0, 2])) := by
  decide

theorem hmin_s_0_2_4_5_7_9_10 : ∀ a ∈ ([2, 4, 5, 7, 9, 10] : List Int).permutations',
    ∀ q ∈ List.permutations'Aux (0 : Int) a,
    energyOf [4, 5, 7, 9, 10, 0, 2] < energyOf q ∨
    (energyOf [4, 5, 7, 9, 10, 0, 2] = energyOf q ∧
      charListLe (patStrOf [4, 5, 7, 9, 10, 0, 2]).data (patStrOf q).data = true ∧
      ((patStrOf q).data = (patStrOf [4, 5, 7, 9, 10, 0, 2]).data → q = [4, 5, 7, 9, 10, 0, 2])) :=
  forall_mem_take_drop 120 _ _ hminc_0_2_4_5_7_9_10_p0
    (forall_mem_take_drop 120 _ _ hminc_0_2_4_5_7_9_10_p1
    (forall_mem_take_drop 120 _ _ hminc_0_2_4_5_7_9_10_p2
    (forall_mem_take_drop 120 _ _ hminc_0_2_4_5_7_9_10_p3
    (forall_mem_take_drop 120 _ _ hminc_0_2_4_5_7_9_10_p4
    (hminc_0_2_4_5_7_9_10_p5)))))

theorem stk_0_4_7_10_2_5_9 : getAsStackedChord ([0, 4, 7, 10, 2, 5, 9] : List Int) = ([4, 5, 7, 9, 10, 0, 2] : List Int) :=
  getAsStackedChord_of_unique [0, 4, 7, 10, 2, 5, 9] [0, 2, 4, 5, 7, 9, 10] [4, 5, 7, 9, 10, 0, 2] (by decide) (by decide) (by decide) (by decide) (forall_perm_cons _ _ _ hmin_s_0_2_4_5_7_9_10)

set_option maxRecDepth 20000 in
theorem hmin_s_0_2_4_9_10 : ∀ q ∈ ([0, 2, 4, 9, 10] : List Int).permutations',
    energyOf [9, 10, 0, 2, 4] < energyOf q ∨
    (energyOf [9, 10, 0, 2, 4] = energyOf q ∧
      charListLe (patStrOf [9, 10, 0, 2, 4]).data (patStrOf q).data = true ∧
      ((patStrOf q).data = (patStrOf [9, 10, 0, 2, 4]).data → q = [9, 10, 0, 2, 4])) := by
  decide

theorem stk_0_4_10_2_9 : getAsStackedChord ([0, 4, 10, 2, 9] : List Int) = ([9, 10, 0, 2, 4] : List Int) :=
  getAsStackedChord_of_unique [0, 4, 10, 2, 9] [0, 2, 4, 9, 10] [9, 10, 0, 2, 4] (by decide) (by decide) (by decide) (by decide) hmin_s_0_2_4_9_10

set_option maxRecDepth 20000 in
theorem hmin_s_0_3_7_9 : ∀ q ∈ ([0, 3, 7, 9] : List Int).permutations',
    energyOf [7, 9, 0, 3] < energyOf q ∨
    (energyOf [7, 9, 0, 3] = energyOf q ∧
      charListLe (patStrOf [7, 9, 0, 3]).data (patStrOf q).data = true ∧
      ((patStrOf q).data = (patStrOf [7, 9, 0, 3]).data → q = [7, 9, 0, 3])) := by
  decide

theorem stk_0_3_7_9 : getAsStackedChord ([0, 3, 7, 9] : List Int) = ([7, 9, 0, 3] : List Int) :=
  getAsStackedChord_of_unique [0, 3, 7, 9] [0, 3, 7, 9] [7, 9, 0, 3] (by decide) (by decide) (by decide) (by decide) hmin_s_0_3_7_9

set_option maxRecDepth 20000 in
theorem hmin_s_0_2_3_7_9 : ∀ q ∈ ([0, 2, 3, 7, 9] : List Int).permutations',
    energyOf [7, 9, 0, 2, 3] < energyOf q ∨
    (energyOf [7, 9, 0, 2, 3] = energyOf q ∧
      charListLe (patStrOf [7, 9, 0, 2, 3]).data (patStrOf q).data = true ∧
      ((patStrOf q).data = (patStrOf [7, 9, 0, 2, 3]).data → q = [7, 9, 0, 2, 3])) := by
  decide

theorem stk_0_3_7_9_2 : getAsStackedChord ([0, 3, 7, 9, 2] : List Int) = ([7, 9, 0, 2, 3] : List Int) :=
  getAsStackedChord_of_unique [0, 3, 7, 9, 2] [0, 2, 3, 7, 9] [7, 9, 0, 2, 3] (by decide) (by decide) (by decide) (by decide) hmin_s_0_2_3_7_9

set_option maxRecDepth 20000 in
theorem hmin_s_0_2_3_9 : ∀ q ∈ ([0, 2, 3, 9] : List Int).permutations',
    energyOf [9, 0, 2, 3] < energyOf q ∨
    (energyOf [9, 0, 2, 3] = energyOf q ∧
      charListLe (patStrOf [9, 0, 2, 3]).data (patStrOf q).data = true ∧
      ((patStrOf q).data = (patStrOf [9, 0, 2, 3]).data → q = [9, 0, 2, 3])) := by
  decide

theorem stk_0_3_9_2 : getAsStackedChord ([0, 3, 9, 2] : List Int) = ([9, 0, 2, 3] : List Int) :=
  getAsStackedChord_of_unique [0, 3, 9, 2] [0, 2, 3, 9] [9, 0, 2, 3] (by decide) (by decide) (by decide) (by decide) hmin_s_0_2_3_9

set_option maxRecDepth 20000 in
theorem hmin_s_0_3_7_9_10 : ∀ q ∈ ([0, 3, 7, 9, 10] : List Int).permutations',
    energyOf [7, 9, 10, 0, 3] < energyOf q ∨
    (energyOf [7, 9, 10, 0, 3] = energyOf q ∧
      charListLe (patStrOf [7, 9, 10, 0, 3]).data (patStrOf q).data = true ∧
      ((patStrOf q).data = (patStrOf [7, 9, 10, 0, 3]).data → q = [7, 9, 10, 0, 3])) := by
  decide

theorem stk_0_3_7_9_10 : getAsStackedChord ([0, 3, 7, 9, 10] : List Int) = ([7, 9, 10, 0, 3] : List Int) :=
  getAsStackedChord_of_unique [0, 3, 7, 9, 10] [0, 3, 7, 9, 10] [7, 9, 10, 0, 3] (by decide) (by decide) (by decide) (by decide) hmin_s_0_3_7_9_10

set_option maxRecDepth 20000 in
theorem hmin_s_0_2_3_7_10 : ∀ q ∈ ([0, 2, 3, 7, 10] : List Int).permutations',
    energyOf [7, 10, 0, 2, 3] < energyOf q ∨
    (energyOf [7, 10, 0, 2, 3] = energyOf q ∧
      charListLe (patStrOf [7, 10, 0, 2, 3]).data (patStrOf q).data = true ∧
      ((patStrOf q).data = (patStrOf [7, 10, 0, 2, 3]).data → q = [7, 10, 0, 2, 3])) := by
  decide

theorem stk_0_3_7_10_2 : getAsStackedChord ([0, 3, 7, 10, 2] : List Int) = ([7, 10, 0, 2, 3] : List Int) :=
  getAsStackedChord_of_unique [0, 3, 7, 10, 2] [0, 2, 3, 7, 10] [7, 10, 0, 2, 3] (by decide) (by decide) (by decide) (by decide) hmin_s_0_2_3_7_10

set_option maxRecDepth 20000 in
theorem hmin_s_0_2_3_5_7_10 : ∀ q ∈ ([0, 2, 3, 5, 7, 10] : List Int).permutations',
    energyOf [10, 0, 2, 3, 5, 7] < energyOf q ∨
    (energyOf [10, 0, 2, 3, 5, 7] = energyOf q ∧
      charListLe (patStrOf [10, 0, 2, 3, 5, 7]).data (patStrOf q).data = true ∧
      ((patStrOf q).data = (patStrOf [10, 0, 2, 3, 5, 7]).data → q = [10, 0, 2, 3, 5, 7])) := by
  decide

theorem stk_0_3_7_10_2_5 : getAsStackedChord ([0, 3, 7, 10, 2, 5] : List Int) = ([10, 0, 2, 3, 5, 7] : List Int) :=
  getAsStackedChord_of_unique [0, 3, 7, 10, 2, 5] [0, 2, 3, 5, 7, 10] [10, 0, 2, 3, 5, 7] (by decide) (by decide) (by decide) (by decide) hmin_s_0_2_3_5_7_10

set_option maxRecDepth 20000 in
theorem hmin_s_0_2_3_5_10 : ∀ q ∈ ([0, 2, 3, 5, 10] : List Int).permutations',
    energyOf [10, 0, 2, 3, 5] < energyOf q ∨
    (energyOf [10, 0, 2, 3, 5] = energyOf q ∧
      charListLe (patStrOf [10, 0, 2, 3, 5]).data (patStrOf q).data = true ∧
      ((patStrOf q).data = (patStrOf [10, 0, 2, 3, 5]).data → q = [10, 0, 2, 3, 5])) := by
  decide

theorem stk_0_3_10_2_5 : getAsStackedChord ([0, 3, 10, 2, 5] : List Int) = ([10, 0, 2, 3, 5] : List Int) :=
  getAsStackedChord_of_unique [0, 3, 10, 2, 5] [0, 2, 3, 5, 10] [10, 0, 2, 3, 5] (by decide) (by decide) (by decide) (by decide) hmin_s_0_2_3_5_10

set_option maxRecDepth 20000 in
theorem hminc_0_2_3_5_7_9_10_p0 : ∀ a ∈ (([2, 3, 5, 7, 9, 10] : List Int).permutations').take 120,
    ∀ q ∈ List.permutations'Aux (0 : Int) a,
    energyOf [9, 10, 0, 2, 3, 5, 7] < energyOf q ∨
    (energyOf [9, 10, 0, 2, 3, 5, 7] = energyOf q ∧
      charListLe (patStrOf [9, 10, 0, 2, 3, 5, 7]).data (patStrOf q).data = true ∧
      ((patStrOf q).data = (patStrOf [9, 10, 0, 2, 3, 5, 7]).data → q = [9, 10, 0, 2, 3, 5, 7])) := by
  decide

set_option maxRecDepth 20000 in
theorem hminc_0_2_3_5_7_9_10_p1 : ∀ a ∈ ((([2, 3, 5, 7, 9, 10] : List Int).permutations').drop 120).take 120,
    ∀ q ∈ List.permutations'Aux (0 : Int) a,
    energyOf [9, 10, 0, 2, 3, 5, 7] < energyOf q ∨
    (energyOf [9, 10, 0, 2, 3, 5, 7] = energyOf q ∧
      charListLe (patStrOf [9, 10, 0, 2, 3, 5, 7]).data (patStrOf q).data = true ∧
      ((patStrOf q).data = (patStrOf [9, 10, 0, 2, 3, 5, 7]).data → q = [9, 10, 0, 2, 3, 5, 7])) := by
  decide

set_option maxRecDepth 20000 in
theorem hminc_0_2_3_5_7_9_10_p2 : ∀ a ∈ (((([2, 3, 5, 7, 9, 10] : List Int).permutations').drop 120).drop 120).take 120,
    ∀ q ∈ List.permutations'Aux (0 : Int) a,
    energyOf [9, 10, 0, 2, 3, 5, 7] < energyOf q ∨
    (energyOf [9, 10, 0, 2, 3, 5, 7] = energyOf q ∧
      charListLe (patStrOf [9, 10, 0, 2, 3, 5, 7]).data (patStrOf q).data = true ∧
      ((patStrOf q).data = (patStrOf [9, 10, 0, 2, 3, 5, 7]).data → q = [9, 10, 0, 2, 3, 5, 7])) := by
  decide

set_option maxRecDepth 20000 in
theorem hminc_0_2_3_5_7_9_10_p3 : ∀ a ∈ ((((([2, 3, 5, 7, 9, 10] : List Int).permutations').drop 120).drop 120).drop 120).take 120,
    ∀ q ∈ List.permutations'Aux (0 : Int) a,
    energyOf [9, 10, 0, 2, 3, 5, 7] < energyOf q ∨
    (energyOf [9, 10, 0, 2, 3, 5, 7] = energyOf q ∧
      charListLe (patStrOf [9, 10, 0, 2, 3, 5, 7]).data (patStrOf q).data = true ∧
      ((patStrOf q).data = (patStrOf [9, 10, 0, 2, 3, 5, 7]).data → q = [9, 10, 0, 2, 3, 5, 7])) := by
  decide

set_option maxRecDepth 20000 in
theorem hminc_0_2_3_5_7_9_10_p4 : ∀ a ∈ (((((([2, 3, 5, 7, 9, 10] : List Int).permutations').drop 120).drop 120).drop 120).drop 120).take 120,
    ∀ q ∈ List.permutations'Aux (0 : Int) a,
    energyOf [9, 10, 0, 2, 3, 5, 7] < energyOf q ∨
    (energyOf [9, 10, 0, 2, 3, 5, 7] = energyOf q ∧
      charListLe (patStrOf [9, 10, 0, 2, 3, 5, 7]).data (patStrOf q).data = true ∧
      ((patStrOf q).data = (patStrOf [9, 10, 0, 2, 3, 5, 7]).data → q = [9, 10, 0, 2, 3, 5, 7])) := by
  decide

set_option maxRecDepth 20000 in
theorem hminc_0_2_3_5_7_9_10_p5 : ∀ a ∈ ((((((([2, 3, 5, 7, 9, 10] : List Int).permutations').drop 120).drop 120).drop 120).drop 120).drop 120),
    ∀ q ∈ List.permutations'Aux (0 : Int) a,
    energyOf [9, 10, 0, 2, 3, 5, 7] < energyOf q ∨
    (energyOf [9, 10, 0, 2, 3, 5, 7] = energyOf q ∧
      charListLe (patStrOf [9, 10, 0, 2, 3, 5, 7]).data (patStrOf q).data = true ∧
      ((patStrOf q).data = (patStrOf [9, 10, 0, 2, 3, 5, 7]).data → q = [9, 10, 0, 2, 3, 5, 7])) := by
  decide

theorem hmin_s_0_2_3_5_7_9_10 : ∀ a ∈ ([2, 3, 5, 7, 9, 10] : List Int).permutations',
    ∀ q ∈ List.permutations'Aux (0 : Int) a,
    energyOf [9, 10, 0, 2, 3, 5, 7] < energyOf q ∨
    (energyOf [9, 10, 0, 2, 3, 5, 7] = energyOf q ∧
      charListLe (patStrOf [9, 10, 0, 2, 3, 5, 7]).data (patStrOf q).data = true ∧
      ((patStrOf q).data = (patStrOf [9, 10, 0, 2, 3, 5, 7]).data → q = [9, 10, 0, 2, 3, 5, 7])) :=
  forall_mem_take_drop 120 _ _ hminc_0_2_3_5_7_9_10_p0
    (forall_mem_take_drop 120 _ _ hminc_0_2_3_5_7_9_10_p1
    (forall_mem_take_drop 120 _ _ hminc_0_2_3_5_7_9_10_p2
    (forall_mem_take_drop 120 _ _ hminc_0_2_3_5_7_9_10_p3
    (forall_mem_take_drop 120 _ _ hminc_0_2_3_5_7_9_10_p4
    (hminc_0_2_3_5_7_9_10_p5)))))

theorem stk_0_3_7_10_2_5_9 : getAsStackedChord ([0, 3, 7, 10, 2, 5, 9] : List Int) = ([9, 10, 0, 2, 3, 5, 7] : List Int) :=
  getAsStackedChord_of_unique [0, 3, 7, 10, 2, 5, 9] [0, 2, 3, 5, 7, 9, 10] [9, 10, 0, 2, 3, 5, 7] (by decide) (by decide) (by decide) (by decide) (forall_perm_cons _ _ _ hmin_s_0_2_3_5_7_9_10)

set_option maxRecDepth 20000 in
theorem hmin_s_0_2_3_7_11 : ∀ q ∈ ([0, 2, 3, 7, 11] : List Int).permutations',
    energyOf [11, 0, 2, 3, 7] < energyOf q ∨
    (energyOf [11, 0, 2, 3, 7] = energyOf q ∧
      charListLe (patStrOf [11, 0, 2, 3, 7]).data (patStrOf q).data = true ∧
      ((patStrOf q).data = (patStrOf [11, 0, 2, 3, 7]).data → q = [11, 0, 2, 3, 7])) := by
  decide

theorem stk_0_3_7_11_2 : getAsStackedChord ([0, 3, 7, 11, 2] : List Int) = ([11, 0, 2, 3, 7] : List Int) :=
  getAsStackedChord_of_unique [0, 3, 7, 11, 2] [0, 2, 3, 7, 11] [11, 0, 2, 3, 7] (by decide) (by decide) (by decide) (by decide) hmin_s_0_2_3_7_11

set_option maxRecDepth 20000 in
theorem hmin_s_0_2_3_6_10 : ∀ q ∈ ([0, 2, 3, 6, 10] : List Int).permutations',
    energyOf [10, 0, 2, 3, 6] < energyOf q ∨
    (energyOf [10, 0, 2, 3, 6] = energyOf q ∧
      charListLe (patStrOf [10, 0, 2, 3, 6]).data (patStrOf q).data = true ∧
      ((patStrOf q).data = (patStrOf [10, 0, 2, 3, 6]).data → q = [10, 0, 2, 3, 6])) := by
  decide

theorem stk_0_3_6_10_2 : getAsStackedChord ([0, 3, 6, 10, 2] : List Int) = ([10, 0, 2, 3, 6] : List Int) :=
  getAsStackedChord_of_unique [0, 3, 6, 10, 2] [0, 2, 3, 6, 10] [10, 0, 2, 3, 6] (by decide) (by decide) (by decide) (by decide) hmin_s_0_2_3_6_10

set_option maxRecDepth 20000 in
theorem hmin_s_0_2_3_5_6_10 : ∀ q ∈ ([0, 2, 3, 5, 6, 10] : List Int).permutations',
    energyOf [10, 0, 2, 3, 5, 6] < energyOf q ∨
    (energyOf [10, 0, 2, 3, 5, 6] = energyOf q ∧
      charListLe (patStrOf [10, 0, 2, 3, 5, 6]).data (patStrOf q).data = true ∧
      ((patStrOf q).data = (patStrOf [10, 0, 2, 3, 5, 6]).data → q = [10, 0, 2, 3, 5, 6])) := by
  decide

theorem stk_0_3_6_10_2_5 : getAsStackedChord ([0, 3, 6, 10, 2, 5] : List Int) = ([10, 0, 2, 3, 5, 6] : List Int) :=
  getAsStackedChord_of_unique [0, 3, 6, 10, 2, 5] [0, 2, 3, 5, 6, 10] [10, 0, 2, 3, 5, 6] (by decide) (by decide) (by decide) (by decide) hmin_s_0_2_3_5_6_10

set_option maxRecDepth 20000 in
theorem hmin_s_0_4_8_11 : ∀ q ∈ ([0, 4, 8, 11] : List Int).permutations',
    energyOf [8, 11, 0, 4] < energyOf q ∨
    (energyOf [8, 11, 0, 4] = energyOf q ∧
      charListLe (patStrOf [8, 11, 0, 4]).data (patStrOf q).data = true ∧
      ((patStrOf q).data = (patStrOf [8, 11, 0, 4]).data → q = [8, 11, 0, 4])) := by
  decide

theorem stk_0_4_8_11 : getAsStackedChord ([0, 4, 8, 11] : List Int) = ([8, 11, 0, 4] : List Int) :=
  getAsStackedChord_of_unique [0, 4, 8, 11] [0, 4, 8, 11] [8, 11, 0, 4] (by decide) (by decide) (by decide) (by decide) hmin_s_0_4_8_11

set_option maxRecDepth 20000 in
theorem hmin_s_0_4_6_7_11 : ∀ q ∈ ([0, 4, 6, 7, 11] : List Int).permutations',
    energyOf [11, 0, 4, 6, 7] < energyOf q ∨
    (energyOf [11, 0, 4, 6, 7] = energyOf q ∧
      charListLe (patStrOf [11, 0, 4, 6, 7]).data (patStrOf q).data = true ∧
      ((patStrOf q).data = (patStrOf [11, 0, 4, 6, 7]).data → q = [11, 0, 4, 6, 7])) := by
  decide

theorem stk_0_4_7_11_6 : getAsStackedChord ([0, 4, 7, 11, 6] : List Int) = ([11, 0, 4, 6, 7] : List Int) :=
  getAsStackedChord_of_unique [0, 4, 7, 11, 6] [0, 4, 6, 7, 11] [11, 0, 4, 6, 7] (by decide) (by decide) (by decide) (by decide) hmin_s_0_4_6_7_11

set_option maxRecDepth 20000 in
theorem hmin_s_0_2_4_6_7_11 : ∀ q ∈ ([0, 2, 4, 6, 7, 11] : List Int).permutations',
    energyOf [11, 0, 2, 4, 6, 7] < energyOf q ∨
    (energyOf [11, 0, 2, 4, 6, 7] = energyOf q ∧
      charListLe (patStrOf [11, 0, 2, 4, 6, 7]).data (patStrOf q).data = true ∧
      ((patStrOf q).data = (patStrOf [11, 0, 2, 4, 6, 7]).data → q = [11, 0, 2, 4, 6, 7])) := by
  decide

theorem stk_0_4_7_11_2_6 : getAsStackedChord ([0, 4, 7, 11, 2, 6] : List Int) = ([11, 0, 2, 4, 6, 7] : List Int) :=
  getAsStackedChord_of_unique [0, 4, 7, 11, 2, 6] [0, 2, 4, 6, 7, 11] [11, 0, 2, 4, 6, 7] (by decide) (by decide) (by decide) (by decide) hmin_s_0_2_4_6_7_11

set_option maxRecDepth 20000 in
theorem hmin_s_0_1_4_7_10 : ∀ q ∈ ([0, 1, 4, 7, 10] : List Int).permutations',
    energyOf [10, 0, 1, 4, 7] < energyOf q ∨
    (energyOf [10, 0, 1, 4, 7] = energyOf q ∧
      charListLe (patStrOf [10, 0, 1, 4, 7]).data (patStrOf q).data = true ∧
      ((patStrOf q).data = (patStrOf [10, 0, 1, 4, 7]).data → q = [10, 0, 1, 4, 7])) := by
  decide

theorem stk_0_4_7_10_1 : getAsStackedChord ([0, 4, 7, 10, 1] : List Int) = ([10, 0, 1, 4, 7] : List Int) :=
  getAsStackedChord_of_unique [0, 4, 7, 10, 1] [0, 1, 4, 7, 10] [10, 0, 1, 4, 7] (by decide) (by decide) (by decide) (by decide) hmin_s_0_1_4_7_10

set_option maxRecDepth 20000 in
theorem hmin_s_0_3_4_7_10 : ∀ q ∈ ([0, 3, 4, 7, 10] : List Int).permutations',
    energyOf [3, 4, 7, 10, 0] < energyOf q ∨
    (energyOf [3, 4, 7, 10, 0] = energyOf q ∧
      charListLe (patStrOf [3, 4, 7, 10, 0]).data (patStrOf q).data = true ∧
      ((patStrOf q).data = (patStrOf [3, 4, 7, 10, 0]).data → q = [3, 4, 7, 10, 0])) := by
  decide

theorem stk_0_4_7_10_3 : getAsStackedChord ([0, 4, 7, 10, 3] : List Int) = ([3, 4, 7, 10, 0] : List Int) :=
  getAsStackedChord_of_unique [0, 4, 7, 10, 3] [0, 3, 4, 7, 10] [3, 4, 7, 10, 0] (by decide) (by decide) (by decide) (by decide) hmin_s_0_3_4_7_10

set_option maxRecDepth 20000 in
theorem hmin_s_0_3_4_8_10 : ∀ q ∈ ([0, 3, 4, 8, 10] : List Int).permutations',
    energyOf [8, 10, 0, 3, 4] < energyOf q ∨
    (energyOf [8, 10, 0, 3, 4] = energyOf q ∧
      charListLe (patStrOf [8, 10, 0, 3, 4]).data (patStrOf q).data = true ∧
      ((patStrOf q).data = (patStrOf [8, 10, 0, 3, 4]).data → q = [8, 10, 0, 3, 4])) := by
  decide

theorem stk_0_4_8_10_3 : getAsStackedChord ([0, 4, 8, 10, 3] : List Int) = ([8, 10, 0, 3, 4] : List Int) :=
  getAsStackedChord_of_unique [0, 4, 8, 10, 3] [0, 3, 4, 8, 10] [8, 10, 0, 3, 4] (by decide) (by decide) (by decide) (by decide) hmin_s_0_3_4_8_10

set_option maxRecDepth 20000 in
theorem hmin_s_0_4_6_7_10 : ∀ q ∈ ([0, 4, 6, 7, 10] : List Int).permutations',
    energyOf [4, 6, 7, 10, 0] < energyOf q ∨
    (energyOf [4, 6, 7, 10, 0] = energyOf q ∧
      charListLe (patStrOf [4, 6, 7, 10, 0]).data (patStrOf q).data = true ∧
      ((patStrOf q).data = (patStrOf [4, 6, 7, 10, 0]).data → q = [4, 6, 7, 10, 0])) := by
  decide

theorem stk_0_4_7_10_6 : getAsStackedChord ([0, 4, 7, 10, 6] : List Int) = ([4, 6, 7, 10, 0] : List Int) :=
  getAsStackedChord_of_unique [0, 4, 7, 10, 6] [0, 4, 6, 7, 10] [4, 6, 7, 10, 0] (by decide) (by decide) (by decide) (by decide) hmin_s_0_4_6_7_10

set_option maxRecDepth 20000 in
theorem hmin_s_0_2_4_6_7_10 : ∀ q ∈ ([0, 2, 4, 6, 7, 10] : List Int).permutations',
    energyOf [10, 0, 2, 4, 6, 7] < energyOf q ∨
    (energyOf [10, 0, 2, 4, 6, 7] = energyOf q ∧
      charListLe (patStrOf [10, 0, 2, 4, 6, 7]).data (patStrOf q).data = true ∧
      ((patStrOf q).data = (patStrOf [10, 0, 2, 4, 6, 7]).data → q = [10, 0, 2, 4, 6, 7])) := by
  decide

theorem stk_0_4_7_10_2_6 : getAsStackedChord ([0, 4, 7, 10, 2, 6] : List Int) = ([10, 0, 2, 4, 6, 7] : List Int) :=
  getAsStackedChord_of_unique [0, 4, 7, 10, 2, 6] [0, 2, 4, 6, 7, 10] [10, 0, 2, 4, 6, 7] (by decide) (by decide) (by decide) (by decide) hmin_s_0_2_4_6_7_10

theorem sths_0_4_7_10_1_6_1 : (heapIter (heapGo 5) 6 1 0 [0, 4, 7, 10, 1, 6]).2 = [6, 4, 7, 10, 1, 0] := by
  rw [heapIter_one_state, (heap_main 5 [0, 4, 7, 10, 1, 6] (by decide)).1]
  decide

theorem sths_0_4_7_10_1_6_2 : (heapIter (heapGo 5) 6 1 1 [6, 4, 7, 10, 1, 0]).2 = [6, 0, 7, 10, 1, 4] := by
  rw [heapIter_one_state, (heap_main 5 [6, 4, 7, 10, 1, 0] (by decide)).1]
  decide

theorem sths_0_4_7_10_1_6_3 : (heapIter (heapGo 5) 6 1 2 [6, 0, 7, 10, 1, 4]).2 = [6, 0, 4, 10, 1, 7] := by
  rw [heapIter_one_state, (heap_main 5 [6, 0, 7, 10, 1, 4] (by decide)).1]
  decide

theorem sths_0_4_7_10_1_6_4 : (heapIter (heapGo 5) 6 1 3 [6, 0, 4, 10, 1, 7]).2 = [6, 0, 4, 7, 1, 10] := by
  rw [heapIter_one_state, (heap_main 5 [6, 0, 4, 10, 1, 7] (by decide)).1]
  decide

theorem sths_0_4_7_10_1_6_5 : (heapIter (heapGo 5) 6 1 4 [6, 0, 4, 7, 1, 10]).2 = [6, 0, 4, 7, 10, 1] := by
  rw [heapIter_one_state, (heap_main 5 [6, 0, 4, 7, 1, 10] (by decide)).1]
  decide

set_option maxRecDepth 20000 in
theorem sthc_0_4_7_10_1_6_1 : stackLoopN (heapIter (heapGo 5) 6 1 0 [0, 4, 7, 10, 1, 6]).1 none [] = ((some 11), [([7, 10, 0, 1, 4, 6], "3,2,1,3,2")]) := by decide

set_option maxRecDepth 20000 in
theorem sthc_0_4_7_10_1_6_2 : stackLoopN (heapIter (heapGo 5) 6 1 1 [6, 4, 7, 10, 1, 0]).1 (some 11) [([7, 10, 0, 1, 4, 6], "3,2,1,3,2")] = ((some 11), [([7, 10, 0, 1, 4, 6], "3,2,1,3,2"), ([1, 4, 6, 7, 10, 0], "3,2,1,3,2")]) := by decide

set_option maxRecDepth 20000 in
theorem sthc_0_4_7_10_1_6_3 : stackLoopN (heapIter (heapGo 5) 6 1 2 [6, 0, 7, 10, 1, 4]).1 (some 11) [([7, 10, 0, 1, 4, 6], "3,2,1,3,2"), ([1, 4, 6, 7, 10, 0], "3,2,1,3,2")] = ((some 10), [([6, 7, 10, 0, 1, 4], "1,3,2,1,3")]) := by decide

set_option maxRecDepth 20000 in
theorem sthc_0_4_7_10_1_6_4 : stackLoopN (heapIter (heapGo 5) 6 1 3 [6, 0, 4, 10, 1, 7]).1 (some 10) [([6, 7, 10, 0, 1, 4], "1,3,2,1,3")] = ((some 9), [([10, 0, 1, 4, 6, 7], "2,1,3,2,1")]) := by decide

set_option maxRecDepth 20000 in
theorem sthc_0_4_7_10_1_6_5 : stackLoopN (heapIter (heapGo 5) 6 1 4 [6, 0, 4, 7, 1, 10]).1 (some 9) [([10, 0, 1, 4, 6, 7], "2,1,3,2,1")] = ((some 9), [([10, 0, 1, 4, 6, 7], "2,1,3,2,1")]) := by decide

set_option maxRecDepth 20000 in
theorem sthc_0_4_7_10_1_6_6 : stackLoopN (heapIter (heapGo 5) 6 1 5 [6, 0, 4, 7, 10, 1]).1 (some 9) [([10, 0, 1, 4, 6, 7], "2,1,3,2,1")] = ((some 9), [([10, 0, 1, 4, 6, 7], "2,1,3,2,1"), ([4, 6, 7, 10, 0, 1], "2,1,3,2,1")]) := by decide

set_option maxRecDepth 20000 in
theorem stk_0_4_7_10_1_6 : getAsStackedChord ([0, 4, 7, 10, 1, 6] : List Int) = ([10, 0, 1, 4, 6, 7] : List Int) := by
  have hc1m : (stackLoopN (heapIter (heapGo 5) 6 1 0 [0, 4, 7, 10, 1, 6]).1 none []).1 = (some 11) := by rw [sthc_0_4_7_10_1_6_1]
  have hc1a : (stackLoopN (heapIter (heapGo 5) 6 1 0 [0, 4, 7, 10, 1, 6]).1 none []).2 = [([7, 10, 0, 1, 4, 6], "3,2,1,3,2")] := by rw [sthc_0_4_7_10_1_6_1]
  have hc2m : (stackLoopN (heapIter (heapGo 5) 6 1 1 [6, 4, 7, 10, 1, 0]).1 (some 11) [([7, 10, 0, 1, 4, 6], "3,2,1,3,2")]).1 = (some 11) := by rw [sthc_0_4_7_10_1_6_2]
  have hc2a : (stackLoopN (heapIter (heapGo 5) 6 1 1 [6, 4, 7, 10, 1, 0]).1 (some 11) [([7, 10, 0, 1, 4, 6], "3,2,1,3,2")]).2 = [([7, 10, 0, 1, 4, 6], "3,2,1,3,2"), ([1, 4, 6, 7, 10, 0], "3,2,1,3,2")] := by rw [sthc_0_4_7_10_1_6_2]
  have hc3m : (stackLoopN (heapIter (heapGo 5) 6 1 2 [6, 0, 7, 10, 1, 4]).1 (some 11) [([7, 10, 0, 1, 4, 6], "3,2,1,3,2"), ([1, 4, 6, 7, 10, 0], "3,2,1,3,2")]).1 = (some 10) := by rw [sthc_0_4_7_10_1_6_3]
  have hc3a : (stackLoopN (heapIter (heapGo 5) 6 1 2 [6, 0, 7, 10, 1, 4]).1 (some 11) [([7, 10, 0, 1, 4, 6], "3,2,1,3,2"), ([1, 4, 6, 7, 10, 0], "3,2,1,3,2")]).2 = [([6, 7, 10, 0, 1, 4], "1,3,2,1,3")] := by rw [sthc_0_4_7_10_1_6_3]
  have hc4m : (stackLoopN (heapIter (heapGo 5) 6 1 3 [6, 0, 4, 10, 1, 7]).1 (some 10) [([6, 7, 10, 0, 1, 4], "1,3,2,1,3")]).1 = (some 9) := by rw [sthc_0_4_7_10_1_6_4]
  have hc4a : (stackLoopN (heapIter (heapGo 5) 6 1 3 [6, 0, 4, 10, 1, 7]).1 (some 10) [([6, 7, 10, 0, 1, 4], "1,3,2,1,3")]).2 = [([10, 0, 1, 4, 6, 7], "2,1,3,2,1")] := by rw [sthc_0_4_7_10_1_6_4]
  have hc5m : (stackLoopN (heapIter (heapGo 5) 6 1 4 [6, 0, 4, 7, 1, 10]).1 (some 9) [([10, 0, 1, 4, 6, 7], "2,1,3,2,1")]).1 = (some 9) := by rw [sthc_0_4_7_10_1_6_5]
  have hc5a : (stackLoopN (heapIter (heapGo 5) 6 1 4 [6, 0, 4, 7, 1, 10]).1 (some 9) [([10, 0, 1, 4, 6, 7], "2,1,3,2,1")]).2 = [([10, 0, 1, 4, 6, 7], "2,1,3,2,1")] := by rw [sthc_0_4_7_10_1_6_5]
  have e1 : (heapIter (heapGo 5) 6 6 0 [0, 4, 7, 10, 1, 6]).1 =
      (heapIter (heapGo 5) 6 1 0 [0, 4, 7, 10, 1, 6]).1 ++ (heapIter (heapGo 5) 6 5 1 [6, 4, 7, 10, 1, 0]).1 := by
    have e := heapIter_add (heapGo 5) 6 1 5 0 [0, 4, 7, 10, 1, 6]
    norm_num at e
    rw [e, sths_0_4_7_10_1_6_1]
  have e2 : (heapIter (heapGo 5) 6 5 1 [6, 4, 7, 10, 1, 0]).1 =
      (heapIter (heapGo 5) 6 1 1 [6, 4, 7, 10, 1, 0]).1 ++ (heapIter (heapGo 5) 6 4 2 [6, 0, 7, 10, 1, 4]).1 := by
    have e := heapIter_add (heapGo 5) 6 1 4 1 [6, 4, 7, 10, 1, 0]
    norm_num at e
    rw [e, sths_0_4_7_10_1_6_2]
  have e3 : (heapIter (heapGo 5) 6 4 2 [6, 0, 7, 10, 1, 4]).1 =
      (heapIter (heapGo 5) 6 1 2 [6, 0, 7, 10, 1, 4]).1 ++ (heapIter (heapGo 5) 6 3 3 [6, 0, 4, 10, 1, 7]).1 := by
    have e := heapIter_add (heapGo 5) 6 1 3 2 [6, 0, 7, 10, 1, 4]
    norm_num at e
    rw [e, sths_0_4_7_10_1_6_3]
  have e4 : (heapIter (heapGo 5) 6 3 3 [6, 0, 4, 10, 1, 7]).1 =
      (heapIter (heapGo 5) 6 1 3 [6, 0, 4, 10, 1, 7]).1 ++ (heapIter (heapGo 5) 6 2 4 [6, 0, 4, 7, 1, 10]).1 := by
    have e := heapIter_add (heapGo 5) 6 1 2 3 [6, 0, 4, 10, 1, 7]
    norm_num at e
    rw [e, sths_0_4_7_10_1_6_4]
  have e5 : (heapIter (heapGo 5) 6 2 4 [6, 0, 4, 7, 1, 10]).1 =
      (heapIter (heapGo 5) 6 1 4 [6, 0, 4, 7, 1, 10]).1 ++ (heapIter (heapGo 5) 6 1 5 [6, 0, 4, 7, 10, 1]).1 := by
    have e := heapIter_add (heapGo 5) 6 1 1 4 [6, 0, 4, 7, 1, 10]
    norm_num at e
    rw [e, sths_0_4_7_10_1_6_5]
  have hN : getAsStackedChordN [0, 4, 7, 10, 1, 6] = [10, 0, 1, 4, 6, 7] := by
    simp only [getAsStackedChordN]
    rw [if_neg (by decide)]
    have hperm : permutationsJS ([0, 4, 7, 10, 1, 6] : List Nat) = (heapIter (heapGo 5) 6 6 0 [0, 4, 7, 10, 1, 6]).1 := rfl
    rw [hperm, e1, e2, e3, e4, e5, stackLoopN_append, hc1m, hc1a, stackLoopN_append, hc2m, hc2a, stackLoopN_append, hc3m, hc3a, stackLoopN_append, hc4m, hc4a, stackLoopN_append, hc5m, hc5a, sthc_0_4_7_10_1_6_6]
    decide
  have h := getAsStackedChord_eq_fast [0, 4, 7, 10, 1, 6] (by decide)
  rw [hN] at h
  have hm : List.map Int.ofNat [0, 4, 7, 10, 1, 6] = ([0, 4, 7, 10, 1, 6] : List Int) := by decide
  have hm2 : List.map Int.ofNat [10, 0, 1, 4, 6, 7] = ([10, 0, 1, 4, 6, 7] : List Int) := by decide
  rw [hm, hm2] at h
  exact h

set_option maxRecDepth 20000 in
theorem hmin_s_0_2_4_6_9_10 : ∀ q ∈ ([0, 2, 4, 6, 9, 10] : List Int).permutations',
    energyOf [9, 10, 0, 2, 4, 6] < energyOf q ∨
    (energyOf [9, 10, 0, 2, 4, 6] = energyOf q ∧
      charListLe (patStrOf [9, 10, 0, 2, 4, 6]).data (patStrOf q).data = true ∧
      ((patStrOf q).data = (patStrOf [9, 10, 0, 2, 4, 6]).data → q = [9, 10, 0, 2, 4, 6])) := by
  decide

theorem stk_0_4_6_10_2_9 : getAsStackedChord ([0, 4, 6, 10, 2, 9] : List Int) = ([9, 10, 0, 2, 4, 6] : List Int) :=
  getAsStackedChord_of_unique [0, 4, 6, 10, 2, 9] [0, 2, 4, 6, 9, 10] [9, 10, 0, 2, 4, 6] (by decide) (by decide) (by decide) (by decide) hmin_s_0_2_4_6_9_10

set_option maxRecDepth 20000 in
theorem hminc_0_2_4_5_6_9_10_p0 : ∀ a ∈ (([2, 4, 5, 6, 9, 10] : List Int).permutations').take 120,
    ∀ q ∈ List.permutations'Aux (0 : Int) a,
    energyOf [9, 10, 0, 2, 4, 5, 6] < energyOf q ∨
    (energyOf [9, 10, 0, 2, 4, 5, 6] = energyOf q ∧
      charListLe (patStrOf [9, 10, 0, 2, 4, 5, 6]).data (patStrOf q).data = true ∧
      ((patStrOf q).data = (patStrOf [9, 10, 0, 2, 4, 5, 6]).data → q = [9, 10, 0, 2, 4, 5, 6])) := by
  decide

set_option maxRecDepth 20000 in
theorem hminc_0_2_4_5_6_9_10_p1 : ∀ a ∈ ((([2, 4, 5, 6, 9, 10] : List Int).permutations').drop 120).take 120,
    ∀ q ∈ List.permutations'Aux (0 : Int) a,
    energyOf [9, 10, 0, 2, 4, 5, 6] < energyOf q ∨
    (energyOf [9, 10, 0, 2, 4, 5, 6] = energyOf q ∧
      charListLe (patStrOf [9, 10, 0, 2, 4, 5, 6]).data (patStrOf q).data = true ∧
      ((patStrOf q).data = (patStrOf [9, 10, 0, 2, 4, 5, 6]).data → q = [9, 10, 0, 2, 4, 5, 6])) := by
  decide

set_option maxRecDepth 20000 in
theorem hminc_0_2_4_5_6_9_10_p2 : ∀ a ∈ (((([2, 4, 5, 6, 9, 10] : List Int).permutations').drop 120).drop 120).take 120,
    ∀ q ∈ List.permutations'Aux (0 : Int) a,
    energyOf [9, 10, 0, 2, 4, 5, 6] < energyOf q ∨
    (energyOf [9, 10, 0, 2, 4, 5, 6] = energyOf q ∧
      charListLe (patStrOf [9, 10, 0, 2, 4, 5, 6]).data (patStrOf q).data = true ∧
      ((patStrOf q).data = (patStrOf [9, 10, 0, 2, 4, 5, 6]).data → q = [9, 10, 0, 2, 4, 5, 6])) := by
  decide

set_option maxRecDepth 20000 in
theorem hminc_0_2_4_5_6_9_10_p3 : ∀ a ∈ ((((([2, 4, 5, 6, 9, 10] : List Int).permutations').drop 120).drop 120).drop 120).take 120,
    ∀ q ∈ List.permutations'Aux (0 : Int) a,
    energyOf [9, 10, 0, 2, 4, 5, 6] < energyOf q ∨
    (energyOf [9, 10, 0, 2, 4, 5, 6] = energyOf q ∧
      charListLe (patStrOf [9, 10, 0, 2, 4, 5, 6]).data (patStrOf q).data = true ∧
      ((patStrOf q).data = (patStrOf [9, 10, 0, 2, 4, 5, 6]).data → q = [9, 10, 0, 2, 4, 5, 6])) := by
  decide

set_option maxRecDepth 20000 in
theorem hminc_0_2_4_5_6_9_10_p4 : ∀ a ∈ (((((([2, 4, 5, 6, 9, 10] : List Int).permutations').drop 120).drop 120).drop 120).drop 120).take 120,
    ∀ q ∈ List.permutations'Aux (0 : Int) a,
    energyOf [9, 10, 0, 2, 4, 5, 6] < energyOf q ∨
    (energyOf [9, 10, 0, 2, 4, 5, 6] = energyOf q ∧
      charListLe (patStrOf [9, 10, 0, 2, 4, 5, 6]).data (patStrOf q).data = true ∧
      ((patStrOf q).data = (patStrOf [9, 10, 0, 2, 4, 5, 6]).data → q = [9, 10, 0, 2, 4, 5, 6])) := by
  decide

set_option maxRecDepth 20000 in
theorem hminc_0_2_4_5_6_9_10_p5 : ∀ a ∈ ((((((([2, 4, 5, 6, 9, 10] : List Int).permutations').drop 120).drop 120).drop 120).drop 120).drop 120),
    ∀ q ∈ List.permutations'Aux (0 : Int) a,
    energyOf [9, 10, 0, 2, 4, 5, 6] < energyOf q ∨
    (energyOf [9, 10, 0, 2, 4, 5, 6] = energyOf q ∧
      charListLe (patStrOf [9, 10, 0, 2, 4, 5, 6]).data (patStrOf q).data = true ∧
      ((patStrOf q).data = (patStrOf [9, 10, 0, 2, 4, 5, 6]).data → q = [9, 10, 0, 2, 4, 5, 6])) := by
  decide

theorem hmin_s_0_2_4_5_6_9_10 : ∀ a ∈ ([2, 4, 5, 6, 9, 10] : List Int).permutations',
    ∀ q ∈ List.permutations'Aux (0 : Int) a,
    energyOf [9, 10, 0, 2, 4, 5, 6] < energyOf q ∨
    (energyOf [9, 10, 0, 2, 4, 5, 6] = energyOf q ∧
      charListLe (patStrOf [9, 10, 0, 2, 4, 5, 6]).data (patStrOf q).data = true ∧
      ((patStrOf q).data = (patStrOf [9, 10, 0, 2, 4, 5, 6]).data → q = [9, 10, 0, 2, 4, 5, 6])) :=
  forall_mem_take_drop 120 _ _ hminc_0_2_4_5_6_9_10_p0
    (forall_mem_take_drop 120 _ _ hminc_0_2_4_5_6_9_10_p1
    (forall_mem_take_drop 120 _ _ hminc_0_2_4_5_6_9_10_p2
    (forall_mem_take_drop 120 _ _ hminc_0_2_4_5_6_9_10_p3
    (forall_mem_take_drop 120 _ _ hminc_0_2_4_5_6_9_10_p4
    (hminc_0_2_4_5_6_9_10_p5)))))

theorem stk_0_4_6_10_2_5_9 : getAsStackedChord ([0, 4, 6, 10, 2, 5, 9] : List Int) = ([9, 10, 0, 2, 4, 5, 6] : List Int) :=
  getAsStackedChord_of_unique [0, 4, 6, 10, 2, 5, 9] [0, 2, 4, 5, 6, 9, 10] [9, 10, 0, 2, 4, 5, 6] (by decide) (by decide) (by decide) (by decide) (forall_perm_cons _ _ _ hmin_s_0_2_4_5_6_9_10)

set_option maxRecDepth 20000 in
theorem hmin_s_0_1_4_7_9_10 : ∀ q ∈ ([0, 1, 4, 7, 9, 10] : List Int).permutations',
    energyOf [7, 9, 10, 0, 1, 4] < energyOf q ∨
    (energyOf [7, 9, 10, 0, 1, 4] = energyOf q ∧
      charListLe (patStrOf [7, 9, 10, 0, 1, 4]).data (patStrOf q).data = true ∧
      ((patStrOf q).data = (patStrOf [7, 9, 10, 0, 1, 4]).data → q = [7, 9, 10, 0, 1, 4])) := by
  decide

theorem stk_0_4_7_10_1_9 : getAsStackedChord ([0, 4, 7, 10, 1, 9] : List Int) = ([7, 9, 10, 0, 1, 4] : List Int) :=
  getAsStackedChord_of_unique [0, 4, 7, 10, 1, 9] [0, 1, 4, 7, 9, 10] [7, 9, 10, 0, 1, 4] (by decide) (by decide) (by decide) (by decide) hmin_s_0_1_4_7_9_10

set_option maxRecDepth 20000 in
theorem hminc_0_1_4_5_7_9_10_p0 : ∀ a ∈ (([1, 4, 5, 7, 9, 10] : List Int).permutations').take 120,
    ∀ q ∈ List.permutations'Aux (0 : Int) a,
    energyOf [4, 5, 7, 9, 10, 0, 1] < energyOf q ∨
    (energyOf [4, 5, 7, 9, 10, 0, 1] = energyOf q ∧
      charListLe (patStrOf [4, 5, 7, 9, 10, 0, 1]).data (patStrOf q).data = true ∧
      ((patStrOf q).data = (patStrOf [4, 5, 7, 9, 10, 0, 1]).data → q = [4, 5, 7, 9, 10, 0, 1])) := by
  decide

set_option maxRecDepth 20000 in
theorem hminc_0_1_4_5_7_9_10_p1 : ∀ a ∈ ((([1, 4, 5, 7, 9, 10] : List Int).permutations').drop 120).take 120,
    ∀ q ∈ List.permutations'Aux (0 : Int) a,
    energyOf [4, 5, 7, 9, 10, 0, 1] < energyOf q ∨
    (energyOf [4, 5, 7, 9, 10, 0, 1] = energyOf q ∧
      charListLe (patStrOf [4, 5, 7, 9, 10, 0, 1]).data (patStrOf q).data = true ∧
      ((patStrOf q).data = (patStrOf [4, 5, 7, 9, 10, 0, 1]).data → q = [4, 5, 7, 9, 10, 0, 1])) := by
  decide

set_option maxRecDepth 20000 in
theorem hminc_0_1_4_5_7_9_10_p2 : ∀ a ∈ (((([1, 4, 5, 7, 9, 10] : List Int).permutations').drop 120).drop 120).take 120,
    ∀ q ∈ List.permutations'Aux (0 : Int) a,
    energyOf [4, 5, 7, 9, 10, 0, 1] < energyOf q ∨
    (energyOf [4, 5, 7, 9, 10, 0, 1] = energyOf q ∧
      charListLe (patStrOf [4, 5, 7, 9, 10, 0, 1]).data (patStrOf q).data = true ∧
      ((patStrOf q).data = (patStrOf [4, 5, 7, 9, 10, 0, 1]).data → q = [4, 5, 7, 9, 10, 0, 1])) := by
  decide

set_option maxRecDepth 20000 in
theorem hminc_0_1_4_5_7_9_10_p3 : ∀ a ∈ ((((([1, 4, 5, 7, 9, 10] : List Int).permutations').drop 120).drop 120).drop 120).take 120,
    ∀ q ∈ List.permutations'Aux (0 : Int) a,
    energyOf [4, 5, 7, 9, 10, 0, 1] < energyOf q ∨
    (energyOf [4, 5, 7, 9, 10, 0, 1] = energyOf q ∧
      charListLe (patStrOf [4, 5, 7, 9, 10, 0, 1]).data (patStrOf q).data = true ∧
      ((patStrOf q).data = (patStrOf [4, 5, 7, 9, 10, 0, 1]).data → q = [4, 5, 7, 9, 10, 0, 1])) := by
  decide

set_option maxRecDepth 20000 in
theorem hminc_0_1_4_5_7_9_10_p4 : ∀ a ∈ (((((([1, 4, 5, 7, 9, 10] : List Int).permutations').drop 120).drop 120).drop 120).drop 120).take 120,
    ∀ q ∈ List.permutations'Aux (0 : Int) a,
    energyOf [4, 5, 7, 9, 10, 0, 1] < energyOf q ∨
    (energyOf [4, 5, 7, 9, 10, 0, 1] = energyOf q ∧
      charListLe (patStrOf [4, 5, 7, 9, 10, 0, 1]).data (patStrOf q).data = true ∧
      ((patStrOf q).data = (patStrOf [4, 5, 7, 9, 10, 0, 1]).data → q = [4, 5, 7, 9, 10, 0, 1])) := by
  decide

set_option maxRecDepth 20000 in
theorem hminc_0_1_4_5_7_9_10_p5 : ∀ a ∈ ((((((([1, 4, 5, 7, 9, 10] : List Int).permutations').drop 120).drop 120).drop 120).drop 120).drop 120),
    ∀ q ∈ List.permutations'Aux (0 : Int) a,
    energyOf [4, 5, 7, 9, 10, 0, 1] < energyOf q ∨
    (energyOf [4, 5, 7, 9, 10, 0, 1] = energyOf q ∧
      charListLe (patStrOf [4, 5, 7, 9, 10, 0, 1]).data (patStrOf q).data = true ∧
      ((patStrOf q).data = (patStrOf [4, 5, 7, 9, 10, 0, 1]).data → q = [4, 5, 7, 9, 10, 0, 1])) := by
  decide

theorem hmin_s_0_1_4_5_7_9_10 : ∀ a ∈ ([1, 4, 5, 7, 9, 10] : List Int).permutations',
    ∀ q ∈ List.permutations'Aux (0 : Int) a,
    energyOf [4, 5, 7, 9, 10, 0, 1] < energyOf q ∨
    (energyOf [4, 5, 7, 9, 10, 0, 1] = energyOf q ∧
      charListLe (patStrOf [4, 5, 7, 9, 10, 0, 1]).data (patStrOf q).data = true ∧
      ((patStrOf q).data = (patStrOf [4, 5, 7, 9, 10, 0, 1]).data → q = [4, 5, 7, 9, 10, 0, 1])) :=
  forall_mem_take_drop 120 _ _ hminc_0_1_4_5_7_9_10_p0
    (forall_mem_take_drop 120 _ _ hminc_0_1_4_5_7_9_10_p1
    (forall_mem_take_drop 120 _ _ hminc_0_1_4_5_7_9_10_p2
    (forall_mem_take_drop 120 _ _ hminc_0_1_4_5_7_9_10_p3
    (forall_mem_take_drop 120 _ _ hminc_0_1_4_5_7_9_10_p4
    (hminc_0_1_4_5_7_9_10_p5)))))

theorem stk_0_4_7_10_1_5_9 : getAsStackedChord ([0, 4, 7, 10, 1, 5, 9] : List Int) = ([4, 5, 7, 9, 10, 0, 1] : List Int) :=
  getAsStackedChord_of_unique [0, 4, 7, 10, 1, 5, 9] [0, 1, 4, 5, 7, 9, 10] [4, 5, 7, 9, 10, 0, 1] (by decide) (by decide) (by decide) (by decide) (forall_perm_cons _ _ _ hmin_s_0_1_4_5_7_9_10)

set_option maxRecDepth 20000 in
theorem hminc_0_2_4_6_7_9_10_p0 : ∀ a ∈ (([2, 4, 6, 7, 9, 10] : List Int).permutations').take 120,
    ∀ q ∈ List.permutations'Aux (0 : Int) a,
    energyOf [6, 7, 9, 10, 0, 2, 4] < energyOf q ∨
    (energyOf [6, 7, 9, 10, 0, 2, 4] = energyOf q ∧
      charListLe (patStrOf [6, 7, 9, 10, 0, 2, 4]).data (patStrOf q).data = true ∧
      ((patStrOf q).data = (patStrOf [6, 7, 9, 10, 0, 2, 4]).data → q = [6, 7, 9, 10, 0, 2, 4])) := by
  decide

set_option maxRecDepth 20000 in
theorem hminc_0_2_4_6_7_9_10_p1 : ∀ a ∈ ((([2, 4, 6, 7, 9, 10] : List Int).permutations').drop 120).take 120,
    ∀ q ∈ List.permutations'Aux (0 : Int) a,
    energyOf [6, 7, 9, 10, 0, 2, 4] < energyOf q ∨
    (energyOf [6, 7, 9, 10, 0, 2, 4] = energyOf q ∧
      charListLe (patStrOf [6, 7, 9, 10, 0, 2, 4]).data (patStrOf q).data = true ∧
      ((patStrOf q).data = (patStrOf [6, 7, 9, 10, 0, 2, 4]).data → q = [6, 7, 9, 10, 0, 2, 4])) := by
  decide

set_option maxRecDepth 20000 in
theorem hminc_0_2_4_6_7_9_10_p2 : ∀ a ∈ (((([2, 4, 6, 7, 9, 10] : List Int).permutations').drop 120).drop 120).take 120,
    ∀ q ∈ List.permutations'Aux (0 : Int) a,
    energyOf [6, 7, 9, 10, 0, 2, 4] < energyOf q ∨
    (energyOf [6, 7, 9, 10, 0, 2, 4] = energyOf q ∧
      charListLe (patStrOf [6, 7, 9, 10, 0, 2, 4]).data (patStrOf q).data = true ∧
      ((patStrOf q).data = (patStrOf [6, 7, 9, 10, 0, 2, 4]).data → q = [6, 7, 9, 10, 0, 2, 4])) := by
  decide

set_option maxRecDepth 20000 in
theorem hminc_0_2_4_6_7_9_10_p3 : ∀ a ∈ ((((([2, 4, 6, 7, 9, 10] : List Int).permutations').drop 120).drop 120).drop 120).take 120,
    ∀ q ∈ List.permutations'Aux (0 : Int) a,
    energyOf [6, 7, 9, 10, 0, 2, 4] < energyOf q ∨
    (energyOf [6, 7, 9, 10, 0, 2, 4] = energyOf q ∧
      charListLe (patStrOf [6, 7, 9, 10, 0, 2, 4]).data (patStrOf q).data = true ∧
      ((patStrOf q).data = (patStrOf [6, 7, 9, 10, 0, 2, 4]).data → q = [6, 7, 9, 10, 0, 2, 4])) := by
  decide

set_option maxRecDepth 20000 in
theorem hminc_0_2_4_6_7_9_10_p4 : ∀ a ∈ (((((([2, 4, 6, 7, 9, 10] : List Int).permutations').drop 120).drop 120).drop 120).drop 120).take 120,
    ∀ q ∈ List.permutations'Aux (0 : Int) a,
    energyOf [6, 7, 9, 10, 0, 2, 4] < energyOf q ∨
    (energyOf [6, 7, 9, 10, 0, 2, 4] = energyOf q ∧
      charListLe (patStrOf [6, 7, 9, 10, 0, 2, 4]).data (patStrOf q).data = true ∧
      ((patStrOf q).data = (patStrOf [6, 7, 9, 10, 0, 2, 4]).data → q = [6, 7, 9, 10, 0, 2, 4])) := by
  decide

set_option maxRecDepth 20000 in
theorem hminc_0_2_4_6_7_9_10_p5 : ∀ a ∈ ((((((([2, 4, 6, 7, 9, 10] : List Int).permutations').drop 120).drop 120).drop 120).drop 120).drop 120),
    ∀ q ∈ List.permutations'Aux (0 : Int) a,
    energyOf [6, 7, 9, 10, 0, 2, 4] < energyOf q ∨
    (energyOf [6, 7, 9, 10, 0, 2, 4] = energyOf q ∧
      charListLe (patStrOf [6, 7, 9, 10, 0, 2, 4]).data (patStrOf q).data = true ∧
      ((patStrOf q).data = (patStrOf [6, 7, 9, 10, 0, 2, 4]).data → q = [6, 7, 9, 10, 0, 2, 4])) := by
  decide

theorem hmin_s_0_2_4_6_7_9_10 : ∀ a ∈ ([2, 4, 6, 7, 9, 10] : List Int).permutations',
    ∀ q ∈ List.permutations'Aux (0 : Int) a,
    energyOf [6, 7, 9, 10, 0, 2, 4] < energyOf q ∨
    (energyOf [6, 7, 9, 10, 0, 2, 4] = energyOf q ∧
      charListLe (patStrOf [6, 7, 9, 10, 0, 2, 4]).data (patStrOf q).data = true ∧
      ((patStrOf q).data = (patStrOf [6, 7, 9, 10, 0, 2, 4]).data → q = [6, 7, 9, 10, 0, 2, 4])) :=
  forall_mem_take_drop 120 _ _ hminc_0_2_4_6_7_9_10_p0
    (forall_mem_take_drop 120 _ _ hminc_0_2_4_6_7_9_10_p1
    (forall_mem_take_drop 120 _ _ hminc_0_2_4_6_7_9_10_p2
    (forall_mem_take_drop 120 _ _ hminc_0_2_4_6_7_9_10_p3
    (forall_mem_take_drop 120 _ _ hminc_0_2_4_6_7_9_10_p4
    (hminc_0_2_4_6_7_9_10_p5)))))

theorem stk_0_4_7_10_2_6_9 : getAsStackedChord ([0, 4, 7, 10, 2, 6, 9] : List Int) = ([6, 7, 9, 10, 0, 2, 4] : List Int) :=
  getAsStackedChord_of_unique [0, 4, 7, 10, 2, 6, 9] [0, 2, 4, 6, 7, 9, 10] [6, 7, 9, 10, 0, 2, 4] (by decide) (by decide) (by decide) (by decide) (forall_perm_cons _ _ _ hmin_s_0_2_4_6_7_9_10)

set_option maxRecDepth 20000 in
theorem hmin_s_0_7_10 : ∀ q ∈ ([0, 7, 10] : List Int).permutations',
    energyOf [7, 10, 0] < energyOf q ∨
    (energyOf [7, 10, 0] = energyOf q ∧
      charListLe (patStrOf [7, 10, 0]).data (patStrOf q).data = true ∧
      ((patStrOf q).data = (patStrOf [7, 10, 0]).data → q = [7, 10, 0])) := by
  decide

theorem stk_0_7_10 : getAsStackedChord ([0, 7, 10] : List Int) = ([7, 10, 0] : List Int) :=
  getAsStackedChord_of_unique [0, 7, 10] [0, 7, 10] [7, 10, 0] (by decide) (by decide) (by decide) (by decide) hmin_s_0_7_10

set_option maxRecDepth 20000 in
theorem hmin_s_0_4_11 : ∀ q ∈ ([0, 4, 11] : List Int).permutations',
    energyOf [11, 0, 4] < energyOf q ∨
    (energyOf [11, 0, 4] = energyOf q ∧
      charListLe (patStrOf [11, 0, 4]).data (patStrOf q).data = true ∧
      ((patStrOf q).data = (patStrOf [11, 0, 4]).data → q = [11, 0, 4])) := by
  decide

theorem stk_0_4_11 : getAsStackedChord ([0, 4, 11] : List Int) = ([11, 0, 4] : List Int) :=
  getAsStackedChord_of_unique [0, 4, 11] [0, 4, 11] [11, 0, 4] (by decide) (by decide) (by decide) (by decide) hmin_s_0_4_11

theorem stk_0_2_4_7 : getAsStackedChord ([0, 2, 4, 7] : List Int) = ([0, 2, 4, 7] : List Int) :=
  getAsStackedChord_of_unique [0, 2, 4, 7] [0, 2, 4, 7] [0, 2, 4, 7] (by decide) (by decide) (by decide) (by decide) hmin_s_0_2_4_7

theorem stk_0_2_3_7 : getAsStackedChord ([0, 2, 3, 7] : List Int) = ([0, 2, 3, 7] : List Int) :=
  getAsStackedChord_of_unique [0, 2, 3, 7] [0, 2, 3, 7] [0, 2, 3, 7] (by decide) (by decide) (by decide) (by decide) hmin_s_0_2_3_7

theorem stk_0_2_4_7_9 : getAsStackedChord ([0, 2, 4, 7, 9] : List Int) = ([0, 2, 4, 7, 9] : List Int) :=
  getAsStackedChord_of_unique [0, 2, 4, 7, 9] [0, 2, 4, 7, 9] [0, 2, 4, 7, 9] (by decide) (by decide) (by decide) (by decide) hmin_s_0_2_4_7_9

theorem stk_0_2_4_7_11 : getAsStackedChord ([0, 2, 4, 7, 11] : List Int) = ([11, 0, 2, 4, 7] : List Int) :=
  getAsStackedChord_of_unique [0, 2, 4, 7, 11] [0, 2, 4, 7, 11] [11, 0, 2, 4, 7] (by decide) (by decide) (by decide) (by decide) hmin_s_0_2_4_7_11

theorem stk_0_2_4_7_10 : getAsStackedChord ([0, 2, 4, 7, 10] : List Int) = ([10, 0, 2, 4, 7] : List Int) :=
  getAsStackedChord_of_unique [0, 2, 4, 7, 10] [0, 2, 4, 7, 10] [10, 0, 2, 4, 7] (by decide) (by decide) (by decide) (by decide) hmin_s_0_2_4_7_10

theorem stk_0_2_4_7_9_10 : getAsStackedChord ([0, 2, 4, 7, 9, 10] : List Int) = ([7, 9, 10, 0, 2, 4] : List Int) :=
  getAsStackedChord_of_unique [0, 2, 4, 7, 9, 10] [0, 2, 4, 7, 9, 10] [7, 9, 10, 0, 2, 4] (by decide) (by decide) (by decide) (by decide) hmin_s_0_2_4_7_9_10

theorem stk_0_2_4_5_7_9_10 : getAsStackedChord ([0, 2, 4, 5, 7, 9, 10] : List Int) = ([4, 5, 7, 9, 10, 0, 2] : List Int) :=
  getAsStackedChord_of_unique [0, 2, 4, 5, 7, 9, 10] [0, 2, 4, 5, 7, 9, 10] [4, 5, 7, 9, 10, 0, 2] (by decide) (by decide) (by decide) (by decide) (forall_perm_cons _ _ _ hmin_s_0_2_4_5_7_9_10)

theorem stk_0_2_4_9_10 : getAsStackedChord ([0, 2, 4, 9, 10] : List Int) = ([9, 10, 0, 2, 4] : List Int) :=
  getAsStackedChord_of_unique [0, 2, 4, 9, 10] [0, 2, 4, 9, 10] [9, 10, 0, 2, 4] (by decide) (by decide) (by decide) (by decide) hmin_s_0_2_4_9_10

theorem stk_0_2_3_7_9 : getAsStackedChord ([0, 2, 3, 7, 9] : List Int) = ([7, 9, 0, 2, 3] : List Int) :=
  getAsStackedChord_of_unique [0, 2, 3, 7, 9] [0, 2, 3, 7, 9] [7, 9, 0, 2, 3] (by decide) (by decide) (by decide) (by decide) hmin_s_0_2_3_7_9

theorem stk_0_2_3_9 : getAsStackedChord ([0, 2, 3, 9] : List Int) = ([9, 0, 2, 3] : List Int) :=
  getAsStackedChord_of_unique [0, 2, 3, 9] [0, 2, 3, 9] [9, 0, 2, 3] (by decide) (by decide) (by decide) (by decide) hmin_s_0_2_3_9

theorem stk_0_2_3_7_10 : getAsStackedChord ([0, 2, 3, 7, 10] : List Int) = ([7, 10, 0, 2, 3] : List Int) :=
  getAsStackedChord_of_unique [0, 2, 3, 7, 10] [0, 2, 3, 7, 10] [7, 10, 0, 2, 3] (by decide) (by decide) (by decide) (by decide) hmin_s_0_2_3_7_10

theorem stk_0_2_3_5_7_10 : getAsStackedChord ([0, 2, 3, 5, 7, 10] : List Int) = ([10, 0, 2, 3, 5, 7] : List Int) :=
  getAsStackedChord_of_unique [0, 2, 3, 5, 7, 10] [0, 2, 3, 5, 7, 10] [10, 0, 2, 3, 5, 7] (by decide) (by decide) (by decide) (by decide) hmin_s_0_2_3_5_7_10

theorem stk_0_2_3_5_10 : getAsStackedChord ([0, 2, 3, 5, 10] : List Int) = ([10, 0, 2, 3, 5] : List Int) :=
  getAsStackedChord_of_unique [0, 2, 3, 5, 10] [0, 2, 3, 5, 10] [10, 0, 2, 3, 5] (by decide) (by decide) (by decide) (by decide) hmin_s_0_2_3_5_10

theorem stk_0_2_3_5_7_9_10 : getAsStackedChord ([0, 2, 3, 5, 7, 9, 10] : List Int) = ([9, 10, 0, 2, 3, 5, 7] : List Int) :=
  getAsStackedChord_of_unique [0, 2, 3, 5, 7, 9, 10] [0, 2, 3, 5, 7, 9, 10] [9, 10, 0, 2, 3, 5, 7] (by decide) (by decide) (by decide) (by decide) (forall_perm_cons _ _ _ hmin_s_0_2_3_5_7_9_10)

theorem stk_0_2_3_7_11 : getAsStackedChord ([0, 2, 3, 7, 11] : List Int) = ([11, 0, 2, 3, 7] : List Int) :=
  getAsStackedChord_of_unique [0, 2, 3, 7, 11] [0, 2, 3, 7, 11] [11, 0, 2, 3, 7] (by decide) (by decide) (by decide) (by decide) hmin_s_0_2_3_7_11

theorem stk_0_2_3_6_10 : getAsStackedChord ([0, 2, 3, 6, 10] : List Int) = ([10, 0, 2, 3, 6] : List Int) :=
  getAsStackedChord_of_unique [0, 2, 3, 6, 10] [0, 2, 3, 6, 10] [10, 0, 2, 3, 6] (by decide) (by decide) (by decide) (by decide) hmin_s_0_2_3_6_10

theorem stk_0_2_3_5_6_10 : getAsStackedChord ([0, 2, 3, 5, 6, 10] : List Int) = ([10, 0, 2, 3, 5, 6] : List Int) :=
  getAsStackedChord_of_unique [0, 2, 3, 5, 6, 10] [0, 2, 3, 5, 6, 10] [10, 0, 2, 3, 5, 6] (by decide) (by decide) (by decide) (by decide) hmin_s_0_2_3_5_6_10

theorem stk_0_4_6_7_11 : getAsStackedChord ([0, 4, 6, 7, 11] : List Int) = ([11, 0, 4, 6, 7] : List Int) :=
  getAsStackedChord_of_unique [0, 4, 6, 7, 11] [0, 4, 6, 7, 11] [11, 0, 4, 6, 7] (by decide) (by decide) (by decide) (by decide) hmin_s_0_4_6_7_11

theorem stk_0_2_4_6_7_11 : getAsStackedChord ([0, 2, 4, 6, 7, 11] : List Int) = ([11, 0, 2, 4, 6, 7] : List Int) :=
  getAsStackedChord_of_unique [0, 2, 4, 6, 7, 11] [0, 2, 4, 6, 7, 11] [11, 0, 2, 4, 6, 7] (by decide) (by decide) (by decide) (by decide) hmin_s_0_2_4_6_7_11

theorem stk_0_1_4_7_10 : getAsStackedChord ([0, 1, 4, 7, 10] : List Int) = ([10, 0, 1, 4, 7] : List Int) :=
  getAsStackedChord_of_unique [0, 1, 4, 7, 10] [0, 1, 4, 7, 10] [10, 0, 1, 4, 7] (by decide) (by decide) (by decide) (by decide) hmin_s_0_1_4_7_10

theorem stk_0_3_4_7_10 : getAsStackedChord ([0, 3, 4, 7, 10] : List Int) = ([3, 4, 7, 10, 0] : List Int) :=
  getAsStackedChord_of_unique [0, 3, 4, 7, 10] [0, 3, 4, 7, 10] [3, 4, 7, 10, 0] (by decide) (by decide) (by decide) (by decide) hmin_s_0_3_4_7_10

theorem stk_0_3_4_8_10 : getAsStackedChord ([0, 3, 4, 8, 10] : List Int) = ([8, 10, 0, 3, 4] : List Int) :=
  getAsStackedChord_of_unique [0, 3, 4, 8, 10] [0, 3, 4, 8, 10] [8, 10, 0, 3, 4] (by decide) (by decide) (by decide) (by decide) hmin_s_0_3_4_8_10

theorem stk_0_4_6_7_10 : getAsStackedChord ([0, 4, 6, 7, 10] : List Int) = ([4, 6, 7, 10, 0] : List Int) :=
  getAsStackedChord_of_unique [0, 4, 6, 7, 10] [0, 4, 6, 7, 10] [4, 6, 7, 10, 0] (by decide) (by decide) (by decide) (by decide) hmin_s_0_4_6_7_10

theorem stk_0_2_4_6_7_10 : getAsStackedChord ([0, 2, 4, 6, 7, 10] : List Int) = ([10, 0, 2, 4, 6, 7] : List Int) :=
  getAsStackedChord_of_unique [0, 2, 4, 6, 7, 10] [0, 2, 4, 6, 7, 10] [10, 0, 2, 4, 6, 7] (by decide) (by decide) (by decide) (by decide) hmin_s_0_2_4_6_7_10

theorem sths_0_1_4_6_7_10_1 : (heapIter (heapGo 5) 6 1 0 [0, 1, 4, 6, 7, 10]).2 = [10, 1, 4, 6, 7, 0] := by
  rw [heapIter_one_state, (heap_main 5 [0, 1, 4, 6, 7, 10] (by decide)).1]
  decide

theorem sths_0_1_4_6_7_10_2 : (heapIter (heapGo 5) 6 1 1 [10, 1, 4, 6, 7, 0]).2 = [10, 0, 4, 6, 7, 1] := by
  rw [heapIter_one_state, (heap_main 5 [10, 1, 4, 6, 7, 0] (by decide)).1]
  decide

theorem sths_0_1_4_6_7_10_3 : (heapIter (heapGo 5) 6 1 2 [10, 0, 4, 6, 7, 1]).2 = [10, 0, 1, 6, 7, 4] := by
  rw [heapIter_one_state, (heap_main 5 [10, 0, 4, 6, 7, 1] (by decide)).1]
  decide

theorem sths_0_1_4_6_7_10_4 : (heapIter (heapGo 5) 6 1 3 [10, 0, 1, 6, 7, 4]).2 = [10, 0, 1, 4, 7, 6] := by
  rw [heapIter_one_state, (heap_main 5 [10, 0, 1, 6, 7, 4] (by decide)).1]
  decide

theorem sths_0_1_4_6_7_10_5 : (heapIter (heapGo 5) 6 1 4 [10, 0, 1, 4, 7, 6]).2 = [10, 0, 1, 4, 6, 7] := by
  rw [heapIter_one_state, (heap_main 5 [10, 0, 1, 4, 7, 6] (by decide)).1]
  decide

set_option maxRecDepth 20000 in
theorem sthc_0_1_4_6_7_10_1 : stackLoopN (heapIter (heapGo 5) 6 1 0 [0, 1, 4, 6, 7, 10]).1 none [] = ((some 10), [([0, 1, 4, 6, 7, 10], "1,3,2,1,3")]) := by decide

set_option maxRecDepth 20000 in
theorem sthc_0_1_4_6_7_10_2 : stackLoopN (heapIter (heapGo 5) 6 1 1 [10, 1, 4, 6, 7, 0]).1 (some 10) [([0, 1, 4, 6, 7, 10], "1,3,2,1,3")] = ((some 10), [([0, 1, 4, 6, 7, 10], "1,3,2,1,3")]) := by decide

set_option maxRecDepth 20000 in
theorem sthc_0_1_4_6_7_10_3 : stackLoopN (heapIter (heapGo 5) 6 1 2 [10, 0, 4, 6, 7, 1]).1 (some 10) [([0, 1, 4, 6, 7, 10], "1,3,2,1,3")] = ((some 9), [([4, 6, 7, 10, 0, 1], "2,1,3,2,1")]) := by decide

set_option maxRecDepth 20000 in
theorem sthc_0_1_4_6_7_10_4 : stackLoopN (heapIter (heapGo 5) 6 1 3 [10, 0, 1, 6, 7, 4]).1 (some 9) [([4, 6, 7, 10, 0, 1], "2,1,3,2,1")] = ((some 9), [([4, 6, 7, 10, 0, 1], "2,1,3,2,1")]) := by decide

set_option maxRecDepth 20000 in
theorem sthc_0_1_4_6_7_10_5 : stackLoopN (heapIter (heapGo 5) 6 1 4 [10, 0, 1, 4, 7, 6]).1 (some 9) [([4, 6, 7, 10, 0, 1], "2,1,3,2,1")] = ((some 9), [([4, 6, 7, 10, 0, 1], "2,1,3,2,1")]) := by decide

set_option maxRecDepth 20000 in
theorem sthc_0_1_4_6_7_10_6 : stackLoopN (heapIter (heapGo 5) 6 1 5 [10, 0, 1, 4, 6, 7]).1 (some 9) [([4, 6, 7, 10, 0, 1], "2,1,3,2,1")] = ((some 9), [([4, 6, 7, 10, 0, 1], "2,1,3,2,1"), ([10, 0, 1, 4, 6, 7], "2,1,3,2,1")]) := by decide

set_option maxRecDepth 20000 in
theorem stk_0_1_4_6_7_10 : getAsStackedChord ([0, 1, 4, 6, 7, 10] : List Int) = ([4, 6, 7, 10, 0, 1] : List Int) := by
  have hc1m : (stackLoopN (heapIter (heapGo 5) 6 1 0 [0, 1, 4, 6, 7, 10]).1 none []).1 = (some 10) := by rw [sthc_0_1_4_6_7_10_1]
  have hc1a : (stackLoopN (heapIter (heapGo 5) 6 1 0 [0, 1, 4, 6, 7, 10]).1 none []).2 = [([0, 1, 4, 6, 7, 10], "1,3,2,1,3")] := by rw [sthc_0_1_4_6_7_10_1]
  have hc2m : (stackLoopN (heapIter (heapGo 5) 6 1 1 [10, 1, 4, 6, 7, 0]).1 (some 10) [([0, 1, 4, 6, 7, 10], "1,3,2,1,3")]).1 = (some 10) := by rw [sthc_0_1_4_6_7_10_2]
  have hc2a : (stackLoopN (heapIter (heapGo 5) 6 1 1 [10, 1, 4, 6, 7, 0]).1 (some 10) [([0, 1, 4, 6, 7, 10], "1,3,2,1,3")]).2 = [([0, 1, 4, 6, 7, 10], "1,3,2,1,3")] := by rw [sthc_0_1_4_6_7_10_2]
  have hc3m : (stackLoopN (heapIter (heapGo 5) 6 1 2 [10, 0, 4, 6, 7, 1]).1 (some 10) [([0, 1, 4, 6, 7, 10], "1,3,2,1,3")]).1 = (some 9) := by rw [sthc_0_1_4_6_7_10_3]
  have hc3a : (stackLoopN (heapIter (heapGo 5) 6 1 2 [10, 0, 4, 6, 7, 1]).1 (some 10) [([0, 1, 4, 6, 7, 10], "1,3,2,1,3")]).2 = [([4, 6, 7, 10, 0, 1], "2,1,3,2,1")] := by rw [sthc_0_1_4_6_7_10_3]
  have hc4m : (stackLoopN (heapIter (heapGo 5) 6 1 3 [10, 0, 1, 6, 7, 4]).1 (some 9) [([4, 6, 7, 10, 0, 1], "2,1,3,2,1")]).1 = (some 9) := by rw [sthc_0_1_4_6_7_10_4]
  have hc4a : (stackLoopN (heapIter (heapGo 5) 6 1 3 [10, 0, 1, 6, 7, 4]).1 (some 9) [([4, 6, 7, 10, 0, 1], "2,1,3,2,1")]).2 = [([4, 6, 7, 10, 0, 1], "2,1,3,2,1")] := by rw [sthc_0_1_4_6_7_10_4]
  have hc5m : (stackLoopN (heapIter (heapGo 5) 6 1 4 [10, 0, 1, 4, 7, 6]).1 (some 9) [([4, 6, 7, 10, 0, 1], "2,1,3,2,1")]).1 = (some 9) := by rw [sthc_0_1_4_6_7_10_5]
  have hc5a : (stackLoopN (heapIter (heapGo 5) 6 1 4 [10, 0, 1, 4, 7, 6]).1 (some 9) [([4, 6, 7, 10, 0, 1], "2,1,3,2,1")]).2 = [([4, 6, 7, 10, 0, 1], "2,1,3,2,1")] := by rw [sthc_0_1_4_6_7_10_5]
  have e1 : (heapIter (heapGo 5) 6 6 0 [0, 1, 4, 6, 7, 10]).1 =
      (heapIter (heapGo 5) 6 1 0 [0, 1, 4, 6, 7, 10]).1 ++ (heapIter (heapGo 5) 6 5 1 [10, 1, 4, 6, 7, 0]).1 := by
    have e := heapIter_add (heapGo 5) 6 1 5 0 [0, 1, 4, 6, 7, 10]
    norm_num at e
    rw [e, sths_0_1_4_6_7_10_1]
  have e2 : (heapIter (heapGo 5) 6 5 1 [10, 1, 4, 6, 7, 0]).1 =
      (heapIter (heapGo 5) 6 1 1 [10, 1, 4, 6, 7, 0]).1 ++ (heapIter (heapGo 5) 6 4 2 [10, 0, 4, 6, 7, 1]).1 := by
    have e := heapIter_add (heapGo 5) 6 1 4 1 [10, 1, 4, 6, 7, 0]
    norm_num at e
    rw [e, sths_0_1_4_6_7_10_2]
  have e3 : (heapIter (heapGo 5) 6 4 2 [10, 0, 4, 6, 7, 1]).1 =
      (heapIter (heapGo 5) 6 1 2 [10, 0, 4, 6, 7, 1]).1 ++ (heapIter (heapGo 5) 6 3 3 [10, 0, 1, 6, 7, 4]).1 := by
    have e := heapIter_add (heapGo 5) 6 1 3 2 [10, 0, 4, 6, 7, 1]
    norm_num at e
    rw [e, sths_0_1_4_6_7_10_3]
  have e4 : (heapIter (heapGo 5) 6 3 3 [10, 0, 1, 6, 7, 4]).1 =
      (heapIter (heapGo 5) 6 1 3 [10, 0, 1, 6, 7, 4]).1 ++ (heapIter (heapGo 5) 6 2 4 [10, 0, 1, 4, 7, 6]).1 := by
    have e := heapIter_add (heapGo 5) 6 1 2 3 [10, 0, 1, 6, 7, 4]
    norm_num at e
    rw [e, sths_0_1_4_6_7_10_4]
  have e5 : (heapIter (heapGo 5) 6 2 4 [10, 0, 1, 4, 7, 6]).1 =
      (heapIter (heapGo 5) 6 1 4 [10, 0, 1, 4, 7, 6]).1 ++ (heapIter (heapGo 5) 6 1 5 [10, 0, 1, 4, 6, 7]).1 := by
    have e := heapIter_add (heapGo 5) 6 1 1 4 [10, 0, 1, 4, 7, 6]
    norm_num at e
    rw [e, sths_0_1_4_6_7_10_5]
  have hN : getAsStackedChordN [0, 1, 4, 6, 7, 10] = [4, 6, 7, 10, 0, 1] := by
    simp only [getAsStackedChordN]
    rw [if_neg (by decide)]
    have hperm : permutationsJS ([0, 1, 4, 6, 7, 10] : List Nat) = (heapIter (heapGo 5) 6 6 0 [0, 1, 4, 6, 7, 10]).1 := rfl
    rw [hperm, e1, e2, e3, e4, e5, stackLoopN_append, hc1m, hc1a, stackLoopN_append, hc2m, hc2a, stackLoopN_append, hc3m, hc3a, stackLoopN_append, hc4m, hc4a, stackLoopN_append, hc5m, hc5a, sthc_0_1_4_6_7_10_6]
    decide
  have h := getAsStackedChord_eq_fast [0, 1, 4, 6, 7, 10] (by decide)
  rw [hN] at h
  have hm : List.map Int.ofNat [0, 1, 4, 6, 7, 10] = ([0, 1, 4, 6, 7, 10] : List Int) := by decide
  have hm2 : List.map Int.ofNat [4, 6, 7, 10, 0, 1] = ([4, 6, 7, 10, 0, 1] : List Int) := by decide
  rw [hm, hm2] at h
  exact h

theorem stk_0_2_4_6_9_10 : getAsStackedChord ([0, 2, 4, 6, 9, 10] : List Int) = ([9, 10, 0, 2, 4, 6] : List Int) :=
  getAsStackedChord_of_unique [0, 2, 4, 6, 9, 10] [0, 2, 4, 6, 9, 10] [9, 10, 0, 2, 4, 6] (by decide) (by decide) (by decide) (by decide) hmin_s_0_2_4_6_9_10

theorem stk_0_2_4_5_6_9_10 : getAsStackedChord ([0, 2, 4, 5, 6, 9, 10] : List Int) = ([9, 10, 0, 2, 4, 5, 6] : List Int) :=
  getAsStackedChord_of_unique [0, 2, 4, 5, 6, 9, 10] [0, 2, 4, 5, 6, 9, 10] [9, 10, 0, 2, 4, 5, 6] (by decide) (by decide) (by decide) (by decide) (forall_perm_cons _ _ _ hmin_s_0_2_4_5_6_9_10)

theorem stk_0_1_4_7_9_10 : getAsStackedChord ([0, 1, 4, 7, 9, 10] : List Int) = ([7, 9, 10, 0, 1, 4] : List Int) :=
  getAsStackedChord_of_unique [0, 1, 4, 7, 9, 10] [0, 1, 4, 7, 9, 10] [7, 9, 10, 0, 1, 4] (by decide) (by decide) (by decide) (by decide) hmin_s_0_1_4_7_9_10

theorem stk_0_1_4_5_7_9_10 : getAsStackedChord ([0, 1, 4, 5, 7, 9, 10] : List Int) = ([4, 5, 7, 9, 10, 0, 1] : List Int) :=
  getAsStackedChord_of_unique [0, 1, 4, 5, 7, 9, 10] [0, 1, 4, 5, 7, 9, 10] [4, 5, 7, 9, 10, 0, 1] (by decide) (by decide) (by decide) (by decide) (forall_perm_cons _ _ _ hmin_s_0_1_4_5_7_9_10)

theorem stk_0_2_4_6_7_9_10 : getAsStackedChord ([0, 2, 4, 6, 7, 9, 10] : List Int) = ([6, 7, 9, 10, 0, 2, 4] : List Int) :=
  getAsStackedChord_of_unique [0, 2, 4, 6, 7, 9, 10] [0, 2, 4, 6, 7, 9, 10] [6, 7, 9, 10, 0, 2, 4] (by decide) (by decide) (by decide) (by decide) (forall_perm_cons _ _ _ hmin_s_0_2_4_6_7_9_10)


/-!
### The database as a literal
-/

theorem dc_0 : defineChord "" "c,e,g" = ⟨"", "4,3", 0⟩ := by
  rw [defineChord_eval "" "c,e,g" [0, 4, 7] [0, 4, 7] (by decide) stk_0_4_7]
  decide

theorem dc_1 : defineChord "5" "c,g" = ⟨"5", "5", 1⟩ := by
  rw [defineChord_eval "5" "c,g" [0, 7] [7, 0] (by decide) stk_0_7]
  decide

theorem dc_2 : defineChord "6(no3)" "c,g,a" = ⟨"6(no3)", "2,3", 2⟩ := by
  rw [defineChord_eval "6(no3)" "c,g,a" [0, 7, 9] [7, 9, 0] (by decide) stk_0_7_9]
  decide

theorem dc_3 : defineChord "Maj7" "c,e,g,b" = ⟨"Maj7", "1,4,3", 1⟩ := by
  rw [defineChord_eval "Maj7" "c,e,g,b" [0, 4, 7, 11] [11, 0, 4, 7] (by decide) stk_0_4_7_11]
  decide

theorem dc_4 : defineChord "Maj7(#11)" "c,e,f#,b" = ⟨"Maj7(#11)", "1,4,2", 1⟩ := by
  rw [defineChord_eval "Maj7(#11)" "c,e,f#,b" [0, 4, 6, 11] [11, 0, 4, 6] (by decide) stk_0_4_6_11]
  decide

theorem dc_5 : defineChord "add9" "c,e,g,d" = ⟨"add9", "2,2,3", 0⟩ := by
  rw [defineChord_eval "add9" "c,e,g,d" [0, 4, 7, 2] [0, 2, 4, 7] (by decide) stk_0_4_7_2]
  decide

theorem dc_6 : defineChord "Maj7(9)" "c,d,e,b" = ⟨"Maj7(9)", "1,2,2", 1⟩ := by
  rw [defineChord_eval "Maj7(9)" "c,d,e,b" [0, 2, 4, 11] [11, 0, 2, 4] (by decide) stk_0_2_4_11]
  decide

theorem dc_7 : defineChord "6(9)" "c,d,e,a" = ⟨"6(9)", "3,2,2", 1⟩ := by
  rw [defineChord_eval "6(9)" "c,d,e,a" [0, 2, 4, 9] [9, 0, 2, 4] (by decide) stk_0_2_4_9]
  decide

theorem dc_8 : defineChord "+" "c,e,g#" = ⟨"+", "4,4", 0⟩ := by
  rw [defineChord_eval "+" "c,e,g#" [0, 4, 8] [0, 4, 8] (by decide) stk_0_4_8]
  decide

theorem dc_9 : defineChord "m" "c,eb,g" = ⟨"m", "3,4", 0⟩ := by
  rw [defineChord_eval "m" "c,eb,g" [0, 3, 7] [0, 3, 7] (by decide) stk_0_3_7]
  decide

theorem dc_10 : defineChord "madd9" "c,eb,g,d" = ⟨"madd9", "2,1,4", 0⟩ := by
  rw [defineChord_eval "madd9" "c,eb,g,d" [0, 3, 7, 2] [0, 2, 3, 7] (by decide) stk_0_3_7_2]
  decide

theorem dc_11 : defineChord "m7" "c,eb,g,bb" = ⟨"m7", "3,2,3", 2⟩ := by
  rw [defineChord_eval "m7" "c,eb,g,bb" [0, 3, 7, 10] [7, 10, 0, 3] (by decide) stk_0_3_7_10]
  decide

theorem dc_12 : defineChord "m7(9)" "c,d,eb,bb" = ⟨"m7(9)", "2,2,1", 1⟩ := by
  rw [defineChord_eval "m7(9)" "c,d,eb,bb" [0, 2, 3, 10] [10, 0, 2, 3] (by decide) stk_0_2_3_10]
  decide

theorem dc_13 : defineChord "mMaj7" "c,eb,g,b" = ⟨"mMaj7", "1,3,4", 1⟩ := by
  rw [defineChord_eval "mMaj7" "c,eb,g,b" [0, 3, 7, 11] [11, 0, 3, 7] (by decide) stk_0_3_7_11]
  decide

theorem dc_14 : defineChord "mMaj7(9)" "c,d,eb,b" = ⟨"mMaj7(9)", "1,2,1", 1⟩ := by
  rw [defineChord_eval "mMaj7(9)" "c,d,eb,b" [0, 2, 3, 11] [11, 0, 2, 3] (by decide) stk_0_2_3_11]
  decide

theorem dc_15 : defineChord "dim" "c,eb,f#" = ⟨"dim", "3,3", 0⟩ := by
  rw [defineChord_eval "dim" "c,eb,f#" [0, 3, 6] [0, 3, 6] (by decide) stk_0_3_6]
  decide

theorem dc_16 : defineChord "dim7" "c,eb,f#,a" = ⟨"dim7", "3,3,3", 0⟩ := by
  rw [defineChord_eval "dim7" "c,eb,f#,a" [0, 3, 6, 9] [0, 3, 6, 9] (by decide) stk_0_3_6_9]
  decide

theorem dc_17 : defineChord "7" "c,e,g,bb" = ⟨"7", "3,3,2", 3⟩ := by
  rw [defineChord_eval "7" "c,e,g,bb" [0, 4, 7, 10] [4, 7, 10, 0] (by decide) stk_0_4_7_10]
  decide

theorem dc_18 : defineChord "7(no5)" "c,e,bb" = ⟨"7(no5)", "2,4", 1⟩ := by
  rw [defineChord_eval "7(no5)" "c,e,bb" [0, 4, 10] [10, 0, 4] (by decide) stk_0_4_10]
  decide

theorem dc_19 : defineChord "7sus4" "c,f,g,bb" = ⟨"7sus4", "2,3,2", 3⟩ := by
  rw [defineChord_eval "7sus4" "c,f,g,bb" [0, 5, 7, 10] [5, 7, 10, 0] (by decide) stk_0_5_7_10]
  decide

theorem dc_20 : defineChord "7(b5)" "c,e,f#,bb" = ⟨"7(b5)", "2,4,2", 3⟩ := by
  rw [defineChord_eval "7(b5)" "c,e,f#,bb" [0, 4, 6, 10] [4, 6, 10, 0] (by decide) stk_0_4_6_10]
  decide

theorem dc_21 : defineChord "7(9)" "c,d,e,bb" = ⟨"7(9)", "2,2,2", 1⟩ := by
  rw [defineChord_eval "7(9)" "c,d,e,bb" [0, 2, 4, 10] [10, 0, 2, 4] (by decide) stk_0_2_4_10]
  decide

theorem dc_22 : defineChord "7(13)" "c,e,a,bb" = ⟨"7(13)", "1,2,4", 2⟩ := by
  rw [defineChord_eval "7(13)" "c,e,a,bb" [0, 4, 9, 10] [9, 10, 0, 4] (by decide) stk_0_4_9_10]
  decide

theorem dc_23 : defineChord "7(b9)" "c,c#,e,bb" = ⟨"7(b9)", "2,1,3", 1⟩ := by
  rw [defineChord_eval "7(b9)" "c,c#,e,bb" [0, 1, 4, 10] [10, 0, 1, 4] (by decide) stk_0_1_4_10]
  decide

theorem dc_24 : defineChord "+7" "c,e,g#,bb" = ⟨"+7", "2,2,4", 2⟩ := by
  rw [defineChord_eval "+7" "c,e,g#,bb" [0, 4, 8, 10] [8, 10, 0, 4] (by decide) stk_0_4_8_10]
  decide

theorem dc_25 : defineChord "7(#9)" "c,eb,e,bb" = ⟨"7(#9)", "2,3,1", 1⟩ := by
  rw [defineChord_eval "7(#9)" "c,eb,e,bb" [0, 3, 4, 10] [10, 0, 3, 4] (by decide) stk_0_3_4_10]
  decide

theorem dc_26 : defineChord "sus4" "c,f,g" = ⟨"sus4", "2,5", 2⟩ := by
  rw [defineChord_eval "sus4" "c,f,g" [0, 5, 7] [5, 7, 0] (by decide) stk_0_5_7]
  decide

theorem dc_27 : defineChord "6add9" "c,e,g,a,d" = ⟨"6add9", "2,2,3,2", 0⟩ := by
  rw [defineChord_eval "6add9" "c,e,g,a,d" [0, 4, 7, 9, 2] [0, 2, 4, 7, 9] (by decide) stk_0_4_7_9_2]
  decide

theorem dc_28 : defineChord "Maj9" "c,e,g,b,d" = ⟨"Maj9", "1,2,2,3", 1⟩ := by
  rw [defineChord_eval "Maj9" "c,e,g,b,d" [0, 4, 7, 11, 2] [11, 0, 2, 4, 7] (by decide) stk_0_4_7_11_2]
  decide

theorem dc_29 : defineChord "9" "c,e,g,bb,d" = ⟨"9", "2,2,2,3", 1⟩ := by
  rw [defineChord_eval "9" "c,e,g,bb,d" [0, 4, 7, 10, 2] [10, 0, 2, 4, 7] (by decide) stk_0_4_7_10_2]
  decide

theorem dc_30 : defineChord "13" "c,e,g,bb,d,a" = ⟨"13", "2,1,2,2,2", 3⟩ := by
  rw [defineChord_eval "13" "c,e,g,bb,d,a" [0, 4, 7, 10, 2, 9] [7, 9, 10, 0, 2, 4] (by decide) stk_0_4_7_10_2_9]
  decide

theorem dc_31 : defineChord "13" "c,e,g,bb,d,f,a" = ⟨"13", "1,2,2,1,2,2", 5⟩ := by
  rw [defineChord_eval "13" "c,e,g,bb,d,f,a" [0, 4, 7, 10, 2, 5, 9] [4, 5, 7, 9, 10, 0, 2] (by decide) stk_0_4_7_10_2_5_9]
  decide

theorem dc_32 : defineChord "13" "c,e,bb,d,a" = ⟨"13", "1,2,2,2", 2⟩ := by
  rw [defineChord_eval "13" "c,e,bb,d,a" [0, 4, 10, 2, 9] [9, 10, 0, 2, 4] (by decide) stk_0_4_10_2_9]
  decide

theorem dc_33 : defineChord "m6" "c,eb,g,a" = ⟨"m6", "2,3,3", 2⟩ := by
  rw [defineChord_eval "m6" "c,eb,g,a" [0, 3, 7, 9] [7, 9, 0, 3] (by decide) stk_0_3_7_9]
  decide

theorem dc_34 : defineChord "m6add9" "c,eb,g,a,d" = ⟨"m6add9", "2,3,2,1", 2⟩ := by
  rw [defineChord_eval "m6add9" "c,eb,g,a,d" [0, 3, 7, 9, 2] [7, 9, 0, 2, 3] (by decide) stk_0_3_7_9_2]
  decide

theorem dc_35 : defineChord "m6/9" "c,eb,a,d" = ⟨"m6/9", "3,2,1", 1⟩ := by
  rw [defineChord_eval "m6/9" "c,eb,a,d" [0, 3, 9, 2] [9, 0, 2, 3] (by decide) stk_0_3_9_2]
  decide

theorem dc_36 : defineChord "m7add13" "c,eb,g,a,bb" = ⟨"m7add13", "2,1,2,3", 3⟩ := by
  rw [defineChord_eval "m7add13" "c,eb,g,a,bb" [0, 3, 7, 9, 10] [7, 9, 10, 0, 3] (by decide) stk_0_3_7_9_10]
  decide

theorem dc_37 : defineChord "m9" "c,eb,g,bb,d" = ⟨"m9", "3,2,2,1", 2⟩ := by
  rw [defineChord_eval "m9" "c,eb,g,bb,d" [0, 3, 7, 10, 2] [7, 10, 0, 2, 3] (by decide) stk_0_3_7_10_2]
  decide

theorem dc_38 : defineChord "m11" "c,eb,g,bb,d,f" = ⟨"m11", "2,2,1,2,2", 1⟩ := by
  rw [defineChord_eval "m11" "c,eb,g,bb,d,f" [0, 3, 7, 10, 2, 5] [10, 0, 2, 3, 5, 7] (by decide) stk_0_3_7_10_2_5]
  decide

theorem dc_39 : defineChord "m11" "c,eb,bb,d,f" = ⟨"m11", "2,2,1,2", 1⟩ := by
  rw [defineChord_eval "m11" "c,eb,bb,d,f" [0, 3, 10, 2, 5] [10, 0, 2, 3, 5] (by decide) stk_0_3_10_2_5]
  decide

theorem dc_40 : defineChord "m13" "c,eb,g,bb,d,f,a" = ⟨"m13", "1,2,2,1,2,2", 2⟩ := by
  rw [defineChord_eval "m13" "c,eb,g,bb,d,f,a" [0, 3, 7, 10, 2, 5, 9] [9, 10, 0, 2, 3, 5, 7] (by decide) stk_0_3_7_10_2_5_9]
  decide

theorem dc_41 : defineChord "m9/Maj7" "c,eb,g,b,d" = ⟨"m9/Maj7", "1,2,1,4", 1⟩ := by
  rw [defineChord_eval "m9/Maj7" "c,eb,g,b,d" [0, 3, 7, 11, 2] [11, 0, 2, 3, 7] (by decide) stk_0_3_7_11_2]
  decide

theorem dc_42 : defineChord "m9(b5)" "c,eb,gb,bb,d" = ⟨"m9(b5)", "2,2,1,3", 1⟩ := by
  rw [defineChord_eval "m9(b5)" "c,eb,gb,bb,d" [0, 3, 6, 10, 2] [10, 0, 2, 3, 6] (by decide) stk_0_3_6_10_2]
  decide

theorem dc_43 : defineChord "m11(b5)" "c,eb,gb,bb,d,f" = ⟨"m11(b5)", "2,2,1,2,1", 1⟩ := by
  rw [defineChord_eval "m11(b5)" "c,eb,gb,bb,d,f" [0, 3, 6, 10, 2, 5] [10, 0, 2, 3, 5, 6] (by decide) stk_0_3_6_10_2_5]
  decide

theorem dc_44 : defineChord "Maj7(#5)" "c,e,g#,b" = ⟨"Maj7(#5)", "3,1,4", 2⟩ := by
  rw [defineChord_eval "Maj7(#5)" "c,e,g#,b" [0, 4, 8, 11] [8, 11, 0, 4] (by decide) stk_0_4_8_11]
  decide

theorem dc_45 : defineChord "Maj7(#11)" "c,e,g,b,f#" = ⟨"Maj7(#11)", "1,4,2,1", 1⟩ := by
  rw [defineChord_eval "Maj7(#11)" "c,e,g,b,f#" [0, 4, 7, 11, 6] [11, 0, 4, 6, 7] (by decide) stk_0_4_7_11_6]
  decide

theorem dc_46 : defineChord "Maj9(#11)" "c,e,g,b,d,f#" = ⟨"Maj9(#11)", "1,2,2,2,1", 1⟩ := by
  rw [defineChord_eval "Maj9(#11)" "c,e,g,b,d,f#" [0, 4, 7, 11, 2, 6] [11, 0, 2, 4, 6, 7] (by decide) stk_0_4_7_11_2_6]
  decide

theorem dc_47 : defineChord "7(b9)" "c,e,g,bb,db" = ⟨"7(b9)", "2,1,3,3", 1⟩ := by
  rw [defineChord_eval "7(b9)" "c,e,g,bb,db" [0, 4, 7, 10, 1] [10, 0, 1, 4, 7] (by decide) stk_0_4_7_10_1]
  decide

theorem dc_48 : defineChord "7(#9)" "c,e,g,bb,d#" = ⟨"7(#9)", "1,3,3,2", 4⟩ := by
  rw [defineChord_eval "7(#9)" "c,e,g,bb,d#" [0, 4, 7, 10, 3] [3, 4, 7, 10, 0] (by decide) stk_0_4_7_10_3]
  decide

theorem dc_49 : defineChord "7(#5)(#9)" "c,e,g#,bb,d#" = ⟨"7(#5)(#9)", "2,2,3,1", 2⟩ := by
  rw [defineChord_eval "7(#5)(#9)" "c,e,g#,bb,d#" [0, 4, 8, 10, 3] [8, 10, 0, 3, 4] (by decide) stk_0_4_8_10_3]
  decide

theorem dc_50 : defineChord "7(#11)" "c,e,g,bb,f#" = ⟨"7(#11)", "2,1,3,2", 4⟩ := by
  rw [defineChord_eval "7(#11)" "c,e,g,bb,f#" [0, 4, 7, 10, 6] [4, 6, 7, 10, 0] (by decide) stk_0_4_7_10_6]
  decide

theorem dc_51 : defineChord "9(#11)" "c,e,g,bb,d,f#" = ⟨"9(#11)", "2,2,2,2,1", 1⟩ := by
  rw [defineChord_eval "9(#11)" "c,e,g,bb,d,f#" [0, 4, 7, 10, 2, 6] [10, 0, 2, 4, 6, 7] (by decide) stk_0_4_7_10_2_6]
  decide

theorem dc_52 : defineChord "7(b9)(#11)" "c,e,g,bb,db,f#" = ⟨"7(b9)(#11)", "2,1,3,2,1", 1⟩ := by
  rw [defineChord_eval "7(b9)(#11)" "c,e,g,bb,db,f#" [0, 4, 7, 10, 1, 6] [10, 0, 1, 4, 6, 7] (by decide) stk_0_4_7_10_1_6]
  decide

theorem dc_53 : defineChord "13b5" "c,e,gb,bb,d,a" = ⟨"13b5", "1,2,2,2,2", 2⟩ := by
  rw [defineChord_eval "13b5" "c,e,gb,bb,d,a" [0, 4, 6, 10, 2, 9] [9, 10, 0, 2, 4, 6] (by decide) stk_0_4_6_10_2_9]
  decide

theorem dc_54 : defineChord "13b5" "c,e,gb,bb,d,f,a" = ⟨"13b5", "1,2,2,2,1,1", 2⟩ := by
  rw [defineChord_eval "13b5" "c,e,gb,bb,d,f,a" [0, 4, 6, 10, 2, 5, 9] [9, 10, 0, 2, 4, 5, 6] (by decide) stk_0_4_6_10_2_5_9]
  decide

theorem dc_55 : defineChord "13b9" "c,e,g,bb,db,a" = ⟨"13b9", "2,1,2,1,3", 3⟩ := by
  rw [defineChord_eval "13b9" "c,e,g,bb,db,a" [0, 4, 7, 10, 1, 9] [7, 9, 10, 0, 1, 4] (by decide) stk_0_4_7_10_1_9]
  decide

theorem dc_56 : defineChord "13b9" "c,e,g,bb,db,f,a" = ⟨"13b9", "1,2,2,1,2,1", 5⟩ := by
  rw [defineChord_eval "13b9" "c,e,g,bb,db,f,a" [0, 4, 7, 10, 1, 5, 9] [4, 5, 7, 9, 10, 0, 1] (by decide) stk_0_4_7_10_1_5_9]
  decide

theorem dc_57 : defineChord "13#11" "c,e,g,bb,d,f#,a" = ⟨"13#11", "1,2,1,2,2,2", 4⟩ := by
  rw [defineChord_eval "13#11" "c,e,g,bb,d,f#,a" [0, 4, 7, 10, 2, 6, 9] [6, 7, 9, 10, 0, 2, 4] (by decide) stk_0_4_7_10_2_6_9]
  decide

theorem dc_58 : defineChord "7(no3)" "c,g,bb" = ⟨"7(no3)", "3,2", 2⟩ := by
  rw [defineChord_eval "7(no3)" "c,g,bb" [0, 7, 10] [7, 10, 0] (by decide) stk_0_7_10]
  decide

theorem dc_59 : defineChord "Maj7(no5)" "c,e,b" = ⟨"Maj7(no5)", "1,4", 1⟩ := by
  rw [defineChord_eval "Maj7(no5)" "c,e,b" [0, 4, 11] [11, 0, 4] (by decide) stk_0_4_11]
  decide

theorem CHORD_FORMULAS_base_eq : CHORD_FORMULAS_base = CHORD_FORMULAS_value := by
  simp only [CHORD_FORMULAS_base, CHORD_DEFS, List.map]
  rw [dc_0, dc_1, dc_2, dc_3, dc_4, dc_5, dc_6, dc_7, dc_8, dc_9, dc_10, dc_11, dc_12, dc_13, dc_14, dc_15, dc_16, dc_17, dc_18, dc_19, dc_20, dc_21, dc_22, dc_23, dc_24, dc_25, dc_26, dc_27, dc_28, dc_29, dc_30, dc_31, dc_32, dc_33, dc_34, dc_35, dc_36, dc_37, dc_38, dc_39, dc_40, dc_41, dc_42, dc_43, dc_44, dc_45, dc_46, dc_47, dc_48, dc_49, dc_50, dc_51, dc_52, dc_53, dc_54, dc_55, dc_56, dc_57, dc_58, dc_59]
  rfl

theorem CHORD_FORMULAS_eq : CHORD_FORMULAS = CHORD_FORMULAS_value := by
  have hlen : CHORD_FORMULAS_base.length = 60 := by
    rw [CHORD_FORMULAS_base_eq]
    rfl
  simp only [CHORD_FORMULAS]
  rw [if_neg (by rw [hlen]; decide), CHORD_FORMULAS_base_eq]

/-!
### Detection of each template's own note set
-/

theorem det_0_4_7 : detectChord ["C4", "E4", "G4"] false = some "C" := by
  rw [detectChord, CHORD_FORMULAS_eq]
  exact (detectChordWith_matched CHORD_FORMULAS_value ["C4", "E4", "G4"] false [60, 64, 67] [0, 4, 7] [0, 4, 7] ⟨"", "4,3", 0⟩ (by decide) (by decide) (by decide) (by decide) (by decide) (by decide) stk_0_4_7 (by decide)).trans (by decide)

theorem det_0_7_9 : detectChord ["C4", "G4", "A4"] false = some "C6(no3)" := by
  rw [detectChord, CHORD_FORMULAS_eq]
  exact (detectChordWith_matched CHORD_FORMULAS_value ["C4", "G4", "A4"] false [60, 67, 69] [0, 7, 9] [7, 9, 0] ⟨"6(no3)", "2,3", 2⟩ (by decide) (by decide) (by decide) (by decide) (by decide) (by decide) stk_0_7_9 (by decide)).trans (by decide)

theorem det_0_4_7_11 : detectChord ["C4", "E4", "G4", "B4"] false = some "CMaj7" := by
  rw [detectChord, CHORD_FORMULAS_eq]
  exact (detectChordWith_matched CHORD_FORMULAS_value ["C4", "E4", "G4", "B4"] false [60, 64, 67, 71] [0, 4, 7, 11] [11, 0, 4, 7] ⟨"Maj7", "1,4,3", 1⟩ (by decide) (by decide) (by decide) (by decide) (by decide) (by decide) stk_0_4_7_11 (by decide)).trans (by decide)

theorem det_0_4_6_11 : detectChord ["C4", "E4", "F#4", "B4"] false = some "CMaj7(#11)" := by
  rw [detectChord, CHORD_FORMULAS_eq]
  exact (detectChordWith_matched CHORD_FORMULAS_value ["C4", "E4", "F#4", "B4"] false [60, 64, 66, 71] [0, 4, 6, 11] [11, 0, 4, 6] ⟨"Maj7(#11)", "1,4,2", 1⟩ (by decide) (by decide) (by decide) (by decide) (by decide) (by decide) stk_0_4_6_11 (by decide)).trans (by decide)

theorem det_0_2_4_7 : detectChord ["C4", "E4", "G4", "D4"] false = some "Cadd9" := by
  rw [detectChord, CHORD_FORMULAS_eq]
  exact (detectChordWith_matched CHORD_FORMULAS_value ["C4", "E4", "G4", "D4"] false [60, 62, 64, 67] [0, 2, 4, 7] [0, 2, 4, 7] ⟨"add9", "2,2,3", 0⟩ (by decide) (by decide) (by decide) (by decide) (by decide) (by decide) stk_0_2_4_7 (by decide)).trans (by decide)

theorem det_0_2_4_11 : detectChord ["C4", "D4", "E4", "B4"] false = some "CMaj7(9)" := by
  rw [detectChord, CHORD_FORMULAS_eq]
  exact (detectChordWith_matched CHORD_FORMULAS_value ["C4", "D4", "E4", "B4"] false [60, 62, 64, 71] [0, 2, 4, 11] [11, 0, 2, 4] ⟨"Maj7(9)", "1,2,2", 1⟩ (by decide) (by decide) (by decide) (by decide) (by decide) (by decide) stk_0_2_4_11 (by decide)).trans (by decide)

theorem det_0_2_4_9 : detectChord ["C4", "D4", "E4", "A4"] false = some "C6(9)" := by
  rw [detectChord, CHORD_FORMULAS_eq]
  exact (detectChordWith_matched CHORD_FORMULAS_value ["C4", "D4", "E4", "A4"] false [60, 62, 64, 69] [0, 2, 4, 9] [9, 0, 2, 4] ⟨"6(9)", "3,2,2", 1⟩ (by decide) (by decide) (by decide) (by decide) (by decide) (by decide) stk_0_2_4_9 (by decide)).trans (by decide)

theorem det_0_4_8 : detectChord ["C4", "E4", "G#4"] false = some "C+" := by
  rw [detectChord, CHORD_FORMULAS_eq]
  exact (detectChordWith_matched CHORD_FORMULAS_value ["C4", "E4", "G#4"] false [60, 64, 68] [0, 4, 8] [0, 4, 8] ⟨"+", "4,4", 0⟩ (by decide) (by decide) (by decide) (by decide) (by decide) (by decide) stk_0_4_8 (by decide)).trans (by decide)

theorem det_0_3_7 : detectChord ["C4", "D#4", "G4"] false = some "Cm" := by
  rw [detectChord, CHORD_FORMULAS_eq]
  exact (detectChordWith_matched CHORD_FORMULAS_value ["C4", "D#4", "G4"] false [60, 63, 67] [0, 3, 7] [0, 3, 7] ⟨"m", "3,4", 0⟩ (by decide) (by decide) (by decide) (by decide) (by decide) (by decide) stk_0_3_7 (by decide)).trans (by decide)

theorem det_0_2_3_7 : detectChord ["C4", "D#4", "G4", "D4"] false = some "Cmadd9" := by
  rw [detectChord, CHORD_FORMULAS_eq]
  exact (detectChordWith_matched CHORD_FORMULAS_value ["C4", "D#4", "G4", "D4"] false [60, 62, 63, 67] [0, 2, 3, 7] [0, 2, 3, 7] ⟨"madd9", "2,1,4", 0⟩ (by decide) (by decide) (by decide) (by decide) (by decide) (by decide) stk_0_2_3_7 (by decide)).trans (by decide)

theorem det_0_3_7_10 : detectChord ["C4", "D#4", "G4", "A#4"] false = some "Cm7" := by
  rw [detectChord, CHORD_FORMULAS_eq]
  exact (detectChordWith_matched CHORD_FORMULAS_value ["C4", "D#4", "G4", "A#4"] false [60, 63, 67, 70] [0, 3, 7, 10] [7, 10, 0, 3] ⟨"m7", "3,2,3", 2⟩ (by decide) (by decide) (by decide) (by decide) (by decide) (by decide) stk_0_3_7_10 (by decide)).trans (by decide)

theorem det_0_2_3_10 : detectChord ["C4", "D4", "D#4", "A#4"] false = some "Cm7(9)" := by
  rw [detectChord, CHORD_FORMULAS_eq]
  exact (detectChordWith_matched CHORD_FORMULAS_value ["C4", "D4", "D#4", "A#4"] false [60, 62, 63, 70] [0, 2, 3, 10] [10, 0, 2, 3] ⟨"m7(9)", "2,2,1", 1⟩ (by decide) (by decide) (by decide) (by decide) (by decide) (by decide) stk_0_2_3_10 (by decide)).trans (by decide)

theorem det_0_3_7_11 : detectChord ["C4", "D#4", "G4", "B4"] false = some "CmMaj7" := by
  rw [detectChord, CHORD_FORMULAS_eq]
  exact (detectChordWith_matched CHORD_FORMULAS_value ["C4", "D#4", "G4", "B4"] false [60, 63, 67, 71] [0, 3, 7, 11] [11, 0, 3, 7] ⟨"mMaj7", "1,3,4", 1⟩ (by decide) (by decide) (by decide) (by decide) (by decide) (by decide) stk_0_3_7_11 (by decide)).trans (by decide)

theorem det_0_2_3_11 : detectChord ["C4", "D4", "D#4", "B4"] false = some "CmMaj7(9)" := by
  rw [detectChord, CHORD_FORMULAS_eq]
  exact (detectChordWith_matched CHORD_FORMULAS_value ["C4", "D4", "D#4", "B4"] false [60, 62, 63, 71] [0, 2, 3, 11] [11, 0, 2, 3] ⟨"mMaj7(9)", "1,2,1", 1⟩ (by decide) (by decide) (by decide) (by decide) (by decide) (by decide) stk_0_2_3_11 (by decide)).trans (by decide)

theorem det_0_3_6 : detectChord ["C4", "D#4", "F#4"] false = some "Cdim" := by
  rw [detectChord, CHORD_FORMULAS_eq]
  exact (detectChordWith_matched CHORD_FORMULAS_value ["C4", "D#4", "F#4"] false [60, 63, 66] [0, 3, 6] [0, 3, 6] ⟨"dim", "3,3", 0⟩ (by decide) (by decide) (by decide) (by decide) (by decide) (by decide) stk_0_3_6 (by decide)).trans (by decide)

theorem det_0_3_6_9 : detectChord ["C4", "D#4", "F#4", "A4"] false = some "Cdim7" := by
  rw [detectChord, CHORD_FORMULAS_eq]
  exact (detectChordWith_matched CHORD_FORMULAS_value ["C4", "D#4", "F#4", "A4"] false [60, 63, 66, 69] [0, 3, 6, 9] [0, 3, 6, 9] ⟨"dim7", "3,3,3", 0⟩ (by decide) (by decide) (by decide) (by decide) (by decide) (by decide) stk_0_3_6_9 (by decide)).trans (by decide)

theorem det_0_4_7_10 : detectChord ["C4", "E4", "G4", "A#4"] false = some "C7" := by
  rw [detectChord, CHORD_FORMULAS_eq]
  exact (detectChordWith_matched CHORD_FORMULAS_value ["C4", "E4", "G4", "A#4"] false [60, 64, 67, 70] [0, 4, 7, 10] [4, 7, 10, 0] ⟨"7", "3,3,2", 3⟩ (by decide) (by decide) (by decide) (by decide) (by decide) (by decide) stk_0_4_7_10 (by decide)).trans (by decide)

theorem det_0_4_10 : detectChord ["C4", "E4", "A#4"] false = some "C7(no5)" := by
  rw [detectChord, CHORD_FORMULAS_eq]
  exact (detectChordWith_matched CHORD_FORMULAS_value ["C4", "E4", "A#4"] false [60, 64, 70] [0, 4, 10] [10, 0, 4] ⟨"7(no5)", "2,4", 1⟩ (by decide) (by decide) (by decide) (by decide) (by decide) (by decide) stk_0_4_10 (by decide)).trans (by decide)

theorem det_0_5_7_10 : detectChord ["C4", "F4", "G4", "A#4"] false = some "C7sus4" := by
  rw [detectChord, CHORD_FORMULAS_eq]
  exact (detectChordWith_matched CHORD_FORMULAS_value ["C4", "F4", "G4", "A#4"] false [60, 65, 67, 70] [0, 5, 7, 10] [5, 7, 10, 0] ⟨"7sus4", "2,3,2", 3⟩ (by decide) (by decide) (by decide) (by decide) (by decide) (by decide) stk_0_5_7_10 (by decide)).trans (by decide)

theorem det_0_4_6_10 : detectChord ["C4", "E4", "F#4", "A#4"] false = some "C7(b5)" := by
  rw [detectChord, CHORD_FORMULAS_eq]
  exact (detectChordWith_matched CHORD_FORMULAS_value ["C4", "E4", "F#4", "A#4"] false [60, 64, 66, 70] [0, 4, 6, 10] [4, 6, 10, 0] ⟨"7(b5)", "2,4,2", 3⟩ (by decide) (by decide) (by decide) (by decide) (by decide) (by decide) stk_0_4_6_10 (by decide)).trans (by decide)

theorem det_0_2_4_10 : detectChord ["C4", "D4", "E4", "A#4"] false = some "C7(9)" := by
  rw [detectChord, CHORD_FORMULAS_eq]
  exact (detectChordWith_matched CHORD_FORMULAS_value ["C4", "D4", "E4", "A#4"] false [60, 62, 64, 70] [0, 2, 4, 10] [10, 0, 2, 4] ⟨"7(9)", "2,2,2", 1⟩ (by decide) (by decide) (by decide) (by decide) (by decide) (by decide) stk_0_2_4_10 (by decide)).trans (by decide)

theorem det_0_4_9_10 : detectChord ["C4", "E4", "A4", "A#4"] false = some "C7(13)" := by
  rw [detectChord, CHORD_FORMULAS_eq]
  exact (detectChordWith_matched CHORD_FORMULAS_value ["C4", "E4", "A4", "A#4"] false [60, 64, 69, 70] [0, 4, 9, 10] [9, 10, 0, 4] ⟨"7(13)", "1,2,4", 2⟩ (by decide) (by decide) (by decide) (by decide) (by decide) (by decide) stk_0_4_9_10 (by decide)).trans (by decide)

theorem det_0_1_4_10 : detectChord ["C4", "C#4", "E4", "A#4"] false = some "C7(b9)" := by
  rw [detectChord, CHORD_FORMULAS_eq]
  exact (detectChordWith_matched CHORD_FORMULAS_value ["C4", "C#4", "E4", "A#4"] false [60, 61, 64, 70] [0, 1, 4, 10] [10, 0, 1, 4] ⟨"7(b9)", "2,1,3", 1⟩ (by decide) (by decide) (by decide) (by decide) (by decide) (by decide) stk_0_1_4_10 (by decide)).trans (by decide)

theorem det_0_4_8_10 : detectChord ["C4", "E4", "G#4", "A#4"] false = some "C+7" := by
  rw [detectChord, CHORD_FORMULAS_eq]
  exact (detectChordWith_matched CHORD_FORMULAS_value ["C4", "E4", "G#4", "A#4"] false [60, 64, 68, 70] [0, 4, 8, 10] [8, 10, 0, 4] ⟨"+7", "2,2,4", 2⟩ (by decide) (by decide) (by decide) (by decide) (by decide) (by decide) stk_0_4_8_10 (by decide)).trans (by decide)

theorem det_0_3_4_10 : detectChord ["C4", "D#4", "E4", "A#4"] false = some "C7(#9)" := by
  rw [detectChord, CHORD_FORMULAS_eq]
  exact (detectChordWith_matched CHORD_FORMULAS_value ["C4", "D#4", "E4", "A#4"] false [60, 63, 64, 70] [0, 3, 4, 10] [10, 0, 3, 4] ⟨"7(#9)", "2,3,1", 1⟩ (by decide) (by decide) (by decide) (by decide) (by decide) (by decide) stk_0_3_4_10 (by decide)).trans (by decide)

theorem det_0_5_7 : detectChord ["C4", "F4", "G4"] false = some "Csus4" := by
  rw [detectChord, CHORD_FORMULAS_eq]
  exact (detectChordWith_matched CHORD_FORMULAS_value ["C4", "F4", "G4"] false [60, 65, 67] [0, 5, 7] [5, 7, 0] ⟨"sus4", "2,5", 2⟩ (by decide) (by decide) (by decide) (by decide) (by decide) (by decide) stk_0_5_7 (by decide)).trans (by decide)

theorem det_0_2_4_7_9 : detectChord ["C4", "E4", "G4", "A4", "D4"] false = some "C6add9" := by
  rw [detectChord, CHORD_FORMULAS_eq]
  exact (detectChordWith_matched CHORD_FORMULAS_value ["C4", "E4", "G4", "A4", "D4"] false [60, 62, 64, 67, 69] [0, 2, 4, 7, 9] [0, 2, 4, 7, 9] ⟨"6add9", "2,2,3,2", 0⟩ (by decide) (by decide) (by decide) (by decide) (by decide) (by decide) stk_0_2_4_7_9 (by decide)).trans (by decide)

theorem det_0_2_4_7_11 : detectChord ["C4", "E4", "G4", "B4", "D4"] false = some "CMaj9" := by
  rw [detectChord, CHORD_FORMULAS_eq]
  exact (detectChordWith_matched CHORD_FORMULAS_value ["C4", "E4", "G4", "B4", "D4"] false [60, 62, 64, 67, 71] [0, 2, 4, 7, 11] [11, 0, 2, 4, 7] ⟨"Maj9", "1,2,2,3", 1⟩ (by decide) (by decide) (by decide) (by decide) (by decide) (by decide) stk_0_2_4_7_11 (by decide)).trans (by decide)

theorem det_0_2_4_7_10 : detectChord ["C4", "E4", "G4", "A#4", "D4"] false = some "C9" := by
  rw [detectChord, CHORD_FORMULAS_eq]
  exact (detectChordWith_matched CHORD_FORMULAS_value ["C4", "E4", "G4", "A#4", "D4"] false [60, 62, 64, 67, 70] [0, 2, 4, 7, 10] [10, 0, 2, 4, 7] ⟨"9", "2,2,2,3", 1⟩ (by decide) (by decide) (by decide) (by decide) (by decide) (by decide) stk_0_2_4_7_10 (by decide)).trans (by decide)

theorem det_0_2_4_7_9_10 : detectChord ["C4", "E4", "G4", "A#4", "D4", "A4"] false = some "C13" := by
  rw [detectChord, CHORD_FORMULAS_eq]
  exact (detectChordWith_matched CHORD_FORMULAS_value ["C4", "E4", "G4", "A#4", "D4", "A4"] false [60, 62, 64, 67, 69, 70] [0, 2, 4, 7, 9, 10] [7, 9, 10, 0, 2, 4] ⟨"13", "2,1,2,2,2", 3⟩ (by decide) (by decide) (by decide) (by decide) (by decide) (by decide) stk_0_2_4_7_9_10 (by decide)).trans (by decide)

theorem det_0_2_4_5_7_9_10 : detectChord ["C4", "E4", "G4", "A#4", "D4", "F4", "A4"] false = some "C13" := by
  rw [detectChord, CHORD_FORMULAS_eq]
  exact (detectChordWith_matched CHORD_FORMULAS_value ["C4", "E4", "G4", "A#4", "D4", "F4", "A4"] false [60, 62, 64, 65, 67, 69, 70] [0, 2, 4, 5, 7, 9, 10] [4, 5, 7, 9, 10, 0, 2] ⟨"13", "1,2,2,1,2,2", 5⟩ (by decide) (by decide) (by decide) (by decide) (by decide) (by decide) stk_0_2_4_5_7_9_10 (by decide)).trans (by decide)

theorem det_0_2_4_9_10 : detectChord ["C4", "E4", "A#4", "D4", "A4"] false = some "C13" := by
  rw [detectChord, CHORD_FORMULAS_eq]
  exact (detectChordWith_matched CHORD_FORMULAS_value ["C4", "E4", "A#4", "D4", "A4"] false [60, 62, 64, 69, 70] [0, 2, 4, 9, 10] [9, 10, 0, 2, 4] ⟨"13", "1,2,2,2", 2⟩ (by decide) (by decide) (by decide) (by decide) (by decide) (by decide) stk_0_2_4_9_10 (by decide)).trans (by decide)

theorem det_0_3_7_9 : detectChord ["C4", "D#4", "G4", "A4"] false = some "Cm6" := by
  rw [detectChord, CHORD_FORMULAS_eq]
  exact (detectChordWith_matched CHORD_FORMULAS_value ["C4", "D#4", "G4", "A4"] false [60, 63, 67, 69] [0, 3, 7, 9] [7, 9, 0, 3] ⟨"m6", "2,3,3", 2⟩ (by decide) (by decide) (by decide) (by decide) (by decide) (by decide) stk_0_3_7_9 (by decide)).trans (by decide)

theorem det_0_2_3_7_9 : detectChord ["C4", "D#4", "G4", "A4", "D4"] false = some "Cm6add9" := by
  rw [detectChord, CHORD_FORMULAS_eq]
  exact (detectChordWith_matched CHORD_FORMULAS_value ["C4", "D#4", "G4", "A4", "D4"] false [60, 62, 63, 67, 69] [0, 2, 3, 7, 9] [7, 9, 0, 2, 3] ⟨"m6add9", "2,3,2,1", 2⟩ (by decide) (by decide) (by decide) (by decide) (by decide) (by decide) stk_0_2_3_7_9 (by decide)).trans (by decide)

theorem det_0_2_3_9 : detectChord ["C4", "D#4", "A4", "D4"] false = some "Cm6/9" := by
  rw [detectChord, CHORD_FORMULAS_eq]
  exact (detectChordWith_matched CHORD_FORMULAS_value ["C4", "D#4", "A4", "D4"] false [60, 62, 63, 69] [0, 2, 3, 9] [9, 0, 2, 3] ⟨"m6/9", "3,2,1", 1⟩ (by decide) (by decide) (by decide) (by decide) (by decide) (by decide) stk_0_2_3_9 (by decide)).trans (by decide)

theorem det_0_3_7_9_10 : detectChord ["C4", "D#4", "G4", "A4", "A#4"] false = some "Cm7add13" := by
  rw [detectChord, CHORD_FORMULAS_eq]
  exact (detectChordWith_matched CHORD_FORMULAS_value ["C4", "D#4", "G4", "A4", "A#4"] false [60, 63, 67, 69, 70] [0, 3, 7, 9, 10] [7, 9, 10, 0, 3] ⟨"m7add13", "2,1,2,3", 3⟩ (by decide) (by decide) (by decide) (by decide) (by decide) (by decide) stk_0_3_7_9_10 (by decide)).trans (by decide)

theorem det_0_2_3_7_10 : detectChord ["C4", "D#4", "G4", "A#4", "D4"] false = some "Cm9" := by
  rw [detectChord, CHORD_FORMULAS_eq]
  exact (detectChordWith_matched CHORD_FORMULAS_value ["C4", "D#4", "G4", "A#4", "D4"] false [60, 62, 63, 67, 70] [0, 2, 3, 7, 10] [7, 10, 0, 2, 3] ⟨"m9", "3,2,2,1", 2⟩ (by decide) (by decide) (by decide) (by decide) (by decide) (by decide) stk_0_2_3_7_10 (by decide)).trans (by decide)

theorem det_0_2_3_5_7_10 : detectChord ["C4", "D#4", "G4", "A#4", "D4", "F4"] false = some "Cm11" := by
  rw [detectChord, CHORD_FORMULAS_eq]
  exact (detectChordWith_matched CHORD_FORMULAS_value ["C4", "D#4", "G4", "A#4", "D4", "F4"] false [60, 62, 63, 65, 67, 70] [0, 2, 3, 5, 7, 10] [10, 0, 2, 3, 5, 7] ⟨"m11", "2,2,1,2,2", 1⟩ (by decide) (by decide) (by decide) (by decide) (by decide) (by decide) stk_0_2_3_5_7_10 (by decide)).trans (by decide)

theorem det_0_2_3_5_10 : detectChord ["C4", "D#4", "A#4", "D4", "F4"] false = some "Cm11" := by
  rw [detectChord, CHORD_FORMULAS_eq]
  exact (detectChordWith_matched CHORD_FORMULAS_value ["C4", "D#4", "A#4", "D4", "F4"] false [60, 62, 63, 65, 70] [0, 2, 3, 5, 10] [10, 0, 2, 3, 5] ⟨"m11", "2,2,1,2", 1⟩ (by decide) (by decide) (by decide) (by decide) (by decide) (by decide) stk_0_2_3_5_10 (by decide)).trans (by decide)

theorem det_0_2_3_5_7_9_10 : detectChord ["C4", "D#4", "G4", "A#4", "D4", "F4", "A4"] false = some "F13/C" := by
  rw [detectChord, CHORD_FORMULAS_eq]
  exact (detectChordWith_matched CHORD_FORMULAS_value ["C4", "D#4", "G4", "A#4", "D4", "F4", "A4"] false [60, 62, 63, 65, 67, 69, 70] [0, 2, 3, 5, 7, 9, 10] [9, 10, 0, 2, 3, 5, 7] ⟨"13", "1,2,2,1,2,2", 5⟩ (by decide) (by decide) (by decide) (by decide) (by decide) (by decide) stk_0_2_3_5_7_9_10 (by decide)).trans (by decide)

theorem det_0_2_3_7_11 : detectChord ["C4", "D#4", "G4", "B4", "D4"] false = some "Cm9/Maj7" := by
  rw [detectChord, CHORD_FORMULAS_eq]
  exact (detectChordWith_matched CHORD_FORMULAS_value ["C4", "D#4", "G4", "B4", "D4"] false [60, 62, 63, 67, 71] [0, 2, 3, 7, 11] [11, 0, 2, 3, 7] ⟨"m9/Maj7", "1,2,1,4", 1⟩ (by decide) (by decide) (by decide) (by decide) (by decide) (by decide) stk_0_2_3_7_11 (by decide)).trans (by decide)

theorem det_0_2_3_6_10 : detectChord ["C4", "D#4", "F#4", "A#4", "D4"] false = some "Cm9(b5)" := by
  rw [detectChord, CHORD_FORMULAS_eq]
  exact (detectChordWith_matched CHORD_FORMULAS_value ["C4", "D#4", "F#4", "A#4", "D4"] false [60, 62, 63, 66, 70] [0, 2, 3, 6, 10] [10, 0, 2, 3, 6] ⟨"m9(b5)", "2,2,1,3", 1⟩ (by decide) (by decide) (by decide) (by decide) (by decide) (by decide) stk_0_2_3_6_10 (by decide)).trans (by decide)

theorem det_0_2_3_5_6_10 : detectChord ["C4", "D#4", "F#4", "A#4", "D4", "F4"] false = some "Cm11(b5)" := by
  rw [detectChord, CHORD_FORMULAS_eq]
  exact (detectChordWith_matched CHORD_FORMULAS_value ["C4", "D#4", "F#4", "A#4", "D4", "F4"] false [60, 62, 63, 65, 66, 70] [0, 2, 3, 5, 6, 10] [10, 0, 2, 3, 5, 6] ⟨"m11(b5)", "2,2,1,2,1", 1⟩ (by decide) (by decide) (by decide) (by decide) (by decide) (by decide) stk_0_2_3_5_6_10 (by decide)).trans (by decide)

theorem det_0_4_8_11 : detectChord ["C4", "E4", "G#4", "B4"] false = some "CMaj7(#5)" := by
  rw [detectChord, CHORD_FORMULAS_eq]
  exact (detectChordWith_matched CHORD_FORMULAS_value ["C4", "E4", "G#4", "B4"] false [60, 64, 68, 71] [0, 4, 8, 11] [8, 11, 0, 4] ⟨"Maj7(#5)", "3,1,4", 2⟩ (by decide) (by decide) (by decide) (by decide) (by decide) (by decide) stk_0_4_8_11 (by decide)).trans (by decide)

theorem det_0_4_6_7_11 : detectChord ["C4", "E4", "G4", "B4", "F#4"] false = some "CMaj7(#11)" := by
  rw [detectChord, CHORD_FORMULAS_eq]
  exact (detectChordWith_matched CHORD_FORMULAS_value ["C4", "E4", "G4", "B4", "F#4"] false [60, 64, 66, 67, 71] [0, 4, 6, 7, 11] [11, 0, 4, 6, 7] ⟨"Maj7(#11)", "1,4,2,1", 1⟩ (by decide) (by decide) (by decide) (by decide) (by decide) (by decide) stk_0_4_6_7_11 (by decide)).trans (by decide)

theorem det_0_2_4_6_7_11 : detectChord ["C4", "E4", "G4", "B4", "D4", "F#4"] false = some "CMaj9(#11)" := by
  rw [detectChord, CHORD_FORMULAS_eq]
  exact (detectChordWith_matched CHORD_FORMULAS_value ["C4", "E4", "G4", "B4", "D4", "F#4"] false [60, 62, 64, 66, 67, 71] [0, 2, 4, 6, 7, 11] [11, 0, 2, 4, 6, 7] ⟨"Maj9(#11)", "1,2,2,2,1", 1⟩ (by decide) (by decide) (by decide) (by decide) (by decide) (by decide) stk_0_2_4_6_7_11 (by decide)).trans (by decide)

theorem det_0_1_4_7_10 : detectChord ["C4", "E4", "G4", "A#4", "C#4"] false = some "C7(b9)" := by
  rw [detectChord, CHORD_FORMULAS_eq]
  exact (detectChordWith_matched CHORD_FORMULAS_value ["C4", "E4", "G4", "A#4", "C#4"] false [60, 61, 64, 67, 70] [0, 1, 4, 7, 10] [10, 0, 1, 4, 7] ⟨"7(b9)", "2,1,3,3", 1⟩ (by decide) (by decide) (by decide) (by decide) (by decide) (by decide) stk_0_1_4_7_10 (by decide)).trans (by decide)

theorem det_0_3_4_7_10 : detectChord ["C4", "E4", "G4", "A#4", "D#4"] false = some "C7(#9)" := by
  rw [detectChord, CHORD_FORMULAS_eq]
  exact (detectChordWith_matched CHORD_FORMULAS_value ["C4", "E4", "G4", "A#4", "D#4"] false [60, 63, 64, 67, 70] [0, 3, 4, 7, 10] [3, 4, 7, 10, 0] ⟨"7(#9)", "1,3,3,2", 4⟩ (by decide) (by decide) (by decide) (by decide) (by decide) (by decide) stk_0_3_4_7_10 (by decide)).trans (by decide)

theorem det_0_3_4_8_10 : detectChord ["C4", "E4", "G#4", "A#4", "D#4"] false = some "C7(#5)(#9)" := by
  rw [detectChord, CHORD_FORMULAS_eq]
  exact (detectChordWith_matched CHORD_FORMULAS_value ["C4", "E4", "G#4", "A#4", "D#4"] false [60, 63, 64, 68, 70] [0, 3, 4, 8, 10] [8, 10, 0, 3, 4] ⟨"7(#5)(#9)", "2,2,3,1", 2⟩ (by decide) (by decide) (by decide) (by decide) (by decide) (by decide) stk_0_3_4_8_10 (by decide)).trans (by decide)

theorem det_0_4_6_7_10 : detectChord ["C4", "E4", "G4", "A#4", "F#4"] false = some "C7(#11)" := by
  rw [detectChord, CHORD_FORMULAS_eq]
  exact (detectChordWith_matched CHORD_FORMULAS_value ["C4", "E4", "G4", "A#4", "F#4"] false [60, 64, 66, 67, 70] [0, 4, 6, 7, 10] [4, 6, 7, 10, 0] ⟨"7(#11)", "2,1,3,2", 4⟩ (by decide) (by decide) (by decide) (by decide) (by decide) (by decide) stk_0_4_6_7_10 (by decide)).trans (by decide)

theorem det_0_2_4_6_7_10 : detectChord ["C4", "E4", "G4", "A#4", "D4", "F#4"] false = some "C9(#11)" := by
  rw [detectChord, CHORD_FORMULAS_eq]
  exact (detectChordWith_matched CHORD_FORMULAS_value ["C4", "E4", "G4", "A#4", "D4", "F#4"] false [60, 62, 64, 66, 67, 70] [0, 2, 4, 6, 7, 10] [10, 0, 2, 4, 6, 7] ⟨"9(#11)", "2,2,2,2,1", 1⟩ (by decide) (by decide) (by decide) (by decide) (by decide) (by decide) stk_0_2_4_6_7_10 (by decide)).trans (by decide)

theorem det_0_1_4_6_7_10 : detectChord ["C4", "E4", "G4", "A#4", "C#4", "F#4"] false = some "F#7(b9)(#11)/C" := by
  rw [detectChord, CHORD_FORMULAS_eq]
  exact (detectChordWith_matched CHORD_FORMULAS_value ["C4", "E4", "G4", "A#4", "C#4", "F#4"] false [60, 61, 64, 66, 67, 70] [0, 1, 4, 6, 7, 10] [4, 6, 7, 10, 0, 1] ⟨"7(b9)(#11)", "2,1,3,2,1", 1⟩ (by decide) (by decide) (by decide) (by decide) (by decide) (by decide) stk_0_1_4_6_7_10 (by decide)).trans (by decide)

theorem det_0_2_4_6_9_10 : detectChord ["C4", "E4", "F#4", "A#4", "D4", "A4"] false = some "C13b5" := by
  rw [detectChord, CHORD_FORMULAS_eq]
  exact (detectChordWith_matched CHORD_FORMULAS_value ["C4", "E4", "F#4", "A#4", "D4", "A4"] false [60, 62, 64, 66, 69, 70] [0, 2, 4, 6, 9, 10] [9, 10, 0, 2, 4, 6] ⟨"13b5", "1,2,2,2,2", 2⟩ (by decide) (by decide) (by decide) (by decide) (by decide) (by decide) stk_0_2_4_6_9_10 (by decide)).trans (by decide)

theorem det_0_2_4_5_6_9_10 : detectChord ["C4", "E4", "F#4", "A#4", "D4", "F4", "A4"] false = some "C13b5" := by
  rw [detectChord, CHORD_FORMULAS_eq]
  exact (detectChordWith_matched CHORD_FORMULAS_value ["C4", "E4", "F#4", "A#4", "D4", "F4", "A4"] false [60, 62, 64, 65, 66, 69, 70] [0, 2, 4, 5, 6, 9, 10] [9, 10, 0, 2, 4, 5, 6] ⟨"13b5", "1,2,2,2,1,1", 2⟩ (by decide) (by decide) (by decide) (by decide) (by decide) (by decide) stk_0_2_4_5_6_9_10 (by decide)).trans (by decide)

theorem det_0_1_4_7_9_10 : detectChord ["C4", "E4", "G4", "A#4", "C#4", "A4"] false = some "C13b9" := by
  rw [detectChord, CHORD_FORMULAS_eq]
  exact (detectChordWith_matched CHORD_FORMULAS_value ["C4", "E4", "G4", "A#4", "C#4", "A4"] false [60, 61, 64, 67, 69, 70] [0, 1, 4, 7, 9, 10] [7, 9, 10, 0, 1, 4] ⟨"13b9", "2,1,2,1,3", 3⟩ (by decide) (by decide) (by decide) (by decide) (by decide) (by decide) stk_0_1_4_7_9_10 (by decide)).trans (by decide)

theorem det_0_1_4_5_7_9_10 : detectChord ["C4", "E4", "G4", "A#4", "C#4", "F4", "A4"] false = some "C13b9" := by
  rw [detectChord, CHORD_FORMULAS_eq]
  exact (detectChordWith_matched CHORD_FORMULAS_value ["C4", "E4", "G4", "A#4", "C#4", "F4", "A4"] false [60, 61, 64, 65, 67, 69, 70] [0, 1, 4, 5, 7, 9, 10] [4, 5, 7, 9, 10, 0, 1] ⟨"13b9", "1,2,2,1,2,1", 5⟩ (by decide) (by decide) (by decide) (by decide) (by decide) (by decide) stk_0_1_4_5_7_9_10 (by decide)).trans (by decide)

theorem det_0_2_4_6_7_9_10 : detectChord ["C4", "E4", "G4", "A#4", "D4", "F#4", "A4"] false = some "C13#11" := by
  rw [detectChord, CHORD_FORMULAS_eq]
  exact (detectChordWith_matched CHORD_FORMULAS_value ["C4", "E4", "G4", "A#4", "D4", "F#4", "A4"] false [60, 62, 64, 66, 67, 69, 70] [0, 2, 4, 6, 7, 9, 10] [6, 7, 9, 10, 0, 2, 4] ⟨"13#11", "1,2,1,2,2,2", 4⟩ (by decide) (by decide) (by decide) (by decide) (by decide) (by decide) stk_0_2_4_6_7_9_10 (by decide)).trans (by decide)

theorem det_0_7_10 : detectChord ["C4", "G4", "A#4"] false = some "C7(no3)" := by
  rw [detectChord, CHORD_FORMULAS_eq]
  exact (detectChordWith_matched CHORD_FORMULAS_value ["C4", "G4", "A#4"] false [60, 67, 70] [0, 7, 10] [7, 10, 0] ⟨"7(no3)", "3,2", 2⟩ (by decide) (by decide) (by decide) (by decide) (by decide) (by decide) stk_0_7_10 (by decide)).trans (by decide)

theorem det_0_4_11 : detectChord ["C4", "E4", "B4"] false = some "CMaj7(no5)" := by
  rw [detectChord, CHORD_FORMULAS_eq]
  exact (detectChordWith_matched CHORD_FORMULAS_value ["C4", "E4", "B4"] false [60, 64, 71] [0, 4, 11] [11, 0, 4] ⟨"Maj7(no5)", "1,4", 1⟩ (by decide) (by decide) (by decide) (by decide) (by decide) (by decide) stk_0_4_11 (by decide)).trans (by decide)

/-!
### Round-trip of each template that satisfies it
-/

theorem rt_0 : roundTripOK (CHORD_DEFS.getD 0 ("", "")) = true := by
  show suffixOK "" (detectChord (templateQueryNotes "c,e,g") false) = true
  rw [show templateQueryNotes "c,e,g" = ["C4", "E4", "G4"] from by decide, det_0_4_7]
  decide

theorem rt_2 : roundTripOK (CHORD_DEFS.getD 2 ("", "")) = true := by
  show suffixOK "6(no3)" (detectChord (templateQueryNotes "c,g,a") false) = true
  rw [show templateQueryNotes "c,g,a" = ["C4", "G4", "A4"] from by decide, det_0_7_9]
  decide

theorem rt_3 : roundTripOK (CHORD_DEFS.getD 3 ("", "")) = true := by
  show suffixOK "Maj7" (detectChord (templateQueryNotes "c,e,g,b") false) = true
  rw [show templateQueryNotes "c,e,g,b" = ["C4", "E4", "G4", "B4"] from by decide, det_0_4_7_11]
  decide

theorem rt_4 : roundTripOK (CHORD_DEFS.getD 4 ("", "")) = true := by
  show suffixOK "Maj7(#11)" (detectChord (templateQueryNotes "c,e,f#,b") false) = true
  rw [show templateQueryNotes "c,e,f#,b" = ["C4", "E4", "F#4", "B4"] from by decide, det_0_4_6_11]
  decide

theorem rt_5 : roundTripOK (CHORD_DEFS.getD 5 ("", "")) = true := by
  show suffixOK "add9" (detectChord (templateQueryNotes "c,e,g,d") false) = true
  rw [show templateQueryNotes "c,e,g,d" = ["C4", "E4", "G4", "D4"] from by decide, det_0_2_4_7]
  decide

theorem rt_6 : roundTripOK (CHORD_DEFS.getD 6 ("", "")) = true := by
  show suffixOK "Maj7(9)" (detectChord (templateQueryNotes "c,d,e,b") false) = true
  rw [show templateQueryNotes "c,d,e,b" = ["C4", "D4", "E4", "B4"] from by decide, det_0_2_4_11]
  decide

theorem rt_7 : roundTripOK (CHORD_DEFS.getD 7 ("", "")) = true := by
  show suffixOK "6(9)" (detectChord (templateQueryNotes "c,d,e,a") false) = true
  rw [show templateQueryNotes "c,d,e,a" = ["C4", "D4", "E4", "A4"] from by decide, det_0_2_4_9]
  decide

theorem rt_8 : roundTripOK (CHORD_DEFS.getD 8 ("", "")) = true := by
  show suffixOK "+" (detectChord (templateQueryNotes "c,e,g#") false) = true
  rw [show templateQueryNotes "c,e,g#" = ["C4", "E4", "G#4"] from by decide, det_0_4_8]
  decide

theorem rt_9 : roundTripOK (CHORD_DEFS.getD 9 ("", "")) = true := by
  show suffixOK "m" (detectChord (templateQueryNotes "c,eb,g") false) = true
  rw [show templateQueryNotes "c,eb,g" = ["C4", "D#4", "G4"] from by decide, det_0_3_7]
  decide

theorem rt_10 : roundTripOK (CHORD_DEFS.getD 10 ("", "")) = true := by
  show suffixOK "madd9" (detectChord (templateQueryNotes "c,eb,g,d") false) = true
  rw [show templateQueryNotes "c,eb,g,d" = ["C4", "D#4", "G4", "D4"] from by decide, det_0_2_3_7]
  decide

theorem rt_11 : roundTripOK (CHORD_DEFS.getD 11 ("", "")) = true := by
  show suffixOK "m7" (detectChord (templateQueryNotes "c,eb,g,bb") false) = true
  rw [show templateQueryNotes "c,eb,g,bb" = ["C4", "D#4", "G4", "A#4"] from by decide, det_0_3_7_10]
  decide

theorem rt_12 : roundTripOK (CHORD_DEFS.getD 12 ("", "")) = true := by
  show suffixOK "m7(9)" (detectChord (templateQueryNotes "c,d,eb,bb") false) = true
  rw [show templateQueryNotes "c,d,eb,bb" = ["C4", "D4", "D#4", "A#4"] from by decide, det_0_2_3_10]
  decide

theorem rt_13 : roundTripOK (CHORD_DEFS.getD 13 ("", "")) = true := by
  show suffixOK "mMaj7" (detectChord (templateQueryNotes "c,eb,g,b") false) = true
  rw [show templateQueryNotes "c,eb,g,b" = ["C4", "D#4", "G4", "B4"] from by decide, det_0_3_7_11]
  decide

theorem rt_14 : roundTripOK (CHORD_DEFS.getD 14 ("", "")) = true := by
  show suffixOK "mMaj7(9)" (detectChord (templateQueryNotes "c,d,eb,b") false) = true
  rw [show templateQueryNotes "c,d,eb,b" = ["C4", "D4", "D#4", "B4"] from by decide, det_0_2_3_11]
  decide

theorem rt_15 : roundTripOK (CHORD_DEFS.getD 15 ("", "")) = true := by
  show suffixOK "dim" (detectChord (templateQueryNotes "c,eb,f#") false) = true
  rw [show templateQueryNotes "c,eb,f#" = ["C4", "D#4", "F#4"] from by decide, det_0_3_6]
  decide

theorem rt_16 : roundTripOK (CHORD_DEFS.getD 16 ("", "")) = true := by
  show suffixOK "dim7" (detectChord (templateQueryNotes "c,eb,f#,a") false) = true
  rw [show templateQueryNotes "c,eb,f#,a" = ["C4", "D#4", "F#4", "A4"] from by decide, det_0_3_6_9]
  decide

theorem rt_17 : roundTripOK (CHORD_DEFS.getD 17 ("", "")) = true := by
  show suffixOK "7" (detectChord (templateQueryNotes "c,e,g,bb") false) = true
  rw [show templateQueryNotes "c,e,g,bb" = ["C4", "E4", "G4", "A#4"] from by decide, det_0_4_7_10]
  decide

theorem rt_18 : roundTripOK (CHORD_DEFS.getD 18 ("", "")) = true := by
  show suffixOK "7(no5)" (detectChord (templateQueryNotes "c,e,bb") false) = true
  rw [show templateQueryNotes "c,e,bb" = ["C4", "E4", "A#4"] from by decide, det_0_4_10]
  decide

theorem rt_19 : roundTripOK (CHORD_DEFS.getD 19 ("", "")) = true := by
  show suffixOK "7sus4" (detectChord (templateQueryNotes "c,f,g,bb") false) = true
  rw [show templateQueryNotes "c,f,g,bb" = ["C4", "F4", "G4", "A#4"] from by decide, det_0_5_7_10]
  decide

theorem rt_20 : roundTripOK (CHORD_DEFS.getD 20 ("", "")) = true := by
  show suffixOK "7(b5)" (detectChord (templateQueryNotes "c,e,f#,bb") false) = true
  rw [show templateQueryNotes "c,e,f#,bb" = ["C4", "E4", "F#4", "A#4"] from by decide, det_0_4_6_10]
  decide

theorem rt_21 : roundTripOK (CHORD_DEFS.getD 21 ("", "")) = true := by
  show suffixOK "7(9)" (detectChord (templateQueryNotes "c,d,e,bb") false) = true
  rw [show templateQueryNotes "c,d,e,bb" = ["C4", "D4", "E4", "A#4"] from by decide, det_0_2_4_10]
  decide

theorem rt_22 : roundTripOK (CHORD_DEFS.getD 22 ("", "")) = true := by
  show suffixOK "7(13)" (detectChord (templateQueryNotes "c,e,a,bb") false) = true
  rw [show templateQueryNotes "c,e,a,bb" = ["C4", "E4", "A4", "A#4"] from by decide, det_0_4_9_10]
  decide

theorem rt_23 : roundTripOK (CHORD_DEFS.getD 23 ("", "")) = true := by
  show suffixOK "7(b9)" (detectChord (templateQueryNotes "c,c#,e,bb") false) = true
  rw [show templateQueryNotes "c,c#,e,bb" = ["C4", "C#4", "E4", "A#4"] from by decide, det_0_1_4_10]
  decide

theorem rt_24 : roundTripOK (CHORD_DEFS.getD 24 ("", "")) = true := by
  show suffixOK "+7" (detectChord (templateQueryNotes "c,e,g#,bb") false) = true
  rw [show templateQueryNotes "c,e,g#,bb" = ["C4", "E4", "G#4", "A#4"] from by decide, det_0_4_8_10]
  decide

theorem rt_25 : roundTripOK (CHORD_DEFS.getD 25 ("", "")) = true := by
  show suffixOK "7(#9)" (detectChord (templateQueryNotes "c,eb,e,bb") false) = true
  rw [show templateQueryNotes "c,eb,e,bb" = ["C4", "D#4", "E4", "A#4"] from by decide, det_0_3_4_10]
  decide

theorem rt_26 : roundTripOK (CHORD_DEFS.getD 26 ("", "")) = true := by
  show suffixOK "sus4" (detectChord (templateQueryNotes "c,f,g") false) = true
  rw [show templateQueryNotes "c,f,g" = ["C4", "F4", "G4"] from by decide, det_0_5_7]
  decide

theorem rt_27 : roundTripOK (CHORD_DEFS.getD 27 ("", "")) = true := by
  show suffixOK "6add9" (detectChord (templateQueryNotes "c,e,g,a,d") false) = true
  rw [show templateQueryNotes "c,e,g,a,d" = ["C4", "E4", "G4", "A4", "D4"] from by decide, det_0_2_4_7_9]
  decide

theorem rt_28 : roundTripOK (CHORD_DEFS.getD 28 ("", "")) = true := by
  show suffixOK "Maj9" (detectChord (templateQueryNotes "c,e,g,b,d") false) = true
  rw [show templateQueryNotes "c,e,g,b,d" = ["C4", "E4", "G4", "B4", "D4"] from by decide, det_0_2_4_7_11]
  decide

theorem rt_29 : roundTripOK (CHORD_DEFS.getD 29 ("", "")) = true := by
  show suffixOK "9" (detectChord (templateQueryNotes "c,e,g,bb,d") false) = true
  rw [show templateQueryNotes "c,e,g,bb,d" = ["C4", "E4", "G4", "A#4", "D4"] from by decide, det_0_2_4_7_10]
  decide

theorem rt_30 : roundTripOK (CHORD_DEFS.getD 30 ("", "")) = true := by
  show suffixOK "13" (detectChord (templateQueryNotes "c,e,g,bb,d,a") false) = true
  rw [show templateQueryNotes "c,e,g,bb,d,a" = ["C4", "E4", "G4", "A#4", "D4", "A4"] from by decide, det_0_2_4_7_9_10]
  decide

theorem rt_31 : roundTripOK (CHORD_DEFS.getD 31 ("", "")) = true := by
  show suffixOK "13" (detectChord (templateQueryNotes "c,e,g,bb,d,f,a") false) = true
  rw [show templateQueryNotes "c,e,g,bb,d,f,a" = ["C4", "E4", "G4", "A#4", "D4", "F4", "A4"] from by decide, det_0_2_4_5_7_9_10]
  decide

theorem rt_32 : roundTripOK (CHORD_DEFS.getD 32 ("", "")) = true := by
  show suffixOK "13" (detectChord (templateQueryNotes "c,e,bb,d,a") false) = true
  rw [show templateQueryNotes "c,e,bb,d,a" = ["C4", "E4", "A#4", "D4", "A4"] from by decide, det_0_2_4_9_10]
  decide

theorem rt_33 : roundTripOK (CHORD_DEFS.getD 33 ("", "")) = true := by
  show suffixOK "m6" (detectChord (templateQueryNotes "c,eb,g,a") false) = true
  rw [show templateQueryNotes "c,eb,g,a" = ["C4", "D#4", "G4", "A4"] from by decide, det_0_3_7_9]
  decide

theorem rt_34 : roundTripOK (CHORD_DEFS.getD 34 ("", "")) = true := by
  show suffixOK "m6add9" (detectChord (templateQueryNotes "c,eb,g,a,d") false) = true
  rw [show templateQueryNotes "c,eb,g,a,d" = ["C4", "D#4", "G4", "A4", "D4"] from by decide, det_0_2_3_7_9]
  decide

theorem rt_35 : roundTripOK (CHORD_DEFS.getD 35 ("", "")) = true := by
  show suffixOK "m6/9" (detectChord (templateQueryNotes "c,eb,a,d") false) = true
  rw [show templateQueryNotes "c,eb,a,d" = ["C4", "D#4", "A4", "D4"] from by decide, det_0_2_3_9]
  decide

theorem rt_36 : roundTripOK (CHORD_DEFS.getD 36 ("", "")) = true := by
  show suffixOK "m7add13" (detectChord (templateQueryNotes "c,eb,g,a,bb") false) = true
  rw [show templateQueryNotes "c,eb,g,a,bb" = ["C4", "D#4", "G4", "A4", "A#4"] from by decide, det_0_3_7_9_10]
  decide

theorem rt_37 : roundTripOK (CHORD_DEFS.getD 37 ("", "")) = true := by
  show suffixOK "m9" (detectChord (templateQueryNotes "c,eb,g,bb,d") false) = true
  rw [show templateQueryNotes "c,eb,g,bb,d" = ["C4", "D#4", "G4", "A#4", "D4"] from by decide, det_0_2_3_7_10]
  decide

theorem rt_38 : roundTripOK (CHORD_DEFS.getD 38 ("", "")) = true := by
  show suffixOK "m11" (detectChord (templateQueryNotes "c,eb,g,bb,d,f") false) = true
  rw [show templateQueryNotes "c,eb,g,bb,d,f" = ["C4", "D#4", "G4", "A#4", "D4", "F4"] from by decide, det_0_2_3_5_7_10]
  decide

theorem rt_39 : roundTripOK (CHORD_DEFS.getD 39 ("", "")) = true := by
  show suffixOK "m11" (detectChord (templateQueryNotes "c,eb,bb,d,f") false) = true
  rw [show templateQueryNotes "c,eb,bb,d,f" = ["C4", "D#4", "A#4", "D4", "F4"] from by decide, det_0_2_3_5_10]
  decide

theorem rt_41 : roundTripOK (CHORD_DEFS.getD 41 ("", "")) = true := by
  show suffixOK "m9/Maj7" (detectChord (templateQueryNotes "c,eb,g,b,d") false) = true
  rw [show templateQueryNotes "c,eb,g,b,d" = ["C4", "D#4", "G4", "B4", "D4"] from by decide, det_0_2_3_7_11]
  decide

theorem rt_42 : roundTripOK (CHORD_DEFS.getD 42 ("", "")) = true := by
  show suffixOK "m9(b5)" (detectChord (templateQueryNotes "c,eb,gb,bb,d") false) = true
  rw [show templateQueryNotes "c,eb,gb,bb,d" = ["C4", "D#4", "F#4", "A#4", "D4"] from by decide, det_0_2_3_6_10]
  decide

theorem rt_43 : roundTripOK (CHORD_DEFS.getD 43 ("", "")) = true := by
  show suffixOK "m11(b5)" (detectChord (templateQueryNotes "c,eb,gb,bb,d,f") false) = true
  rw [show templateQueryNotes "c,eb,gb,bb,d,f" = ["C4", "D#4", "F#4", "A#4", "D4", "F4"] from by decide, det_0_2_3_5_6_10]
  decide

theorem rt_44 : roundTripOK (CHORD_DEFS.getD 44 ("", "")) = true := by
  show suffixOK "Maj7(#5)" (detectChord (templateQueryNotes "c,e,g#,b") false) = true
  rw [show templateQueryNotes "c,e,g#,b" = ["C4", "E4", "G#4", "B4"] from by decide, det_0_4_8_11]
  decide

theorem rt_45 : roundTripOK (CHORD_DEFS.getD 45 ("", "")) = true := by
  show suffixOK "Maj7(#11)" (detectChord (templateQueryNotes "c,e,g,b,f#") false) = true
  rw [show templateQueryNotes "c,e,g,b,f#" = ["C4", "E4", "G4", "B4", "F#4"] from by decide, det_0_4_6_7_11]
  decide

theorem rt_46 : roundTripOK (CHORD_DEFS.getD 46 ("", "")) = true := by
  show suffixOK "Maj9(#11)" (detectChord (templateQueryNotes "c,e,g,b,d,f#") false) = true
  rw [show templateQueryNotes "c,e,g,b,d,f#" = ["C4", "E4", "G4", "B4", "D4", "F#4"] from by decide, det_0_2_4_6_7_11]
  decide

theorem rt_47 : roundTripOK (CHORD_DEFS.getD 47 ("", "")) = true := by
  show suffixOK "7(b9)" (detectChord (templateQueryNotes "c,e,g,bb,db") false) = true
  rw [show templateQueryNotes "c,e,g,bb,db" = ["C4", "E4", "G4", "A#4", "C#4"] from by decide, det_0_1_4_7_10]
  decide

theorem rt_48 : roundTripOK (CHORD_DEFS.getD 48 ("", "")) = true := by
  show suffixOK "7(#9)" (detectChord (templateQueryNotes "c,e,g,bb,d#") false) = true
  rw [show templateQueryNotes "c,e,g,bb,d#" = ["C4", "E4", "G4", "A#4", "D#4"] from by decide, det_0_3_4_7_10]
  decide

theorem rt_49 : roundTripOK (CHORD_DEFS.getD 49 ("", "")) = true := by
  show suffixOK "7(#5)(#9)" (detectChord (templateQueryNotes "c,e,g#,bb,d#") false) = true
  rw [show templateQueryNotes "c,e,g#,bb,d#" = ["C4", "E4", "G#4", "A#4", "D#4"] from by decide, det_0_3_4_8_10]
  decide

theorem rt_50 : roundTripOK (CHORD_DEFS.getD 50 ("", "")) = true := by
  show suffixOK "7(#11)" (detectChord (templateQueryNotes "c,e,g,bb,f#") false) = true
  rw [show templateQueryNotes "c,e,g,bb,f#" = ["C4", "E4", "G4", "A#4", "F#4"] from by decide, det_0_4_6_7_10]
  decide

theorem rt_51 : roundTripOK (CHORD_DEFS.getD 51 ("", "")) = true := by
  show suffixOK "9(#11)" (detectChord (templateQueryNotes "c,e,g,bb,d,f#") false) = true
  rw [show templateQueryNotes "c,e,g,bb,d,f#" = ["C4", "E4", "G4", "A#4", "D4", "F#4"] from by decide, det_0_2_4_6_7_10]
  decide

theorem rt_53 : roundTripOK (CHORD_DEFS.getD 53 ("", "")) = true := by
  show suffixOK "13b5" (detectChord (templateQueryNotes "c,e,gb,bb,d,a") false) = true
  rw [show templateQueryNotes "c,e,gb,bb,d,a" = ["C4", "E4", "F#4", "A#4", "D4", "A4"] from by decide, det_0_2_4_6_9_10]
  decide

theorem rt_54 : roundTripOK (CHORD_DEFS.getD 54 ("", "")) = true := by
  show suffixOK "13b5" (detectChord (templateQueryNotes "c,e,gb,bb,d,f,a") false) = true
  rw [show templateQueryNotes "c,e,gb,bb,d,f,a" = ["C4", "E4", "F#4", "A#4", "D4", "F4", "A4"] from by decide, det_0_2_4_5_6_9_10]
  decide

theorem rt_55 : roundTripOK (CHORD_DEFS.getD 55 ("", "")) = true := by
  show suffixOK "13b9" (detectChord (templateQueryNotes "c,e,g,bb,db,a") false) = true
  rw [show templateQueryNotes "c,e,g,bb,db,a" = ["C4", "E4", "G4", "A#4", "C#4", "A4"] from by decide, det_0_1_4_7_9_10]
  decide

theorem rt_56 : roundTripOK (CHORD_DEFS.getD 56 ("", "")) = true := by
  show suffixOK "13b9" (detectChord (templateQueryNotes "c,e,g,bb,db,f,a") false) = true
  rw [show templateQueryNotes "c,e,g,bb,db,f,a" = ["C4", "E4", "G4", "A#4", "C#4", "F4", "A4"] from by decide, det_0_1_4_5_7_9_10]
  decide

theorem rt_57 : roundTripOK (CHORD_DEFS.getD 57 ("", "")) = true := by
  show suffixOK "13#11" (detectChord (templateQueryNotes "c,e,g,bb,d,f#,a") false) = true
  rw [show templateQueryNotes "c,e,g,bb,d,f#,a" = ["C4", "E4", "G4", "A#4", "D4", "F#4", "A4"] from by decide, det_0_2_4_6_7_9_10]
  decide

theorem rt_58 : roundTripOK (CHORD_DEFS.getD 58 ("", "")) = true := by
  show suffixOK "7(no3)" (detectChord (templateQueryNotes "c,g,bb") false) = true
  rw [show templateQueryNotes "c,g,bb" = ["C4", "G4", "A#4"] from by decide, det_0_7_10]
  decide

theorem rt_59 : roundTripOK (CHORD_DEFS.getD 59 ("", "")) = true := by
  show suffixOK "Maj7(no5)" (detectChord (templateQueryNotes "c,e,b") false) = true
  rw [show templateQueryNotes "c,e,b" = ["C4", "E4", "B4"] from by decide, det_0_4_11]
  decide

/-!
### The remaining claims
-/

/-- C3: when the detector finds a database match for three or more notes,
the name is the root's note name followed by the template's display name,
where the root pitch class is the canonical ordering's element at the
template's `rootIndex` — except that for the templates named `"dim7"` and
`"+"` the root is overridden to the bass pitch class — and `"/" + bassName`
is appended exactly when the resolved root differs from the bass pitch
class. -/
theorem C3_matched_name (notes : List String) (u : Bool)
    (midis classes stacked : List Int) (f : ChordFormula)
    (hne : notes.length ≠ 0)
    (hm : (notes.map noteToMidi).insertionSort (fun a b => a ≤ b) = midis)
    (h3 : 3 ≤ midis.length)
    (hcl : setDedup (midis.map (fun n => Int.tmod n 12)) = classes)
    (hsmall : ¬ 9 ≤ classes.length)
    (hst : getAsStackedChord classes = stacked)
    (hfind : CHORD_FORMULAS.find?
      (fun g => g.pattern = joinComma (getIntervalPattern stacked)) = some f) :
    detectChord notes u =
      some (if (if f.name = "dim7" ∨ f.name = "+"
            then Int.tmod (midis.headD 0) 12
            else stacked.getD f.rootIndex.toNat 0) ≠ Int.tmod (midis.headD 0) 12
        then midiToNoteName (if f.name = "dim7" ∨ f.name = "+"
              then Int.tmod (midis.headD 0) 12
              else stacked.getD f.rootIndex.toNat 0) (!u) ++ f.name ++ "/" ++
            midiToNoteName (Int.tmod (midis.headD 0) 12) (!u)
        else midiToNoteName (if f.name = "dim7" ∨ f.name = "+"
              then Int.tmod (midis.headD 0) 12
              else stacked.getD f.rootIndex.toNat 0) (!u) ++ f.name) := by
  rw [detectChord]
  exact detectChordWith_matched CHORD_FORMULAS notes u midis classes stacked f
    hne hm (by omega) (by omega) hcl hsmall hst hfind

/-- Witness for C3: the first inversion of C major resolves to `"C/E"`. -/
theorem C3_matched_name_witness :
    detectChord ["E4", "G4", "C5"] false = some "C/E" := by
  have h := C3_matched_name ["E4", "G4", "C5"] false [64, 67, 72] [4, 7, 0]
    [0, 4, 7] ⟨"", "4,3", 0⟩ (by decide) (by decide) (by decide) (by decide)
    (by decide) (by decide) (by rw [CHORD_FORMULAS_eq]; decide)
  exact h.trans (by decide)

theorem detectChordWith_isSome (db : List ChordFormula) (notes : List String)
    (u : Bool) (hne : notes ≠ []) :
    (detectChordWith db notes u).isSome = true := by
  have hlen : ¬ (notes.length = 0) := by
    rw [List.length_eq_zero]
    exact hne
  simp only [detectChordWith]
  rw [if_neg hlen]
  iterate 6 (all_goals (first | rfl | split))

/-- C6: the detector returns no result exactly on the empty list — the
empty input gives `none`, and every nonempty input produces some display
string (never an error), whatever the database holds. -/
theorem C6_none_iff_empty (notes : List String) (u : Bool) :
    detectChord [] u = none ∧
    (notes ≠ [] → (detectChord notes u).isSome = true) := by
  refine ⟨rfl, fun hne => ?_⟩
  rw [detectChord]
  exact detectChordWith_isSome CHORD_FORMULAS notes u hne

/-- Witness for C6 at the empty list and a one-note list. -/
theorem C6_none_iff_empty_witness :
    detectChord [] false = none ∧
    (detectChord ["C4"] false).isSome = true :=
  ⟨(C6_none_iff_empty ["C4"] false).1,
   (C6_none_iff_empty ["C4"] false).2 (by decide)⟩

/-- C7: for three or more notes whose distinct pitch-class count is at
least 9, the detector returns `"<bass pitch-class name> Note Soup"`, and
it does so for every database — the permutation search and the lookup are
never consulted. -/
theorem C7_note_soup (notes : List String) (u : Bool)
    (h3 : 3 ≤ notes.length)
    (h9 : 9 ≤ (setDedup (((notes.map noteToMidi).insertionSort
      (fun a b => a ≤ b)).map (fun n => Int.tmod n 12))).length) :
    (∀ db : List ChordFormula, detectChordWith db notes u =
      some (midiToNoteName (((notes.map noteToMidi).insertionSort
        (fun a b => a ≤ b)).headD 0) (!u) ++ " Note Soup")) ∧
    detectChord notes u =
      some (midiToNoteName (((notes.map noteToMidi).insertionSort
        (fun a b => a ≤ b)).headD 0) (!u) ++ " Note Soup") := by
  have hlm : ((notes.map noteToMidi).insertionSort
      (fun a b => a ≤ b)).length = notes.length := by
    rw [List.length_insertionSort, List.length_map]
  have hall : ∀ db : List ChordFormula, detectChordWith db notes u =
      some (midiToNoteName (((notes.map noteToMidi).insertionSort
        (fun a b => a ≤ b)).headD 0) (!u) ++ " Note Soup") := by
    intro db
    simp only [detectChordWith]
    rw [if_neg (show ¬ (notes.length = 0) by omega),
      if_neg (show ¬ (((notes.map noteToMidi).insertionSort
        (fun a b => a ≤ b)).length = 1) by rw [hlm]; omega),
      if_neg (show ¬ (((notes.map noteToMidi).insertionSort
        (fun a b => a ≤ b)).length = 2) by rw [hlm]; omega),
      if_pos h9]
  exact ⟨hall, hall CHORD_FORMULAS⟩

/-- Witness for C7: nine chromatic notes from C4 resolve to
`"C Note Soup"`. -/
theorem C7_note_soup_witness :
    detectChord ["C4", "C#4", "D4", "D#4", "E4", "F4", "F#4", "G4", "G#4"]
      false = some "C Note Soup" := by
  have h := (C7_note_soup
    ["C4", "C#4", "D4", "D#4", "E4", "F4", "F#4", "G4", "G#4"] false
    (by decide) (by decide)).2
  exact h.trans (by decide)

/-- C9 counterexample: the two-note template `"5"` never reaches the
database on the way back in — two notes take the interval branch — so its
round trip yields `"Perfect 5th (C, G)"`, which does not end in `"5"`. -/
theorem C9_counterexample :
    detectChord (templateQueryNotes "c,g") false =
      some "Perfect 5th (C, G)" ∧
    roundTripOK (CHORD_DEFS.getD 1 ("", "")) = false := by
  decide

/-- C9 amended: every template of the database except the three at
indices 1 (`"5"`, diverted to the two-note interval branch), 40 (`"m13"`,
whose pattern is shadowed by the earlier `"13"` template and resolves to
`"F13/C"`), and 52 (`"7(b9)(#11)"`, whose tritone-symmetric set resolves
to `"F#7(b9)(#11)/C"`) round-trips: feeding its defining note set at
octave 4 back through the detector yields a name whose suffix is the
template's display name. -/
theorem C9_roundtrip (i : Nat) (h : i < 60) (h1 : i ≠ 1) (h40 : i ≠ 40)
    (h52 : i ≠ 52) :
    roundTripOK (CHORD_DEFS.getD i ("", "")) = true := by
  interval_cases i
  · exact rt_0
  · exact absurd rfl h1
  · exact rt_2
  · exact rt_3
  · exact rt_4
  · exact rt_5
  · exact rt_6
  · exact rt_7
  · exact rt_8
  · exact rt_9
  · exact rt_10
  · exact rt_11
  · exact rt_12
  · exact rt_13
  · exact rt_14
  · exact rt_15
  · exact rt_16
  · exact rt_17
  · exact rt_18
  · exact rt_19
  · exact rt_20
  · exact rt_21
  · exact rt_22
  · exact rt_23
  · exact rt_24
  · exact rt_25
  · exact rt_26
  · exact rt_27
  · exact rt_28
  · exact rt_29
  · exact rt_30
  · exact rt_31
  · exact rt_32
  · exact rt_33
  · exact rt_34
  · exact rt_35
  · exact rt_36
  · exact rt_37
  · exact rt_38
  · exact rt_39
  · exact absurd rfl h40
  · exact rt_41
  · exact rt_42
  · exact rt_43
  · exact rt_44
  · exact rt_45
  · exact rt_46
  · exact rt_47
  · exact rt_48
  · exact rt_49
  · exact rt_50
  · exact rt_51
  · exact absurd rfl h52
  · exact rt_53
  · exact rt_54
  · exact rt_55
  · exact rt_56
  · exact rt_57
  · exact rt_58
  · exact rt_59

/-- Witness for the amended C9 at the first template (the plain major
triad). -/
theorem C9_roundtrip_witness :
    roundTripOK (CHORD_DEFS.getD 0 ("", "")) = true :=
  C9_roundtrip 0 (by decide) (by decide) (by decide) (by decide)

/-- C10: after initialization the database is exactly the 60 templates of
the top-level `defineChord` calls in order; the supplementary block is
dead (the array is nonempty when its guard runs), so no member — in
particular no formula a lookup can ever select — is named `"m(maj9)"` or
`"m7(b9)"`. -/
theorem C10_database (pred : ChordFormula → Bool) (f : ChordFormula)
    (hf : CHORD_FORMULAS.find? pred = some f) :
    CHORD_FORMULAS = CHORD_DEFS.map (fun p => defineChord p.1 p.2) ∧
    CHORD_FORMULAS.length = 60 ∧
    (∀ g ∈ CHORD_FORMULAS, g.name ≠ "m(maj9)" ∧ g.name ≠ "m7(b9)") ∧
    f.name ≠ "m(maj9)" ∧ f.name ≠ "m7(b9)" := by
  have hmem : ∀ g ∈ CHORD_FORMULAS, g.name ≠ "m(maj9)" ∧ g.name ≠ "m7(b9)" := by
    rw [CHORD_FORMULAS_eq]
    decide
  have hlen : CHORD_FORMULAS_base.length = 60 := by
    rw [CHORD_FORMULAS_base_eq]
    rfl
  have hbase : CHORD_FORMULAS = CHORD_FORMULAS_base := by
    simp only [CHORD_FORMULAS]
    rw [if_neg (by rw [hlen]; decide)]
  refine ⟨hbase, ?_, hmem, hmem f (List.mem_of_find?_eq_some hf)⟩
  rw [CHORD_FORMULAS_eq]
  rfl

/-- Witness for C10 at the lookup that selects the major-triad template. -/
theorem C10_database_witness :
    CHORD_FORMULAS = CHORD_DEFS.map (fun p => defineChord p.1 p.2) ∧
    CHORD_FORMULAS.length = 60 ∧
    (∀ g ∈ CHORD_FORMULAS, g.name ≠ "m(maj9)" ∧ g.name ≠ "m7(b9)") ∧
    (⟨"", "4,3", 0⟩ : ChordFormula).name ≠ "m(maj9)" ∧
    (⟨"", "4,3", 0⟩ : ChordFormula).name ≠ "m7(b9)" :=
  C10_database (fun g => g.pattern = "4,3") ⟨"", "4,3", 0⟩
    (by rw [CHORD_FORMULAS_eq]; decide)

end ChordDetector
